import Mathlib

/-!
# ArenaSDK example programs: a verification development

The example programs of this repository are short sequences of calls into the
vendor's driver library.  The library itself is a closed binary, so every example
is embedded here as a Lean function over an arbitrary library behaviour: a
transition function `sdk : W → Call → Resp × W` on an arbitrary state type `W`
answers each call, and the program records what it does (library calls with
their answers, `printf` and `getchar`) in a trace.  Theorems quantify over every
`W`, every `sdk` and every starting state, so they speak about every run.

The C examples are programs of `Prog W`.  The C++ examples may throw: their
functions are programs of `ProgX W`, which end with a value or an exception, a
library call throws when its answer says so, and each `main` is the `try` block
followed by its `catch` clauses.
-/

namespace ArenaSDK

/-! ## The C interface (`ArenaCApi.h`, `SaveCApi.h`) -/

/-- Modelled from the spec: the header `ArenaCApi.h`, which declares the error
codes, is not among the sources.  The three codes the examples name are kept as
distinct constants; `AC_ERR_OTHER n` stands for any further code of the header.
The numeric values are not used. -/
inductive AC_ERROR
  | AC_ERR_SUCCESS
  | AC_ERR_ERROR
  | AC_ERR_INVALID_VALUE
  | AC_ERR_OTHER (n : Nat)
deriving DecidableEq, Repr

/-- The save library's error type: `C_Save_Jpeg.c` notes that "AC_ERROR and
SC_ERROR values are equivalent" and returns one as the other. -/
abbrev SC_ERROR := AC_ERROR

/-- Success code of the save library, the same value as `AC_ERR_SUCCESS`. -/
abbrev SC_ERR_SUCCESS : SC_ERROR := AC_ERROR.AC_ERR_SUCCESS

/-- Modelled from the spec: the access modes of `ArenaCApi.h`, which is not among
the sources: not implemented, not available, write only, read only, read and
write; `AC_ACCESS_MODE_OTHER n` stands for any further value. -/
inductive AC_ACCESS_MODE
  | AC_ACCESS_MODE_NI
  | AC_ACCESS_MODE_NA
  | AC_ACCESS_MODE_WO
  | AC_ACCESS_MODE_RO
  | AC_ACCESS_MODE_RW
  | AC_ACCESS_MODE_OTHER (n : Nat)
deriving DecidableEq, Repr

/-- Modelled from the spec: the interface types of `ArenaCApi.h`, which is not
among the sources.  The examples name only the category type;
`AC_INTERFACE_TYPE_OTHER n` stands for any other type. -/
inductive AC_INTERFACE_TYPE
  | AC_INTERFACE_TYPE_CATEGORY
  | AC_INTERFACE_TYPE_OTHER (n : Nat)
deriving DecidableEq, Repr

/-- A C++ exception, told apart by the `catch` clause that receives it:
`GenICam::GenericException`, `std::exception` (with the text of `what()`), or
anything else. -/
inductive Exception
  | generic (what : String)
  | standard (what : String)
  | unexpected
deriving DecidableEq, Repr

/-- Handles of the library (`acSystem`, `acDevice`, `acNodeMap`, `acNode`,
`acBuffer`, `saveWriter`, data pointers) are opaque; `NULL` is `0`. -/
abbrev Handle := Nat

/-- The null handle. -/
abbrev NULL : Handle := 0

/-- Calls on the system: opening and closing it, the list of devices, creating
and destroying a device, the last error message.  Output parameters are in the
answer, see `Resp`. -/
inductive SystemCall
  | acOpenSystem
  | acCloseSystem (hSystem : Handle)
  | acSystemUpdateDevices (hSystem : Handle) (timeout : Nat)
  | acSystemGetNumDevices (hSystem : Handle)
  | acSystemGetDeviceVendor (hSystem : Handle) (index : Nat)
  | acSystemGetDeviceModel (hSystem : Handle) (index : Nat)
  | acSystemGetDeviceSerial (hSystem : Handle) (index : Nat)
  | acSystemGetDeviceMacAddressStr (hSystem : Handle) (index : Nat)
  | acSystemGetDeviceIpAddressStr (hSystem : Handle) (index : Nat)
  | acSystemCreateDevice (hSystem : Handle) (index : Nat)
  | acSystemDestroyDevice (hSystem : Handle) (hDevice : Handle)
  | acSystemGetTLSystemNodeMap (hSystem : Handle)
  | acGetLastErrorMessage
deriving DecidableEq, Repr

/-- Calls on a device: its node maps, the stream, the buffers.  Output parameters are in the
answer, see `Resp`. -/
inductive DeviceCall
  | acDeviceGetNodeMap (hDevice : Handle)
  | acDeviceGetTLStreamNodeMap (hDevice : Handle)
  | acDeviceGetTLDeviceNodeMap (hDevice : Handle)
  | acDeviceGetTLInterfaceNodeMap (hDevice : Handle)
  | acDeviceStartStream (hDevice : Handle)
  | acDeviceStopStream (hDevice : Handle)
  | acDeviceGetBuffer (hDevice : Handle) (timeout : Nat)
  | acDeviceRequeueBuffer (hDevice : Handle) (hBuffer : Handle)
deriving DecidableEq, Repr

/-- Calls on a node map, a node or the value of a node.  Output parameters are in the
answer, see `Resp`. -/
inductive NodeCall
  | acNodeMapGetNodeAndAccessMode (hNodeMap : Handle) (nodeName : String)
  | acNodeMapGetNodeByIndex (hNodeMap : Handle) (index : Nat)
  | acNodeMapSetEnumerationValue (hNodeMap : Handle) (nodeName : String) (value : String)
  | acNodeMapSetBooleanValue (hNodeMap : Handle) (nodeName : String) (value : Bool)
  | acNodeMapSetIntegerValue (hNodeMap : Handle) (nodeName : String) (value : Int)
  | acNodeMapSetStringValue (hNodeMap : Handle) (nodeName : String) (value : String)
  | acNodeMapGetStringValue (hNodeMap : Handle) (nodeName : String)
  | acValueToString (hNode : Handle)
  | acValueFromString (hNode : Handle) (value : String)
  | acNodeGetDisplayName (hNode : Handle)
  | acNodeGetName (hNode : Handle)
  | acNodeGetAccessMode (hNode : Handle)
  | acNodeGetVisibility (hNode : Handle)
  | acNodeGetPrincipalInterfaceType (hNode : Handle)
  | acIsReadable (hNode : Handle)
  | acCategoryGetNumFeatures (hNode : Handle)
  | acCategoryGetFeature (hNode : Handle) (index : Nat)
deriving DecidableEq, Repr

/-- Calls on a buffer or an image, and the image factory.  Output parameters are in the
answer, see `Resp`. -/
inductive ImageCall
  | acBufferGetSizeFilled (hBuffer : Handle)
  | acImageGetWidth (hBuffer : Handle)
  | acImageGetHeight (hBuffer : Handle)
  | acImageGetTimestampNs (hBuffer : Handle)
  | acImageGetBitsPerPixel (hBuffer : Handle)
  | acImageGetPixelFormat (hBuffer : Handle)
  | acImageGetData (hBuffer : Handle)
  | acImageFactoryConvert (hBuffer : Handle) (pixelFormat : String)
  | acImageFactoryDestroy (hBuffer : Handle)
deriving DecidableEq, Repr

/-- Calls into the save library (`SaveCApi.h`).  Output parameters are in the
answer, see `Resp`. -/
inductive SaveCall
  | saveWriterCreate (width height bpp : Nat)
  | saveWriterSetFileNamePattern (hWriter : Handle) (filename : String)
  | saveWriterSetJpegAndConfig (hWriter : Handle) (quality : Nat) (progressive : Bool)
      (subsampling : String) (optimize : Bool)
  | saveWriterSave (hWriter : Handle) (pData : Handle)
  | saveWriterDestroy (hWriter : Handle)
deriving DecidableEq, Repr

/-- Calls of the C++ interface (`ArenaApi.h`) on the system and on the entries of
the device list; an entry is named by its index in the list. -/
inductive CppSystemCall
  | OpenSystem
  | CloseSystem (pSystem : Handle)
  | UpdateDevices (pSystem : Handle) (timeout : Nat)
  | GetDevices (pSystem : Handle)
  | CreateDevice (pSystem : Handle) (deviceInfo : Nat)
  | DestroyDevice (pSystem : Handle) (pDevice : Handle)
  | VendorName (deviceInfo : Nat)
  | ModelName (deviceInfo : Nat)
  | SerialNumber (deviceInfo : Nat)
  | MacAddressStr (deviceInfo : Nat)
  | IpAddressStr (deviceInfo : Nat)
deriving DecidableEq, Repr

/-- Calls of the C++ interface on a device, a node map or a node.
`GetNodeValue` and `SetNodeValue` are the templates `Arena::GetNodeValue<T>` and
`Arena::SetNodeValue<T>` at the types the examples use. -/
inductive CppDeviceCall
  | GetNodeMap (pDevice : Handle)
  | GetTLStreamNodeMap (pDevice : Handle)
  | GetTLDeviceNodeMap (pDevice : Handle)
  | GetNode (pNodeMap : Handle) (nodeName : String)
  | IsImplemented (pNode : Handle)
  | GetNodeValueInt (pNodeMap : Handle) (nodeName : String)
  | GetNodeValueString (pNodeMap : Handle) (nodeName : String)
  | SetNodeValueString (pNodeMap : Handle) (nodeName : String) (value : String)
  | SetNodeValueBool (pNodeMap : Handle) (nodeName : String) (value : Bool)
  | SetNodeValueInt (pNodeMap : Handle) (nodeName : String) (value : Int)
  | StartStream (pDevice : Handle)
  | StopStream (pDevice : Handle)
  | GetImage (pDevice : Handle) (timeout : Nat)
  | RequeueBuffer (pDevice : Handle) (pImage : Handle)
deriving DecidableEq, Repr

/-- A pixel format of the header `PFNCFormat.h`, which is not among the sources:
either the enumerator named in the program text (`BGR8`), or the number an
image reports, cast to the enumeration. -/
inductive PfncFormat
  | named (enumerator : String)
  | value (n : Nat)
deriving DecidableEq, Repr

/-- Calls of the C++ interface on an image, the image factory and the save
library (`SaveApi.h`). -/
inductive CppImageCall
  | GetSizeFilled (pImage : Handle)
  | GetWidth (pImage : Handle)
  | GetHeight (pImage : Handle)
  | GetPixelFormat (pImage : Handle)
  | GetTimestampNs (pImage : Handle)
  | GetBitsPerPixel (pImage : Handle)
  | GetData (pImage : Handle)
  | GetPixelFormatName (pixelFormat : PfncFormat)
  | Convert (pImage : Handle) (pixelFormat : PfncFormat)
  | Destroy (pImage : Handle)
  | ImageParams (width height bpp : Nat)
  | ImageWriter (params : Handle) (filename : String)
  | SetBmp (writer : Handle) (extension : String)
  | SetJpeg (writer : Handle) (extension : String) (quality : Nat) (progressive : Bool)
      (subsampling : String) (optimize : Bool)
  | Save (writer : Handle) (pData : Handle)
deriving DecidableEq, Repr

/-- A call into the library with its input arguments. -/
inductive Call
  | system (c : SystemCall)
  | device (c : DeviceCall)
  | node (c : NodeCall)
  | image (c : ImageCall)
  | save (c : SaveCall)
  | cppSystem (c : CppSystemCall)
  | cppDevice (c : CppDeviceCall)
  | cppImage (c : CppImageCall)
deriving DecidableEq, Repr

/-- The answer of the library to one call: the returned error code and what it
stored through the output parameters (a handle, an access mode, a number, a
string with its length, a boolean, an interface type).  A call reads the fields
of the output parameters it has and ignores the others.  For a call of the C++
interface the fields hold the value returned, and `thrown` tells whether the call
throws instead of returning; the C interface does not throw. -/
structure Resp where
  err : AC_ERROR
  handle : Handle
  mode : AC_ACCESS_MODE
  num : Nat
  str : String
  len : Nat
  flag : Bool
  iface : AC_INTERFACE_TYPE
  thrown : Option Exception
deriving DecidableEq, Repr

/-- An argument of a `printf` call. -/
inductive Arg
  | str (s : String)
  | num (n : Nat)
  | mode (m : AC_ACCESS_MODE)
  | iface (i : AC_INTERFACE_TYPE)
deriving DecidableEq, Repr

/-- What a program does, as seen from outside: a library call with its answer,
a `printf` with its format and arguments, a `getchar`, and for the C++ examples
an output to `std::cout` with the items written, an input from `std::cin`, and
a `throw` statement of the program with the exception thrown. -/
inductive Event
  | call (c : Call) (r : Resp)
  | printf (fmt : String) (args : List Arg)
  | getchar
  | cout (items : List Arg)
  | cin
  | throw (e : Exception)
deriving DecidableEq, Repr

/-- The events of a run, oldest first. -/
abbrev Trace := List Event

/-- A behaviour of the library: from its current state and a call, the answer
and the next state. -/
abbrev SDK (W : Type) := W → Call → Resp × W

/-- Programs: functions of the library state and the trace so far. -/
abbrev Prog (W : Type) := StateM (W × Trace)

/-- Make a library call: the library answers and moves on, the trace grows. -/
def sdkCall {W : Type} (sdk : SDK W) (c : Call) : Prog W Resp := fun s =>
  match s with
  | (w, t) =>
    match sdk w c with
    | (r, w1) => (r, (w1, t ++ [Event.call c r]))

/-- The C `printf`. -/
def printf {W : Type} (fmt : String) (args : List Arg) : Prog W Unit := fun s =>
  match s with
  | (w, t) => ((), (w, t ++ [Event.printf fmt args]))

/-- The C `getchar`. -/
def getchar {W : Type} : Prog W Unit := fun s =>
  match s with
  | (w, t) => ((), (w, t ++ [Event.getchar]))

/-- Output to `std::cout` of the items, one event for one statement. -/
def cout {W : Type} (items : List Arg) : Prog W Unit := fun s =>
  match s with
  | (w, t) => ((), (w, t ++ [Event.cout items]))

/-- Programs of the C++ examples: they end with a value or with an exception. -/
abbrev ProgX (W : Type) := ExceptT Exception (Prog W)

/-- Equality of the results of programs that may throw is decidable. -/
instance {α : Type} [DecidableEq α] : DecidableEq (Except Exception α)
  | .ok a, .ok b =>
    if h : a = b then isTrue (by rw [h]) else isFalse (fun h1 => h (Except.ok.inj h1))
  | .error a, .error b =>
    if h : a = b then isTrue (by rw [h]) else isFalse (fun h1 => h (Except.error.inj h1))
  | .ok _, .error _ => isFalse (fun h => Except.noConfusion h)
  | .error _, .ok _ => isFalse (fun h => Except.noConfusion h)

/-- Make a call of the C++ interface: the library answers, and the call throws
when the answer says so. -/
def cppCall {W : Type} (sdk : SDK W) (c : Call) : ProgX W Resp := fun s =>
  match s with
  | (w, t) =>
    match sdk w c with
    | (r, w1) =>
      match r.thrown with
      | some e => (.error e, (w1, t ++ [Event.call c r]))
      | none => (.ok r, (w1, t ++ [Event.call c r]))

/-- The statement `throw e` of a C++ program. -/
def throwX {W α : Type} (e : Exception) : ProgX W α := fun s =>
  match s with
  | (w, t) => (.error e, (w, t ++ [Event.throw e]))

/-- Output to `std::cout` of the items, in code that may throw. -/
def coutX {W : Type} (items : List Arg) : ProgX W Unit := fun s =>
  match s with
  | (w, t) => (.ok (), (w, t ++ [Event.cout items]))

/-- The input `std::cin >> input` of a character, in code that may throw. -/
def cinX {W : Type} : ProgX W Unit := fun s =>
  match s with
  | (w, t) => (.ok (), (w, t ++ [Event.cin]))

/-- The call `std::getchar()`, in code that may throw. -/
def getcharX {W : Type} : ProgX W Unit := fun s =>
  match s with
  | (w, t) => (.ok (), (w, t ++ [Event.getchar]))

open AC_ERROR AC_ACCESS_MODE AC_INTERFACE_TYPE

/-! ## The macro `CHECK_RETURN` and sample answers -/

/-- The body of the macro `CHECK_RETURN`, which the four C examples define with
the same text, for the case `err != AC_ERR_SUCCESS`: the last error message is
fetched and printed, the user is asked to press enter, and `main` returns `-1`.
The value of this program is the value `main` returns. -/
def CHECK_RETURN {W : Type} (sdk : SDK W) : Prog W Int := do
  let m ← sdkCall sdk (.system .acGetLastErrorMessage)
  printf "\nError: %s" [.str m.str]
  printf "\n\nPress enter to complete\n" []
  getchar
  return -1

/-- An answer with success code, access mode `mode` and handle `h`. -/
def answer (mode : AC_ACCESS_MODE) (h : Handle) : Resp :=
  ⟨AC_ERR_SUCCESS, h, mode, 640, "SingleFrame", 11, true, AC_INTERFACE_TYPE_OTHER 0, none⟩

/-- The answer of a call that fails with `AC_ERR_ERROR` and stores nothing. -/
def failure : Resp :=
  ⟨AC_ERR_ERROR, NULL, AC_ACCESS_MODE_NI, 0, "", 0, false, AC_INTERFACE_TYPE_OTHER 0, none⟩

/-! ## Observations on traces -/

/-- An event that is not a failed library call. -/
def Event.ok : Event → Bool
  | .call _ r => decide (r.err = AC_ERR_SUCCESS)
  | _ => true

/-- Every library call of the trace returned `AC_ERR_SUCCESS`. -/
def AllOk (t : Trace) : Prop := t.all Event.ok = true

instance (t : Trace) : Decidable (AllOk t) := inferInstanceAs (Decidable (_ = true))

/-- The library calls of a trace, in order, without their answers. -/
def calls : Trace → List Call
  | [] => []
  | .call c _ :: t => c :: calls t
  | _ :: t => calls t

/-- The answers of the library to the calls of a trace, in order. -/
def answers : Trace → List Resp
  | [] => []
  | .call _ r :: t => r :: answers t
  | _ :: t => answers t

/-- The number of devices answered by `acSystemGetNumDevices`. -/
def Event.deviceCount : Event → Option Nat
  | .call (.system (.acSystemGetNumDevices _)) r => some r.num
  | _ => none

/-- The numbers of devices the library reported, in order. -/
def deviceCounts (t : Trace) : List Nat := t.filterMap Event.deviceCount

/-- The answer to a lookup (`acNodeMapGetNodeAndAccessMode`) of the node called
`name`. -/
def Event.lookupOf (name : String) : Event → Option Resp
  | .call (.node (.acNodeMapGetNodeAndAccessMode _ n)) r => if n = name then some r else none
  | _ => none

/-- The answers of the library to the lookups of the node called `name`, in
order. -/
def lookups (name : String) (t : Trace) : List Resp :=
  t.filterMap (Event.lookupOf name)

/-- Calls that start or stop the stream, obtain or requeue a buffer, or read the
size, width, height or timestamp of a buffer. -/
def Call.isAcquisition : Call → Bool
  | .device (.acDeviceStartStream _) => true
  | .device (.acDeviceStopStream _) => true
  | .device (.acDeviceGetBuffer _ _) => true
  | .device (.acDeviceRequeueBuffer _ _) => true
  | .image (.acBufferGetSizeFilled _) => true
  | .image (.acImageGetWidth _) => true
  | .image (.acImageGetHeight _) => true
  | .image (.acImageGetTimestampNs _) => true
  | _ => false

/-- Events of the calls of `Call.isAcquisition`. -/
def Event.isAcquisition : Event → Bool
  | .call c _ => c.isAcquisition
  | _ => false

/-- The stream and buffer calls of a trace with their answers, in order. -/
def acquisitionEvents (t : Trace) : Trace := t.filter Event.isAcquisition

/-! ## `C_Acquisition_RDMA.c` -/

namespace C_Acquisition_RDMA

/-- Indentation of the first level, `#define TAB1`. -/
def TAB1 : String := "  "

/-- Indentation of the second level, `#define TAB2`. -/
def TAB2 : String := "    "

/-- Image timeout, `#define IMAGE_TIMEOUT 2000`. -/
def IMAGE_TIMEOUT : Nat := 2000

/-- Number of images to grab, `#define NUM_IMAGES 25`. -/
def NUM_IMAGES : Nat := 25

/-- Timeout for detecting camera devices, `#define SYSTEM_TIMEOUT 100`. -/
def SYSTEM_TIMEOUT : Nat := 100

/-- The helper `GetNodeValue`: gets the node, checks that its access mode is
`RO` or `RW`, gets the value as a string.  Returns the error code and the value
read (`pValue`). -/
def GetNodeValue {W : Type} (sdk : SDK W) (hNodeMap : Handle) (nodeName : String) :
    Prog W (AC_ERROR × String) := do
  -- get node
  let r ← sdkCall sdk (.node (.acNodeMapGetNodeAndAccessMode hNodeMap nodeName))
  let hNode := r.handle
  let accessMode := r.mode
  if r.err ≠ AC_ERR_SUCCESS then
    return (r.err, "")
  -- check access mode
  if accessMode ≠ AC_ACCESS_MODE_RO ∧ accessMode ≠ AC_ACCESS_MODE_RW then
    return (AC_ERR_ERROR, "")
  -- get value
  let v ← sdkCall sdk (.node (.acValueToString hNode))
  return (v.err, v.str)

/-- The helper `SetNodeValue`: gets the node, checks that its access mode is
`WO` or `RW`, sets the value from a string. -/
def SetNodeValue {W : Type} (sdk : SDK W) (hNodeMap : Handle) (nodeName : String)
    (pValue : String) : Prog W AC_ERROR := do
  -- get node
  let r ← sdkCall sdk (.node (.acNodeMapGetNodeAndAccessMode hNodeMap nodeName))
  let hNode := r.handle
  let accessMode := r.mode
  if r.err ≠ AC_ERR_SUCCESS then
    return r.err
  -- check access mode
  if accessMode ≠ AC_ACCESS_MODE_WO ∧ accessMode ≠ AC_ACCESS_MODE_RW then
    return AC_ERR_ERROR
  -- set value
  let v ← sdkCall sdk (.node (.acValueFromString hNode pValue))
  return v.err

/-- The `for (i = 0; i < NUM_IMAGES; i++)` loop of `AcquireImages`, with `n`
iterations left and loop counter `i`.  A result other than `AC_ERR_SUCCESS` is
the `return err` of an iteration; `AC_ERR_SUCCESS` means the loop ran to its
end. -/
def acquireLoop {W : Type} (sdk : SDK W) (hDevice : Handle) : Nat → Nat → Prog W AC_ERROR
  | 0, _ => pure AC_ERR_SUCCESS
  | n + 1, i => do
    -- get image
    printf "%sGet image %d" [.str TAB2, .num i]
    let b ← sdkCall sdk (.device (.acDeviceGetBuffer hDevice IMAGE_TIMEOUT))
    let hBuffer := b.handle
    if b.err ≠ AC_ERR_SUCCESS then
      return b.err
    -- get image information
    printf " (" []
    -- get and display size filled
    let r ← sdkCall sdk (.image (.acBufferGetSizeFilled hBuffer))
    if r.err ≠ AC_ERR_SUCCESS then
      return r.err
    printf "%zu bytes; " [.num r.num]
    -- get and display width
    let r ← sdkCall sdk (.image (.acImageGetWidth hBuffer))
    if r.err ≠ AC_ERR_SUCCESS then
      return r.err
    printf "%zux" [.num r.num]
    -- get and display height
    let r ← sdkCall sdk (.image (.acImageGetHeight hBuffer))
    if r.err ≠ AC_ERR_SUCCESS then
      return r.err
    printf "%zu; " [.num r.num]
    -- get and display timestamp
    let r ← sdkCall sdk (.image (.acImageGetTimestampNs hBuffer))
    if r.err ≠ AC_ERR_SUCCESS then
      return r.err
    printf "timestamp (ns): %llu)" [.num r.num]
    -- requeue image buffer
    printf " and requeue\n" []
    let r ← sdkCall sdk (.device (.acDeviceRequeueBuffer hDevice hBuffer))
    if r.err ≠ AC_ERR_SUCCESS then
      return r.err
    acquireLoop sdk hDevice n (i + 1)

/-- The function `AcquireImages` of `C_Acquisition_RDMA.c`. -/
def AcquireImages {W : Type} (sdk : SDK W) (hDevice : Handle) : Prog W AC_ERROR := do
  -- get node map
  let r ← sdkCall sdk (.device (.acDeviceGetNodeMap hDevice))
  let hNodeMap := r.handle
  if r.err ≠ AC_ERR_SUCCESS then
    return r.err
  -- get node values that will be changed in order to return their values at
  -- the end of the example
  let g ← GetNodeValue sdk hNodeMap "AcquisitionMode"
  let pAcquisitionModeInitial := g.2
  if g.1 ≠ AC_ERR_SUCCESS then
    return g.1
  -- set acquisition mode
  printf "%sSet acquisition mode to 'Continuous'\n" [.str TAB1]
  let err ← SetNodeValue sdk hNodeMap "AcquisitionMode" "Continuous"
  if err ≠ AC_ERR_SUCCESS then
    return err
  -- set buffer handling mode
  printf "%sSet buffer handling mode to 'NewestOnly'\n" [.str TAB1]
  -- get stream node map
  let r ← sdkCall sdk (.device (.acDeviceGetTLStreamNodeMap hDevice))
  let hTLStreamNodeMap := r.handle
  if r.err ≠ AC_ERR_SUCCESS then
    return r.err
  -- the result of this call is overwritten by the next one without a check
  let _ ← SetNodeValue sdk hTLStreamNodeMap "StreamBufferHandlingMode" "NewestOnly"
  let r ← sdkCall sdk (.node (.acNodeMapGetNodeAndAccessMode hNodeMap "TransportStreamProtocol"))
  let accessModeTransportStreamProtocol := r.mode
  if r.err ≠ AC_ERR_SUCCESS then
    return r.err
  if accessModeTransportStreamProtocol ≠ AC_ACCESS_MODE_NI then
    -- get node value
    let g ← GetNodeValue sdk hNodeMap "TransportStreamProtocol"
    let pTransportStreamProtocolInitial := g.2
    if g.1 ≠ AC_ERR_SUCCESS then
      return g.1
    printf "%sSet Transport Stream Protocol to RDMA\n" [.str TAB1]
    let r ← sdkCall sdk (.node (.acNodeMapSetEnumerationValue hNodeMap "TransportStreamProtocol" "RDMA"))
    if r.err ≠ AC_ERR_SUCCESS then
      return r.err
    -- start stream
    printf "%sStart stream\n" [.str TAB1]
    let r ← sdkCall sdk (.device (.acDeviceStartStream hDevice))
    if r.err ≠ AC_ERR_SUCCESS then
      return r.err
    -- get images
    printf "%sGetting %d images\n" [.str TAB1, .num NUM_IMAGES]
    let err ← acquireLoop sdk hDevice NUM_IMAGES 0
    if err ≠ AC_ERR_SUCCESS then
      return err
    -- stop stream
    printf "%sStop stream\n" [.str TAB1]
    let r ← sdkCall sdk (.device (.acDeviceStopStream hDevice))
    if r.err ≠ AC_ERR_SUCCESS then
      return r.err
    -- return node to its initial values; the result of this call is
    -- overwritten by the next one without a check
    let _ ← SetNodeValue sdk hNodeMap "TransportStreamProtocol" pTransportStreamProtocolInitial
  else
    printf "%s\nConnected camera does not support RDMA stream\n" [.str TAB1]
  -- return node to its initial values
  let err ← SetNodeValue sdk hNodeMap "AcquisitionMode" pAcquisitionModeInitial
  return err

/-- The answers of the library during one iteration of the acquisition loop. -/
structure Iteration where
  buffer : Resp
  size : Resp
  width : Resp
  height : Resp
  timestamp : Resp
  requeue : Resp

/-- The stream and buffer calls of one iteration of the acquisition loop: the
buffer is obtained, its size, width, height and timestamp are read, and that same
buffer is requeued. -/
def Iteration.events (hDevice : Handle) (it : Iteration) : Trace :=
  [Event.call (.device (.acDeviceGetBuffer hDevice IMAGE_TIMEOUT)) it.buffer,
   Event.call (.image (.acBufferGetSizeFilled it.buffer.handle)) it.size,
   Event.call (.image (.acImageGetWidth it.buffer.handle)) it.width,
   Event.call (.image (.acImageGetHeight it.buffer.handle)) it.height,
   Event.call (.image (.acImageGetTimestampNs it.buffer.handle)) it.timestamp,
   Event.call (.device (.acDeviceRequeueBuffer hDevice it.buffer.handle)) it.requeue]

/-- The stream and buffer calls of a complete acquisition: the stream is started
once, `NUM_IMAGES` iterations follow, the stream is stopped once. -/
def IsAcquisitionSequence (hDevice : Handle) (t : Trace) : Prop :=
  ∃ (start : Resp) (its : List Iteration) (stop : Resp),
    its.length = NUM_IMAGES ∧
    t = Event.call (.device (.acDeviceStartStream hDevice)) start ::
          (its.flatMap (Iteration.events hDevice) ++ [Event.call (.device (.acDeviceStopStream hDevice)) stop])

/-- A library in which every call succeeds; the three nodes the example uses
have the handles 1, 2 and 3, every node is readable and writable except
TransportStreamProtocol, whose access mode is `tspMode`. -/
def camera (tspMode : AC_ACCESS_MODE) : SDK Unit := fun _ c =>
  match c with
  | .node (.acNodeMapGetNodeAndAccessMode _ n) =>
    if n = "AcquisitionMode" then (answer AC_ACCESS_MODE_RW 1, ())
    else if n = "StreamBufferHandlingMode" then (answer AC_ACCESS_MODE_RW 2, ())
    else (answer tspMode 3, ())
  | _ => (answer AC_ACCESS_MODE_RW 7, ())

/-- The library of `camera AC_ACCESS_MODE_RW`, except that writing a value to the
nodes with the handles 2 (StreamBufferHandlingMode) and 3
(TransportStreamProtocol) through `acValueFromString` fails with
`AC_ERR_ERROR`. -/
def cameraRejectingWrites : SDK Unit := fun w c =>
  match c with
  | .node (.acValueFromString h _) =>
    if h = 2 ∨ h = 3 then (failure, ())
    else camera AC_ACCESS_MODE_RW w c
  | _ => camera AC_ACCESS_MODE_RW w c

end C_Acquisition_RDMA

/-! ## `C_Save_Jpeg.c` -/

namespace C_Save_Jpeg

/-- Indentation, `#define TAB1`. -/
def TAB1 : String := "  "

/-- File name, `#define FILE_NAME`. -/
def FILE_NAME : String := "Images/C_Save/image.jpeg"

/-- Pixel format, `#define PIXEL_FORMAT PFNC_BGR8`; the constant of the pixel
format naming convention is kept by its name. -/
def PIXEL_FORMAT : String := "PFNC_BGR8"

/-- Timeout for detecting camera devices, `#define SYSTEM_TIMEOUT 100`. -/
def SYSTEM_TIMEOUT : Nat := 100

/-- The function `SaveImage` of `C_Save_Jpeg.c`. -/
def SaveImage {W : Type} (sdk : SDK W) (hBuffer : Handle) (filename : String) :
    Prog W AC_ERROR := do
  -- convert image
  printf "%sConvert image to %s\n" [.str TAB1, .str "BGR8"]
  let c ← sdkCall sdk (.image (.acImageFactoryConvert hBuffer PIXEL_FORMAT))
  let hConverted := c.handle
  if c.err ≠ AC_ERR_SUCCESS then
    return c.err
  -- prepare image parameters
  printf "%sPrepare image parameters\n" [.str TAB1]
  -- get width
  let width ← sdkCall sdk (.image (.acImageGetWidth hConverted))
  if width.err ≠ AC_ERR_SUCCESS then
    return width.err
  -- get height
  let height ← sdkCall sdk (.image (.acImageGetHeight hConverted))
  if height.err ≠ AC_ERR_SUCCESS then
    return height.err
  -- get bits per pixel
  let bpp ← sdkCall sdk (.image (.acImageGetBitsPerPixel hConverted))
  if bpp.err ≠ AC_ERR_SUCCESS then
    return bpp.err
  -- prepare image writer
  printf "%sPrepare image writer\n" [.str TAB1]
  let wr ← sdkCall sdk (.save (.saveWriterCreate width.num height.num bpp.num))
  let hWriter := wr.handle
  if wr.err ≠ SC_ERR_SUCCESS then
    return wr.err
  let r ← sdkCall sdk (.save (.saveWriterSetFileNamePattern hWriter filename))
  if r.err ≠ SC_ERR_SUCCESS then
    return r.err
  -- set image writer to JPEG
  printf "%sSet image writer to JPEG\n" [.str TAB1]
  let r ← sdkCall sdk
    (.save (.saveWriterSetJpegAndConfig hWriter 75 false "SC_NO_JPEG_SUBSAMPLING" false))
  if r.err ≠ SC_ERR_SUCCESS then
    return r.err
  -- save image
  printf "%sSave image\n" [.str TAB1]
  -- get image
  let d ← sdkCall sdk (.image (.acImageGetData hConverted))
  let pData := d.handle
  if d.err ≠ AC_ERR_SUCCESS then
    return d.err
  -- save image
  let r ← sdkCall sdk (.save (.saveWriterSave hWriter pData))
  if r.err ≠ SC_ERR_SUCCESS then
    return r.err
  -- destroy image writer
  let r ← sdkCall sdk (.save (.saveWriterDestroy hWriter))
  if r.err ≠ SC_ERR_SUCCESS then
    return r.err
  -- destroy converted image
  let r ← sdkCall sdk (.image (.acImageFactoryDestroy hConverted))
  if r.err ≠ AC_ERR_SUCCESS then
    return r.err
  return SC_ERR_SUCCESS

/-- The function `main` of `C_Save_Jpeg.c`.  Where `main` executes `return err;`
the value returned is the number of the error code; the numbering of the codes is
declared in `ArenaCApi.h`, which is not among the sources, and is the parameter
`valueOf`. -/
def main {W : Type} (valueOf : AC_ERROR → Int) (sdk : SDK W) : Prog W Int := do
  printf "C_Save_Jpeg\n" []
  -- prepare example
  let r ← sdkCall sdk (.system .acOpenSystem)
  let hSystem := r.handle
  if r.err ≠ AC_ERR_SUCCESS then
    return (← CHECK_RETURN sdk)
  let r ← sdkCall sdk (.system (.acSystemUpdateDevices hSystem SYSTEM_TIMEOUT))
  if r.err ≠ AC_ERR_SUCCESS then
    return (← CHECK_RETURN sdk)
  let n ← sdkCall sdk (.system (.acSystemGetNumDevices hSystem))
  let numDevices := n.num
  if n.err ≠ AC_ERR_SUCCESS then
    return (← CHECK_RETURN sdk)
  if numDevices = 0 then
    printf "\nNo camera connected\nPress enter to complete\n" []
    getchar
    return 0
  let r ← sdkCall sdk (.system (.acSystemCreateDevice hSystem 0))
  let hDevice := r.handle
  if r.err ≠ AC_ERR_SUCCESS then
    return (← CHECK_RETURN sdk)
  -- get stream node map
  let r ← sdkCall sdk (.device (.acDeviceGetTLStreamNodeMap hDevice))
  let hTLStreamNodeMap := r.handle
  if r.err ≠ AC_ERR_SUCCESS then
    return valueOf r.err
  -- enable stream auto negotiate packet size
  let r ← sdkCall sdk
    (.node (.acNodeMapSetBooleanValue hTLStreamNodeMap "StreamAutoNegotiatePacketSize" true))
  if r.err ≠ AC_ERR_SUCCESS then
    return valueOf r.err
  -- enable stream packet resend
  let r ← sdkCall sdk
    (.node (.acNodeMapSetBooleanValue hTLStreamNodeMap "StreamPacketResendEnable" true))
  if r.err ≠ AC_ERR_SUCCESS then
    return valueOf r.err
  -- start stream
  let r ← sdkCall sdk (.device (.acDeviceStartStream hDevice))
  if r.err ≠ AC_ERR_SUCCESS then
    return (← CHECK_RETURN sdk)
  let b ← sdkCall sdk (.device (.acDeviceGetBuffer hDevice 2000))
  let hBuffer := b.handle
  if b.err ≠ AC_ERR_SUCCESS then
    return (← CHECK_RETURN sdk)
  -- get bits per pixel
  let r ← sdkCall sdk (.image (.acImageGetPixelFormat hBuffer))
  if r.err ≠ AC_ERR_SUCCESS then
    return (← CHECK_RETURN sdk)
  -- run example
  printf "Commence example\n\n" []
  let err ← SaveImage sdk hBuffer FILE_NAME
  if err ≠ AC_ERR_SUCCESS then
    return (← CHECK_RETURN sdk)
  printf "\nExample complete\n" []
  -- clean up example
  let r ← sdkCall sdk (.device (.acDeviceRequeueBuffer hDevice hBuffer))
  if r.err ≠ AC_ERR_SUCCESS then
    return (← CHECK_RETURN sdk)
  let r ← sdkCall sdk (.device (.acDeviceStopStream hDevice))
  if r.err ≠ AC_ERR_SUCCESS then
    return (← CHECK_RETURN sdk)
  let r ← sdkCall sdk (.system (.acSystemDestroyDevice hSystem hDevice))
  if r.err ≠ AC_ERR_SUCCESS then
    return (← CHECK_RETURN sdk)
  let r ← sdkCall sdk (.system (.acCloseSystem hSystem))
  if r.err ≠ AC_ERR_SUCCESS then
    return (← CHECK_RETURN sdk)
  printf "Press enter to complete\n" []
  getchar
  return 0

/-- The answers of the library during a complete run of `SaveImage`. -/
structure SaveImageRun where
  convert : Resp
  width : Resp
  height : Resp
  bpp : Resp
  create : Resp
  pattern : Resp
  jpeg : Resp
  data : Resp
  save : Resp
  destroyWriter : Resp
  destroyImage : Resp

/-- The trace of a complete run of `SaveImage`: the image is converted, its
parameters are read, the writer is created, configured and used, then the writer
created is destroyed and the converted image is destroyed, in this order. -/
def SaveImageRun.events (hBuffer : Handle) (filename : String) (x : SaveImageRun) : Trace :=
  [Event.printf "%sConvert image to %s\n" [.str TAB1, .str "BGR8"],
   Event.call (.image (.acImageFactoryConvert hBuffer PIXEL_FORMAT)) x.convert,
   Event.printf "%sPrepare image parameters\n" [.str TAB1],
   Event.call (.image (.acImageGetWidth x.convert.handle)) x.width,
   Event.call (.image (.acImageGetHeight x.convert.handle)) x.height,
   Event.call (.image (.acImageGetBitsPerPixel x.convert.handle)) x.bpp,
   Event.printf "%sPrepare image writer\n" [.str TAB1],
   Event.call (.save (.saveWriterCreate x.width.num x.height.num x.bpp.num)) x.create,
   Event.call (.save (.saveWriterSetFileNamePattern x.create.handle filename)) x.pattern,
   Event.printf "%sSet image writer to JPEG\n" [.str TAB1],
   Event.call (.save (.saveWriterSetJpegAndConfig x.create.handle 75 false
     "SC_NO_JPEG_SUBSAMPLING" false)) x.jpeg,
   Event.printf "%sSave image\n" [.str TAB1],
   Event.call (.image (.acImageGetData x.convert.handle)) x.data,
   Event.call (.save (.saveWriterSave x.create.handle x.data.handle)) x.save,
   Event.call (.save (.saveWriterDestroy x.create.handle)) x.destroyWriter,
   Event.call (.image (.acImageFactoryDestroy x.convert.handle)) x.destroyImage]

/-- The calls of a complete run of `main`, in order: open system, update
devices, number of devices, create device, configure the two stream nodes, start
stream, get buffer, pixel format, the calls of `SaveImage`, requeue buffer, stop
stream, destroy device, close system. -/
def mainCalls (hSystem hDevice hMap hBuffer : Handle) (x : SaveImageRun) : List Call :=
  [.system .acOpenSystem,
   .system (.acSystemUpdateDevices hSystem SYSTEM_TIMEOUT),
   .system (.acSystemGetNumDevices hSystem),
   .system (.acSystemCreateDevice hSystem 0),
   .device (.acDeviceGetTLStreamNodeMap hDevice),
   .node (.acNodeMapSetBooleanValue hMap "StreamAutoNegotiatePacketSize" true),
   .node (.acNodeMapSetBooleanValue hMap "StreamPacketResendEnable" true),
   .device (.acDeviceStartStream hDevice),
   .device (.acDeviceGetBuffer hDevice 2000),
   .image (.acImageGetPixelFormat hBuffer)]
  ++ calls (x.events hBuffer FILE_NAME) ++
  [.device (.acDeviceRequeueBuffer hDevice hBuffer),
   .device (.acDeviceStopStream hDevice),
   .system (.acSystemDestroyDevice hSystem hDevice),
   .system (.acCloseSystem hSystem)]

/-- A library with one camera on which every call succeeds, except
`acImageGetWidth`, which fails with `AC_ERR_ERROR`. -/
def cameraWithoutWidth : SDK Unit := fun _ c =>
  match c with
  | .image (.acImageGetWidth _) => (failure, ())
  | _ => (answer AC_ACCESS_MODE_RW 7, ())

/-- A library with one camera on which every call succeeds. -/
def camera : SDK Unit := fun _ c =>
  match c with
  | .system (.acSystemGetNumDevices _) => ({ answer AC_ACCESS_MODE_RW 7 with num := 1 }, ())
  | _ => (answer AC_ACCESS_MODE_RW 7, ())

/-- Calls that destroy a converted image, `acImageFactoryDestroy`. -/
def destroysImage : Call → Bool
  | .image (.acImageFactoryDestroy _) => true
  | _ => false

/-- Calls that destroy an image writer, `saveWriterDestroy`. -/
def destroysWriter : Call → Bool
  | .save (.saveWriterDestroy _) => true
  | _ => false

end C_Save_Jpeg

/-! ## `C_Enumeration_CcpSwitchover.c` -/

namespace C_Enumeration_CcpSwitchover

/-- Indentation of the first level, `#define TAB1`. -/
def TAB1 : String := "  "

/-- Indentation of the second level, `#define TAB2`. -/
def TAB2 : String := "    "

/-- Indentation of the third level, `#define TAB3`. -/
def TAB3 : String := "      "

/-- Timeout for updating the list of devices, `#define SYSTEM_TIMEOUT 100`. -/
def SYSTEM_TIMEOUT : Nat := 100

/-- The key `static int64_t switchoverKey = 0x1234`. -/
def switchoverKey : Int := 0x1234

/-- The function `hasControl`: reads DeviceAccessStatus and compares it with
"ReadWrite"; when it cannot be read, control is assumed not to be had. -/
def hasControl {W : Type} (sdk : SDK W) (hTLDeviceNodeMap : Handle) : Prog W Bool := do
  let r ← sdkCall sdk (.node (.acNodeMapGetStringValue hTLDeviceNodeMap "DeviceAccessStatus"))
  if r.err ≠ AC_ERR_SUCCESS then
    return false
  return decide (r.str = "ReadWrite")

/-- The loop `for (i = 0; i < numDevices; i++)` of `EnumerateDevices`, with `n`
iterations left and loop counter `i`.  A result other than `AC_ERR_SUCCESS` is
the `return err` of an iteration; `AC_ERR_SUCCESS` means the loop ran to its
end.  The codes returned by `acSystemCreateDevice` and `acSystemDestroyDevice`
are not assigned to `err`: the check that follows each of them tests the code of
the call before. -/
def deviceLoop {W : Type} (sdk : SDK W) (hSystem : Handle) : Nat → Nat → Prog W AC_ERROR
  | 0, _ => pure AC_ERR_SUCCESS
  | n + 1, i => do
    printf "%sInformation for device %zu " [.str TAB2, .num i]
    -- get and display vendor name
    let r ← sdkCall sdk (.system (.acSystemGetDeviceVendor hSystem i))
    if r.err ≠ AC_ERR_SUCCESS then
      return r.err
    printf "(%s" [.str r.str]
    -- get and display model name
    let r ← sdkCall sdk (.system (.acSystemGetDeviceModel hSystem i))
    if r.err ≠ AC_ERR_SUCCESS then
      return r.err
    printf "; %s" [.str r.str]
    -- get and display serial number
    let r ← sdkCall sdk (.system (.acSystemGetDeviceSerial hSystem i))
    if r.err ≠ AC_ERR_SUCCESS then
      return r.err
    printf "; serial %s" [.str r.str]
    -- get and display MAC address
    let r ← sdkCall sdk (.system (.acSystemGetDeviceMacAddressStr hSystem i))
    if r.err ≠ AC_ERR_SUCCESS then
      return r.err
    printf "; MAC %s" [.str r.str]
    -- get and display IP address
    let r ← sdkCall sdk (.system (.acSystemGetDeviceIpAddressStr hSystem i))
    let mut err := r.err
    if err ≠ AC_ERR_SUCCESS then
      return err
    printf "; IP %s\n" [.str r.str]
    -- create device; the returned code is dropped, `err` is still that of the
    -- call before
    printf "%sCreate device\n" [.str TAB3]
    let d ← sdkCall sdk (.system (.acSystemCreateDevice hSystem i))
    let hDevice := d.handle
    if err ≠ AC_ERR_SUCCESS then
      return err
    -- get device TL node map
    let r ← sdkCall sdk (.device (.acDeviceGetTLDeviceNodeMap hDevice))
    let hTLDeviceNodeMap := r.handle
    err := r.err
    if err ≠ AC_ERR_SUCCESS then
      return err
    -- check if we were able to get control of application
    if (← hasControl sdk hTLDeviceNodeMap) then
      -- set a unique key in case someone wants to gain control
      let r ← sdkCall sdk
        (.node (.acNodeMapSetIntegerValue hTLDeviceNodeMap "CcpSwitchoverKey" switchoverKey))
      err := r.err
      if err ≠ AC_ERR_SUCCESS then
        printf "%sFailed to set CcpSwitchoverKey\n" [.str TAB2]
        return err
      -- wait for user to input something
      printf "%sPlease press enter to continue:\n" [.str TAB2]
      getchar
    else
      -- set a unique key in case someone wants to gain control
      let r ← sdkCall sdk
        (.node (.acNodeMapSetIntegerValue hTLDeviceNodeMap "CcpSwitchoverKey" switchoverKey))
      err := r.err
      if err ≠ AC_ERR_SUCCESS then
        printf "%sFailed to set CcpSwitchoverKey\n" [.str TAB2]
        return err
      -- try to set the access status to read/write
      let r ← sdkCall sdk
        (.node (.acNodeMapSetStringValue hTLDeviceNodeMap "DeviceAccessStatus" "ReadWrite"))
      err := r.err
      if err ≠ AC_ERR_SUCCESS then
        return err
      if (← hasControl sdk hTLDeviceNodeMap) then
        printf "%sCreate device succeeded with aquiring control\n" [.str TAB2]
      else
        printf "%sCreate device failed to aquire control\n" [.str TAB2]
    -- destroy device; the returned code is dropped, `err` is still that of the
    -- call before
    printf "%sDestroy device\n" [.str TAB3]
    let _ ← sdkCall sdk (.system (.acSystemDestroyDevice hSystem hDevice))
    if err ≠ AC_ERR_SUCCESS then
      return err
    deviceLoop sdk hSystem n (i + 1)

/-- The function `EnumerateDevices` of `C_Enumeration_CcpSwitchover.c`. -/
def EnumerateDevices {W : Type} (sdk : SDK W) : Prog W AC_ERROR := do
  -- open system
  printf "%sOpen system\n" [.str TAB1]
  let r ← sdkCall sdk (.system .acOpenSystem)
  let hSystem := r.handle
  if r.err ≠ AC_ERR_SUCCESS then
    return r.err
  -- update and retrieve number of devices
  printf "%sUpdate and retrieve number of devices\n" [.str TAB1]
  let r ← sdkCall sdk (.system (.acSystemUpdateDevices hSystem SYSTEM_TIMEOUT))
  if r.err ≠ AC_ERR_SUCCESS then
    return r.err
  let n ← sdkCall sdk (.system (.acSystemGetNumDevices hSystem))
  let numDevices := n.num
  if n.err ≠ AC_ERR_SUCCESS then
    return n.err
  -- get and display device information
  printf "%sGet device information\n" [.str TAB1]
  if numDevices = 0 then
    printf "%sNo camera connected\n" [.str TAB1]
    return AC_ERR_INVALID_VALUE
  let err ← deviceLoop sdk hSystem numDevices 0
  if err ≠ AC_ERR_SUCCESS then
    return err
  -- release system
  printf "%sClose system\n" [.str TAB1]
  let r ← sdkCall sdk (.system (.acCloseSystem hSystem))
  return r.err

/-- The function `main` of `C_Enumeration_CcpSwitchover.c`; it returns `-1` on
every path. -/
def main {W : Type} (sdk : SDK W) : Prog W Int := do
  printf "C_Enumeration_CcpSwitchover\n" []
  printf "Commence example\n\n" []
  let err ← EnumerateDevices sdk
  if err ≠ AC_ERR_SUCCESS then
    return (← CHECK_RETURN sdk)
  printf "\nExample complete\n" []
  printf "Press enter to complete\n" []
  getchar
  return -1

/-- Calls that acquire or release the system or a device. -/
def isResource : Event → Bool
  | .call (.system .acOpenSystem) _ => true
  | .call (.system (.acCloseSystem _)) _ => true
  | .call (.system (.acSystemCreateDevice _ _)) _ => true
  | .call (.system (.acSystemDestroyDevice _ _)) _ => true
  | _ => false

/-- The calls of a trace that acquire or release the system or a device, with
their answers, in order. -/
def resourceEvents (t : Trace) : Trace := t.filter isResource

/-- The device calls of the loop of `EnumerateDevices` from device `i` on: each
device is created and the handle obtained is destroyed before the next device is
created.  A pair holds the answers to the creation and to the destruction. -/
def deviceEvents (hSystem : Handle) : Nat → List (Resp × Resp) → Trace
  | _, [] => []
  | i, (c, d) :: ds =>
    Event.call (.system (.acSystemCreateDevice hSystem i)) c ::
    Event.call (.system (.acSystemDestroyDevice hSystem c.handle)) d ::
    deviceEvents hSystem (i + 1) ds

/-- The system is opened, every device is created and destroyed in turn, and the
system opened is closed. -/
def IsReleasedRun (t : Trace) : Prop :=
  ∃ (o : Resp) (ds : List (Resp × Resp)) (c : Resp),
    ds ≠ [] ∧
    resourceEvents t = Event.call (.system .acOpenSystem) o ::
      (deviceEvents o.handle 0 ds ++ [Event.call (.system (.acCloseSystem o.handle)) c])

/-- A library that finds `n` cameras and on which every call succeeds. -/
def cameras (n : Nat) : SDK Unit := fun _ c =>
  match c with
  | .system (.acSystemGetNumDevices _) => ({ answer AC_ACCESS_MODE_RW 7 with num := n }, ())
  | .system (.acSystemCreateDevice _ i) => (answer AC_ACCESS_MODE_RW (20 + i), ())
  | _ => (answer AC_ACCESS_MODE_RW 7, ())

/-- The library of `cameras 1`, except that `acSystemCreateDevice` fails with
`AC_ERR_ERROR` and leaves the device handle `NULL`. -/
def cameraNotCreated : SDK Unit := fun w c =>
  match c with
  | .system (.acSystemCreateDevice _ _) => (failure, ())
  | _ => cameras 1 w c

/-- The library of `cameras 1`, except that `acSystemDestroyDevice` fails with
`AC_ERR_ERROR`. -/
def cameraNotDestroyed : SDK Unit := fun w c =>
  match c with
  | .system (.acSystemDestroyDevice _ _) => (failure, ())
  | _ => cameras 1 w c

/-- Calls that close the system, `acCloseSystem`. -/
def closesSystem : Call → Bool
  | .system (.acCloseSystem _) => true
  | _ => false

end C_Enumeration_CcpSwitchover

/-! ## `C_Explore_Nodes.c` -/

namespace C_Explore_Nodes

/-- Timeout for detecting camera devices, `#define DEVICE_TIMEOUT 100`. -/
def DEVICE_TIMEOUT : Nat := 100

/-- The number of values of `size_t` on the 64-bit target of the examples
(`Linux_x64`). -/
def SIZE_MAX1 : Nat := 2 ^ 64

/-- The function `Indent`: prints `depth` spaces, one `printf(" ")` each. -/
def Indent {W : Type} : Nat → Prog W Unit
  | 0 => pure ()
  | depth + 1 => do
    printf " " []
    Indent depth

/-- The loop `for (size_t index = 0; index < numFeatures; index++)` of
`ExploreNode`, with `n` iterations left; `explore` is the recursive call of
`ExploreNode`, whose returned code the loop drops.  The result `none` means that
the exploration ran out of fuel; a code other than `AC_ERR_SUCCESS` is the
`return err` of an iteration. -/
def featureLoop {W : Type} (sdk : SDK W)
    (explore : Handle → Nat → Prog W (Option AC_ERROR)) (hNode : Handle) (depth : Nat) :
    Nat → Nat → Prog W (Option AC_ERROR)
  | 0, _ => pure (some AC_ERR_SUCCESS)
  | n + 1, index => do
    let f ← sdkCall sdk (.node (.acCategoryGetFeature hNode index))
    let hFeatureNode := f.handle
    if f.err ≠ AC_ERR_SUCCESS then
      return some f.err
    let e ← explore hFeatureNode depth
    if e.isNone then
      return none
    featureLoop sdk explore hNode depth n (index + 1)

/-- The function `ExploreNode` of `C_Explore_Nodes.c`.  The nodes are handed out
by the library, so the recursion is bounded by `fuel`: the result is `none` when
the fuel does not suffice, and `some err` for the code `err` the function
returns.  The unsigned arithmetic of `size_t` is taken modulo `2 ^ 64`. -/
def ExploreNode {W : Type} (sdk : SDK W) : Nat → Handle → Nat → Prog W (Option AC_ERROR)
  | 0, _, _ => pure none
  | fuel + 1, hNode, depth => do
    -- retrieve display name
    let dn ← sdkCall sdk (.node (.acNodeGetDisplayName hNode))
    let bufLen := dn.len
    if dn.err ≠ AC_ERR_SUCCESS then
      return some dn.err
    -- retrieve node name
    let nn ← sdkCall sdk (.node (.acNodeGetName hNode))
    let nodeBufLen := nn.len
    if nn.err ≠ AC_ERR_SUCCESS then
      return some nn.err
    -- retrieve accessibility
    let am ← sdkCall sdk (.node (.acNodeGetAccessMode hNode))
    let accessMode := am.mode
    if am.err ≠ AC_ERR_SUCCESS then
      return some am.err
    -- retrieve visibility
    let vis ← sdkCall sdk (.node (.acNodeGetVisibility hNode))
    let visibility := vis.num
    if vis.err ≠ AC_ERR_SUCCESS then
      return some vis.err
    -- retrieve interface type
    let it ← sdkCall sdk (.node (.acNodeGetPrincipalInterfaceType hNode))
    let interfaceType := it.iface
    if it.err ≠ AC_ERR_SUCCESS then
      return some it.err
    -- retrieve value
    let rd ← sdkCall sdk (.node (.acIsReadable hNode))
    let isReadable := rd.flag
    if rd.err ≠ AC_ERR_SUCCESS then
      return some rd.err
    let v ← sdkCall sdk (.node (.acValueToString hNode))
    let valueBufLen := v.len
    if v.err ≠ AC_ERR_SUCCESS then
      return some v.err
    -- print node information
    Indent depth
    printf "%s (%s)" [.str dn.str, .str nn.str]
    -- EXPLORE_ACCESS
    Indent ((90 + SIZE_MAX1 - (depth + bufLen + nodeBufLen) % SIZE_MAX1) % SIZE_MAX1)
    printf "%d" [.mode accessMode]
    -- EXPLORE_VISIBILITY
    Indent 10
    printf "%d" [.num visibility]
    -- EXPLORE_TYPE
    Indent 10
    printf "%d" [.iface interfaceType]
    -- EXPLORE_VALUE
    Indent 10
    if ¬ isReadable then
      printf "-" []
    else if valueBufLen > 90 then
      printf "..." []
    else
      printf "%s" [.str v.str]
    printf "\n" []
    if interfaceType = AC_INTERFACE_TYPE_CATEGORY then
      let nf ← sdkCall sdk (.node (.acCategoryGetNumFeatures hNode))
      let numFeatures := nf.num
      if nf.err ≠ AC_ERR_SUCCESS then
        return some nf.err
      featureLoop sdk (ExploreNode sdk fuel) hNode ((depth + 1) % SIZE_MAX1) numFeatures 0
    else
      return some v.err

/-- The function `main` of `C_Explore_Nodes.c`, with the fuel for the five
explorations; the result is `none` when the fuel does not suffice.  Where `main`
executes `return err;` the value returned is the number of the error code, given
by the parameter `valueOf` as in `C_Save_Jpeg.main`. -/
def main {W : Type} (valueOf : AC_ERROR → Int) (sdk : SDK W) (fuel : Nat) :
    Prog W (Option Int) := do
  printf "C_Explore_Nodes\n" []
  -- prepare example
  let r ← sdkCall sdk (.system .acOpenSystem)
  let hSystem := r.handle
  if r.err ≠ AC_ERR_SUCCESS then
    return some (← CHECK_RETURN sdk)
  let r ← sdkCall sdk (.system (.acSystemUpdateDevices hSystem DEVICE_TIMEOUT))
  if r.err ≠ AC_ERR_SUCCESS then
    return some (← CHECK_RETURN sdk)
  let n ← sdkCall sdk (.system (.acSystemGetNumDevices hSystem))
  let numDevices := n.num
  if n.err ≠ AC_ERR_SUCCESS then
    return some (← CHECK_RETURN sdk)
  if numDevices = 0 then
    printf "\nNo camera connected\nPress enter to complete\n" []
    getchar
    return some 0
  let r ← sdkCall sdk (.system (.acSystemCreateDevice hSystem 0))
  let hDevice := r.handle
  if r.err ≠ AC_ERR_SUCCESS then
    return some (← CHECK_RETURN sdk)
  -- get nodemaps
  let r ← sdkCall sdk (.device (.acDeviceGetNodeMap hDevice))
  let hDeviceNodeMap := r.handle
  if r.err ≠ AC_ERR_SUCCESS then
    return some (valueOf r.err)
  let r ← sdkCall sdk (.device (.acDeviceGetTLDeviceNodeMap hDevice))
  let pTLDeviceNodeMap := r.handle
  if r.err ≠ AC_ERR_SUCCESS then
    return some (valueOf r.err)
  let r ← sdkCall sdk (.device (.acDeviceGetTLStreamNodeMap hDevice))
  let pTLStreamNodeMap := r.handle
  if r.err ≠ AC_ERR_SUCCESS then
    return some (valueOf r.err)
  let r ← sdkCall sdk (.device (.acDeviceGetTLInterfaceNodeMap hDevice))
  let pTLInterfaceNodeMap := r.handle
  if r.err ≠ AC_ERR_SUCCESS then
    return some (valueOf r.err)
  let r ← sdkCall sdk (.system (.acSystemGetTLSystemNodeMap hSystem))
  let pTLSystemNodeMap := r.handle
  if r.err ≠ AC_ERR_SUCCESS then
    return some (valueOf r.err)
  -- get nodes by index
  let index := 0
  let r ← sdkCall sdk (.node (.acNodeMapGetNodeByIndex hDeviceNodeMap index))
  let hDeviceRootNode := r.handle
  if r.err ≠ AC_ERR_SUCCESS then
    return some (valueOf r.err)
  let r ← sdkCall sdk (.node (.acNodeMapGetNodeByIndex pTLDeviceNodeMap index))
  let hTLDeviceRootNode := r.handle
  if r.err ≠ AC_ERR_SUCCESS then
    return some (valueOf r.err)
  let r ← sdkCall sdk (.node (.acNodeMapGetNodeByIndex pTLStreamNodeMap index))
  let hTLStreamRootNode := r.handle
  if r.err ≠ AC_ERR_SUCCESS then
    return some (valueOf r.err)
  let r ← sdkCall sdk (.node (.acNodeMapGetNodeByIndex pTLInterfaceNodeMap index))
  let hTLInterfaceRootNode := r.handle
  if r.err ≠ AC_ERR_SUCCESS then
    return some (valueOf r.err)
  let r ← sdkCall sdk (.node (.acNodeMapGetNodeByIndex pTLSystemNodeMap index))
  let hTLSystemRootNode := r.handle
  if r.err ≠ AC_ERR_SUCCESS then
    return some (valueOf r.err)
  -- run explore node example
  printf "Commence example\n" []
  let depth := 0
  printf "\nDevice Nodemap\n" []
  let some err ← ExploreNode sdk fuel hDeviceRootNode depth | return none
  if err ≠ AC_ERR_SUCCESS then
    return some (← CHECK_RETURN sdk)
  printf "\nTL Device Nodemap\n" []
  let some err ← ExploreNode sdk fuel hTLDeviceRootNode depth | return none
  if err ≠ AC_ERR_SUCCESS then
    return some (← CHECK_RETURN sdk)
  printf "\nTL Stream Nodemap\n" []
  let some err ← ExploreNode sdk fuel hTLStreamRootNode depth | return none
  if err ≠ AC_ERR_SUCCESS then
    return some (← CHECK_RETURN sdk)
  printf "\nTL Interface Nodemap\n" []
  let some err ← ExploreNode sdk fuel hTLInterfaceRootNode depth | return none
  if err ≠ AC_ERR_SUCCESS then
    return some (← CHECK_RETURN sdk)
  printf "\nTL System Nodemap\n" []
  let some err ← ExploreNode sdk fuel hTLSystemRootNode depth | return none
  if err ≠ AC_ERR_SUCCESS then
    return some (← CHECK_RETURN sdk)
  printf "\nExample complete\n" []
  -- clean up example
  let r ← sdkCall sdk (.system (.acSystemDestroyDevice hSystem hDevice))
  if r.err ≠ AC_ERR_SUCCESS then
    return some (← CHECK_RETURN sdk)
  let r ← sdkCall sdk (.system (.acCloseSystem hSystem))
  if r.err ≠ AC_ERR_SUCCESS then
    return some (← CHECK_RETURN sdk)
  printf "Press enter to complete\n" []
  getchar
  return some 0

/-- A library with one camera on which every call succeeds, except
`acDeviceGetNodeMap`, which fails with `AC_ERR_ERROR`. -/
def cameraWithoutNodeMap : SDK Unit := fun _ c =>
  match c with
  | .system (.acSystemGetNumDevices _) => ({ answer AC_ACCESS_MODE_RW 7 with num := 1 }, ())
  | .device (.acDeviceGetNodeMap _) => (failure, ())
  | _ => (answer AC_ACCESS_MODE_RW 7, ())

/-- A library with a category node, handle `1`, that has one feature, handle
`2`: every call succeeds, except `acNodeGetDisplayName` on the feature, which
fails with `AC_ERR_ERROR`. -/
def cameraWithBrokenFeature : SDK Unit := fun _ c =>
  match c with
  | .node (.acNodeGetPrincipalInterfaceType 1) =>
    ({ answer AC_ACCESS_MODE_RW 1 with iface := AC_INTERFACE_TYPE_CATEGORY }, ())
  | .node (.acCategoryGetNumFeatures 1) => ({ answer AC_ACCESS_MODE_RW 1 with num := 1 }, ())
  | .node (.acCategoryGetFeature 1 _) => (answer AC_ACCESS_MODE_RW 2, ())
  | .node (.acNodeGetDisplayName 2) => (failure, ())
  | _ => (answer AC_ACCESS_MODE_RW 7, ())

/-! ### Trees of nodes -/

/-- What the library reports about one node: the display name and the name, each
with the length stored through the length parameter of its call, the access mode,
the visibility, whether the node is readable, and the text of the value with its
length. -/
structure NodeInfo where
  displayName : String
  bufLen : Nat
  name : String
  nodeBufLen : Nat
  accessMode : AC_ACCESS_MODE
  visibility : Nat
  isReadable : Bool
  value : String
  valueBufLen : Nat
deriving DecidableEq, Repr

/-- A finite tree of nodes: a feature, a node whose interface type is not the
category type, or a category with its features in the order of their indices. -/
inductive NodeTree
  | feature (info : NodeInfo) (interfaceType : Nat)
  | category (info : NodeInfo) (features : List NodeTree)
deriving Repr

namespace NodeTree

/-- What the library reports about the root of the tree. -/
def info : NodeTree → NodeInfo
  | feature i _ => i
  | category i _ => i

/-- The interface type of the root of the tree. -/
def interfaceType : NodeTree → AC_INTERFACE_TYPE
  | feature _ k => AC_INTERFACE_TYPE_OTHER k
  | category _ _ => AC_INTERFACE_TYPE_CATEGORY

/-- The features of the root of the tree. -/
def features : NodeTree → List NodeTree
  | feature _ _ => []
  | category _ fs => fs

/-- The number of nodes on the longest path from the root down. -/
def height : NodeTree → Nat
  | feature _ _ => 1
  | category _ fs => 1 + heights fs
where
  /-- The largest height of the trees of a list. -/
  heights : List NodeTree → Nat
    | [] => 0
    | f :: fs => max f.height (heights fs)

/-- The nodes of the tree in pre-order, the features of a category in the order
of their indices; each node comes with its interface type and its distance from
the root, counted from `d` for the root. -/
def preorder : NodeTree → Nat → List (NodeInfo × AC_INTERFACE_TYPE × Nat)
  | feature i k, d => [(i, AC_INTERFACE_TYPE_OTHER k, d)]
  | category i fs, d => (i, AC_INTERFACE_TYPE_CATEGORY, d) :: preorders fs (d + 1)
where
  /-- The nodes of the trees of a list, one tree after the other. -/
  preorders : List NodeTree → Nat → List (NodeInfo × AC_INTERFACE_TYPE × Nat)
    | [], _ => []
    | f :: fs, d => f.preorder d ++ preorders fs d

/-- The subtree reached from the root by following the indices of `path`. -/
def subtree : NodeTree → List Nat → Option NodeTree
  | S, [] => some S
  | S, i :: path =>
    match S.features[i]? with
    | some f => f.subtree path
    | none => none

end NodeTree

/-- The handle the library `treeSDK` gives to the node reached by `path`; it is
not `NULL`. -/
def handleOf (path : List Nat) : Handle := Encodable.encode path + 1

/-- The path of the node with the handle `h`. -/
def pathOf (h : Handle) : List Nat := (Encodable.decode (h - 1)).getD []

/-- An answer with the code `AC_ERR_SUCCESS` and nothing stored. -/
def success : Resp := { failure with err := AC_ERR_SUCCESS }

/-- The answer of `treeSDK` to a call on the node with the handle `h`: the answer
`f S` for the subtree `S` at that node, and a failure when there is no such
node. -/
def nodeAnswer (T : NodeTree) (h : Handle) (f : NodeTree → Resp) : Resp :=
  if h = NULL then failure
  else
    match T.subtree (pathOf h) with
    | some S => f S
    | none => failure

/-- A library that presents the tree `T`: every call on a node of the tree
succeeds and reports what the tree says, the features of a category are the
subtrees below it, and no call changes anything. -/
def treeSDK (T : NodeTree) : SDK Unit := fun _ c =>
  match c with
  | .node (.acNodeGetDisplayName h) =>
    (nodeAnswer T h fun S => { success with str := S.info.displayName, len := S.info.bufLen }, ())
  | .node (.acNodeGetName h) =>
    (nodeAnswer T h fun S => { success with str := S.info.name, len := S.info.nodeBufLen }, ())
  | .node (.acNodeGetAccessMode h) =>
    (nodeAnswer T h fun S => { success with mode := S.info.accessMode }, ())
  | .node (.acNodeGetVisibility h) =>
    (nodeAnswer T h fun S => { success with num := S.info.visibility }, ())
  | .node (.acNodeGetPrincipalInterfaceType h) =>
    (nodeAnswer T h fun S => { success with iface := S.interfaceType }, ())
  | .node (.acIsReadable h) =>
    (nodeAnswer T h fun S => { success with flag := S.info.isReadable }, ())
  | .node (.acValueToString h) =>
    (nodeAnswer T h fun S => { success with str := S.info.value, len := S.info.valueBufLen }, ())
  | .node (.acCategoryGetNumFeatures h) =>
    (nodeAnswer T h fun S => { success with num := S.features.length }, ())
  | .node (.acCategoryGetFeature h index) =>
    (nodeAnswer T h fun S =>
      if index < S.features.length then
        { success with handle := handleOf (pathOf h ++ [index]) }
      else failure, ())
  | _ => (success, ())

/-- The output of a run: its `printf` events, in order. -/
def prints (t : Trace) : Trace :=
  t.filter fun e =>
    match e with
    | .printf _ _ => true
    | _ => false

/-- One space of indentation, as `Indent` prints it. -/
def space : Event := Event.printf " " []

/-- The end of a line, `printf("\n")`. -/
def newline : Event := Event.printf "\n" []

/-- The columns of the line of a node after its names: the access mode, the
visibility, the interface type and the value, each after its padding. -/
def columns (x : NodeInfo × AC_INTERFACE_TYPE × Nat) : Trace :=
  List.replicate
    ((90 + SIZE_MAX1 - (x.2.2 + x.1.bufLen + x.1.nodeBufLen) % SIZE_MAX1) % SIZE_MAX1) space ++
  [Event.printf "%d" [.mode x.1.accessMode]] ++
  List.replicate 10 space ++ [Event.printf "%d" [.num x.1.visibility]] ++
  List.replicate 10 space ++ [Event.printf "%d" [.iface x.2.1]] ++
  List.replicate 10 space ++
  [if ¬ x.1.isReadable then Event.printf "-" []
   else if x.1.valueBufLen > 90 then Event.printf "..." []
   else Event.printf "%s" [.str x.1.value]]

/-- The line the claim expects for a node at distance `d` from the root: `d`
spaces of indentation, the names, the columns, the end of the line. -/
def expectedLine (x : NodeInfo × AC_INTERFACE_TYPE × Nat) : Trace :=
  List.replicate x.2.2 space ++
  [Event.printf "%s (%s)" [.str x.1.displayName, .str x.1.name]] ++ columns x ++ [newline]

/-- The output the claim expects for the tree `T`: one line for each node, in
pre-order. -/
def expectedOutput (T : NodeTree) : Trace := (T.preorder 0).flatMap expectedLine

/-- A tree to run the example on: a category with a feature, a category of two
features, and a feature. -/
def sampleTree : NodeTree :=
  let n (s : String) : NodeInfo :=
    { displayName := s, bufLen := 5, name := s, nodeBufLen := 5,
      accessMode := AC_ACCESS_MODE_RW, visibility := 0, isReadable := true,
      value := "v", valueBufLen := 2 }
  .category (n "Root")
    [.feature (n "A") 3,
     .category (n "B") [.feature (n "B0") 3, .feature (n "B1") 4],
     .feature (n "C") 5]

/-- The run that ended with `out`, started with the trace `t`, explored the nodes
`nodes`: it returned `AC_ERR_SUCCESS`, it added to the output the lines expected
for these nodes, in order, and nothing else, and all the calls it made
succeeded. -/
def Explored (nodes : List (NodeInfo × AC_INTERFACE_TYPE × Nat)) (t : Trace)
    (out : Option AC_ERROR × Unit × Trace) : Prop :=
  out.1 = some AC_ERR_SUCCESS ∧
  prints out.2.2 = prints t ++ nodes.flatMap expectedLine ∧
  (AllOk t → AllOk out.2.2)

end C_Explore_Nodes

/-! ## `Cpp_Acquisition_TCP.cpp` -/

namespace Cpp_Acquisition_TCP

/-- Indentation of the first level, `#define TAB1`. -/
def TAB1 : String := "  "

/-- Indentation of the second level, `#define TAB2`. -/
def TAB2 : String := "    "

/-- Image timeout, `#define TIMEOUT 2000`. -/
def TIMEOUT : Nat := 2000

/-- Number of images to grab, `#define NUM_IMAGES 25`. -/
def NUM_IMAGES : Nat := 25

/-- The function `PrintInfo`.  The integers the library returns are read from
the field `num` of the answers; `std::endl` is written as a line end. -/
def PrintInfo {W : Type} (sdk : SDK W) (pDevice : Handle) : ProgX W Unit := do
  let m ← cppCall sdk (.cppDevice (.GetNodeMap pDevice))
  let width ← cppCall sdk (.cppDevice (.GetNodeValueInt m.handle "Width"))
  let m ← cppCall sdk (.cppDevice (.GetNodeMap pDevice))
  let height ← cppCall sdk (.cppDevice (.GetNodeValueInt m.handle "Height"))
  coutX [.str TAB1, .str "Image (w,h) = (", .num width.num, .str ",", .num height.num,
    .str ") ", .str "\n"]

/-- The loop `for (int i = 0; i < NUM_IMAGES; i++)` of `AcquireImages`, with `n`
iterations left and the counter at `i`. -/
def imageLoop {W : Type} (sdk : SDK W) (pDevice : Handle) : Nat → Nat → ProgX W Unit
  | 0, _ => pure ()
  | n + 1, i => do
    -- get image
    coutX [.str TAB2, .str "Get image ", .num i]
    let r ← cppCall sdk (.cppDevice (.GetImage pDevice TIMEOUT))
    let pImage := r.handle
    -- get image information
    let size ← cppCall sdk (.cppImage (.GetSizeFilled pImage))
    let width ← cppCall sdk (.cppImage (.GetWidth pImage))
    let height ← cppCall sdk (.cppImage (.GetHeight pImage))
    let pf ← cppCall sdk (.cppImage (.GetPixelFormat pImage))
    let pixelFormat ← cppCall sdk (.cppImage (.GetPixelFormatName (.value pf.num)))
    let timestampNs ← cppCall sdk (.cppImage (.GetTimestampNs pImage))
    coutX [.str " (", .num size.num, .str " bytes; ", .num width.num, .str "x",
      .num height.num, .str "; ", .str pixelFormat.str, .str "; timestamp (ns): ",
      .num timestampNs.num, .str ")"]
    -- requeue image buffer
    coutX [.str " and requeue\n"]
    let _ ← cppCall sdk (.cppDevice (.RequeueBuffer pDevice pImage))
    imageLoop sdk pDevice n (i + 1)

/-- The function `AcquireImages` of `Cpp_Acquisition_TCP.cpp`. -/
def AcquireImages {W : Type} (sdk : SDK W) (pDevice : Handle) : ProgX W Unit := do
  PrintInfo sdk pDevice
  -- get node values that will be changed in order to return their values at
  -- the end of the example
  let m ← cppCall sdk (.cppDevice (.GetNodeMap pDevice))
  let r ← cppCall sdk (.cppDevice (.GetNodeValueString m.handle "AcquisitionMode"))
  let acquisitionModeInitial := r.str
  -- set acquisition mode
  coutX [.str TAB1, .str "Set acquisition mode to 'Continuous'\n"]
  let m ← cppCall sdk (.cppDevice (.GetNodeMap pDevice))
  let _ ← cppCall sdk (.cppDevice (.SetNodeValueString m.handle "AcquisitionMode" "Continuous"))
  -- set buffer handling mode
  coutX [.str TAB1, .str "Set buffer handling mode to 'NewestOnly'\n"]
  let m ← cppCall sdk (.cppDevice (.GetTLStreamNodeMap pDevice))
  let _ ← cppCall sdk
    (.cppDevice (.SetNodeValueString m.handle "StreamBufferHandlingMode" "NewestOnly"))
  let m ← cppCall sdk (.cppDevice (.GetNodeMap pDevice))
  let node ← cppCall sdk (.cppDevice (.GetNode m.handle "TransportStreamProtocol"))
  let implemented ← cppCall sdk (.cppDevice (.IsImplemented node.handle))
  if implemented.flag then
    -- get node value
    let m ← cppCall sdk (.cppDevice (.GetNodeMap pDevice))
    let r ← cppCall sdk (.cppDevice (.GetNodeValueString m.handle "TransportStreamProtocol"))
    let transportStreamProtocolInitial := r.str
    coutX [.str TAB1, .str "Set Transport Stream Protocol to TCP\n"]
    let m ← cppCall sdk (.cppDevice (.GetNodeMap pDevice))
    let _ ← cppCall sdk (.cppDevice (.SetNodeValueString m.handle "TransportStreamProtocol" "TCP"))
    -- start stream
    coutX [.str TAB1, .str "Start stream\n"]
    let _ ← cppCall sdk (.cppDevice (.StartStream pDevice))
    -- get images
    coutX [.str TAB1, .str "Getting ", .num NUM_IMAGES, .str " images\n"]
    imageLoop sdk pDevice NUM_IMAGES 0
    -- stop stream
    coutX [.str TAB1, .str "Stop stream\n"]
    let _ ← cppCall sdk (.cppDevice (.StopStream pDevice))
    -- return node to its initial value
    let m ← cppCall sdk (.cppDevice (.GetNodeMap pDevice))
    let _ ← cppCall sdk
      (.cppDevice (.SetNodeValueString m.handle "TransportStreamProtocol"
        transportStreamProtocolInitial))
  else
    coutX [.str TAB1, .str "\nConnected camera does not support TCP stream\n"]
  -- return node to its initial value
  let m ← cppCall sdk (.cppDevice (.GetNodeMap pDevice))
  let _ ← cppCall sdk
    (.cppDevice (.SetNodeValueString m.handle "AcquisitionMode" acquisitionModeInitial))

/-- The `try` block of `main`.  The value is `some v` when the block executes
`return v;`, and `none` when control reaches the end of the block.  The device
list is held by the library, and `deviceInfos` is its size. -/
def tryBlock {W : Type} (sdk : SDK W) : ProgX W (Option Int) := do
  -- prepare example
  let r ← cppCall sdk (.cppSystem .OpenSystem)
  let pSystem := r.handle
  let _ ← cppCall sdk (.cppSystem (.UpdateDevices pSystem 100))
  let l ← cppCall sdk (.cppSystem (.GetDevices pSystem))
  let deviceInfos := l.num
  if deviceInfos = 0 then
    coutX [.str "\nNo camera connected\nPress enter to complete\n"]
    getcharX
    return some 0
  let r ← cppCall sdk (.cppSystem (.CreateDevice pSystem 0))
  let pDevice := r.handle
  -- run example
  coutX [.str "Commence example\n\n"]
  AcquireImages sdk pDevice
  coutX [.str "\nExample complete\n"]
  -- clean up example
  let _ ← cppCall sdk (.cppSystem (.DestroyDevice pSystem pDevice))
  let _ ← cppCall sdk (.cppSystem (.CloseSystem pSystem))
  return none

/-- The function `main` of `Cpp_Acquisition_TCP.cpp`: the `try` block with its
three `catch` clauses, then the common end. -/
def main {W : Type} (sdk : SDK W) : Prog W Int := do
  -- flag to track when an exception has been thrown
  let mut exceptionThrown := false
  cout [.str "Cpp_Acquisition_TCP\n"]
  match ← (tryBlock sdk).run with
  | .ok (some v) => return v
  | .ok none => pure ()
  | .error (.generic what) =>
    cout [.str "\nGenICam exception thrown: ", .str what, .str "\n"]
    exceptionThrown := true
  | .error (.standard what) =>
    cout [.str "\nStandard exception thrown: ", .str what, .str "\n"]
    exceptionThrown := true
  | .error .unexpected =>
    cout [.str "\nUnexpected exception thrown\n"]
    exceptionThrown := true
  cout [.str "Press enter to complete\n"]
  getchar
  if exceptionThrown then
    return -1
  else
    return 0

/-- An access to the value of a node through `Arena::GetNodeValue` or
`Arena::SetNodeValue` at type `GenICam::gcstring`: the name of the node and the
value read or written. -/
inductive Access
  | read (nodeName : String) (value : String)
  | write (nodeName : String) (value : String)
deriving DecidableEq, Repr

/-- The access an event makes to the value of a node, if it makes one.  Writes
of a boolean or an integer count as writes of their text. -/
def Event.access : Event → Option Access
  | .call (.cppDevice (.GetNodeValueString _ n)) r => some (.read n r.str)
  | .call (.cppDevice (.SetNodeValueString _ n v)) _ => some (.write n v)
  | .call (.cppDevice (.SetNodeValueBool _ n v)) _ => some (.write n (toString v))
  | .call (.cppDevice (.SetNodeValueInt _ n v)) _ => some (.write n (toString v))
  | _ => none

/-- The accesses of a trace to the values of nodes, in order. -/
def accesses (t : Trace) : List Access := t.filterMap Event.access

end Cpp_Acquisition_TCP

/-! ## `Cpp_Save_Bmp.cpp` -/

namespace Cpp_Save_Bmp

/-- Indentation of the first level, `#define TAB1`. -/
def TAB1 : String := "  "

/-- File name, `#define FILE_NAME`. -/
def FILE_NAME : String := "Images/Cpp_Save/image.bmp"

/-- The function `SaveImage` of `Cpp_Save_Bmp.cpp`.  The constructors of
`Save::ImageParams` and `Save::ImageWriter` and the operator `writer << data`
are calls into the save library; the arguments of a constructor are evaluated
from left to right. -/
def SaveImage {W : Type} (sdk : SDK W) (pImage : Handle) (filename : String) :
    ProgX W Unit := do
  -- prepare image parameters
  coutX [.str TAB1, .str "Prepare image parameters\n"]
  let width ← cppCall sdk (.cppImage (.GetWidth pImage))
  let height ← cppCall sdk (.cppImage (.GetHeight pImage))
  let bpp ← cppCall sdk (.cppImage (.GetBitsPerPixel pImage))
  let params ← cppCall sdk (.cppImage (.ImageParams width.num height.num bpp.num))
  -- prepare image writer
  coutX [.str TAB1, .str "Prepare image writer\n"]
  let writer ← cppCall sdk (.cppImage (.ImageWriter params.handle filename))
  -- set image writer to BMP
  coutX [.str TAB1, .str "Set image writer to BMP\n"]
  let _ ← cppCall sdk (.cppImage (.SetBmp writer.handle ".bmp"))
  -- save image
  coutX [.str TAB1, .str "Save image\n"]
  let d ← cppCall sdk (.cppImage (.GetData pImage))
  let _ ← cppCall sdk (.cppImage (.Save writer.handle d.handle))

/-- The `try` block of `main`, as in `Cpp_Acquisition_TCP.tryBlock`. -/
def tryBlock {W : Type} (sdk : SDK W) : ProgX W (Option Int) := do
  -- prepare example
  let r ← cppCall sdk (.cppSystem .OpenSystem)
  let pSystem := r.handle
  let _ ← cppCall sdk (.cppSystem (.UpdateDevices pSystem 100))
  let l ← cppCall sdk (.cppSystem (.GetDevices pSystem))
  let devices := l.num
  if devices = 0 then
    coutX [.str "\nNo camera connected\nPress enter to complete\n"]
    getcharX
    return some 0
  let r ← cppCall sdk (.cppSystem (.CreateDevice pSystem 0))
  let pDevice := r.handle
  -- enable stream auto negotiate packet size
  let m ← cppCall sdk (.cppDevice (.GetTLStreamNodeMap pDevice))
  let _ ← cppCall sdk (.cppDevice (.SetNodeValueBool m.handle "StreamAutoNegotiatePacketSize" true))
  -- enable stream packet resend
  let m ← cppCall sdk (.cppDevice (.GetTLStreamNodeMap pDevice))
  let _ ← cppCall sdk (.cppDevice (.SetNodeValueBool m.handle "StreamPacketResendEnable" true))
  let _ ← cppCall sdk (.cppDevice (.StartStream pDevice))
  let r ← cppCall sdk (.cppDevice (.GetImage pDevice 2000))
  let pImage := r.handle
  coutX [.str "Commence example\n\n"]
  SaveImage sdk pImage FILE_NAME
  coutX [.str "\nExample complete\n"]
  -- clean up example
  let _ ← cppCall sdk (.cppDevice (.RequeueBuffer pDevice pImage))
  let _ ← cppCall sdk (.cppDevice (.StopStream pDevice))
  let _ ← cppCall sdk (.cppSystem (.DestroyDevice pSystem pDevice))
  let _ ← cppCall sdk (.cppSystem (.CloseSystem pSystem))
  return none

/-- The function `main` of `Cpp_Save_Bmp.cpp`. -/
def main {W : Type} (sdk : SDK W) : Prog W Int := do
  -- flag to track when an exception has been thrown
  let mut exceptionThrown := false
  cout [.str "Cpp_Save_Bmp\n"]
  match ← (tryBlock sdk).run with
  | .ok (some v) => return v
  | .ok none => pure ()
  | .error (.generic what) =>
    cout [.str "\nGenICam exception thrown: ", .str what, .str "\n"]
    exceptionThrown := true
  | .error (.standard what) =>
    cout [.str "\nStandard exception thrown: ", .str what, .str "\n"]
    exceptionThrown := true
  | .error .unexpected =>
    cout [.str "\nUnexpected exception thrown\n"]
    exceptionThrown := true
  cout [.str "Press enter to complete\n"]
  getchar
  if exceptionThrown then
    return -1
  else
    return 0

end Cpp_Save_Bmp

/-! ## `Cpp_Save_Jpeg.cpp` -/

namespace Cpp_Save_Jpeg

/-- Indentation of the first level, `#define TAB1`. -/
def TAB1 : String := "  "

/-- Pixel format, `#define PIXEL_FORMAT BGR8`. -/
def PIXEL_FORMAT : PfncFormat := .named "BGR8"

/-- File name, `#define FILE_NAME`. -/
def FILE_NAME : String := "Images/Cpp_Save/image.jpg"

/-- The function `SaveImage` of `Cpp_Save_Jpeg.cpp`, with the conventions of
`Cpp_Save_Bmp.SaveImage`. -/
def SaveImage {W : Type} (sdk : SDK W) (pImage : Handle) (filename : String) :
    ProgX W Unit := do
  -- convert image
  let name ← cppCall sdk (.cppImage (.GetPixelFormatName PIXEL_FORMAT))
  coutX [.str TAB1, .str "Convert image to ", .str name.str, .str "\n"]
  let c ← cppCall sdk (.cppImage (.Convert pImage PIXEL_FORMAT))
  let pConverted := c.handle
  -- prepare image parameters
  coutX [.str TAB1, .str "Prepare image parameters\n"]
  let width ← cppCall sdk (.cppImage (.GetWidth pConverted))
  let height ← cppCall sdk (.cppImage (.GetHeight pConverted))
  let bpp ← cppCall sdk (.cppImage (.GetBitsPerPixel pConverted))
  let params ← cppCall sdk (.cppImage (.ImageParams width.num height.num bpp.num))
  -- prepare image writer
  coutX [.str TAB1, .str "Prepare image writer\n"]
  let writer ← cppCall sdk (.cppImage (.ImageWriter params.handle filename))
  -- set image writer to JPEG
  coutX [.str TAB1, .str "Set image writer to JPEG\n"]
  let _ ← cppCall sdk (.cppImage (.SetJpeg writer.handle ".jpg" 75 false "NoSubsampling" false))
  -- save image
  coutX [.str TAB1, .str "Save image\n"]
  let d ← cppCall sdk (.cppImage (.GetData pConverted))
  let _ ← cppCall sdk (.cppImage (.Save writer.handle d.handle))
  -- destroy converted image
  let _ ← cppCall sdk (.cppImage (.Destroy pConverted))

/-- The `try` block of `main`, as in `Cpp_Acquisition_TCP.tryBlock`. -/
def tryBlock {W : Type} (sdk : SDK W) : ProgX W (Option Int) := do
  -- prepare example
  let r ← cppCall sdk (.cppSystem .OpenSystem)
  let pSystem := r.handle
  let _ ← cppCall sdk (.cppSystem (.UpdateDevices pSystem 100))
  let l ← cppCall sdk (.cppSystem (.GetDevices pSystem))
  let devices := l.num
  if devices = 0 then
    coutX [.str "\nNo camera connected\nPress enter to complete\n"]
    getcharX
    return some 0
  let r ← cppCall sdk (.cppSystem (.CreateDevice pSystem 0))
  let pDevice := r.handle
  -- enable stream auto negotiate packet size
  let m ← cppCall sdk (.cppDevice (.GetTLStreamNodeMap pDevice))
  let _ ← cppCall sdk (.cppDevice (.SetNodeValueBool m.handle "StreamAutoNegotiatePacketSize" true))
  -- enable stream packet resend
  let m ← cppCall sdk (.cppDevice (.GetTLStreamNodeMap pDevice))
  let _ ← cppCall sdk (.cppDevice (.SetNodeValueBool m.handle "StreamPacketResendEnable" true))
  let _ ← cppCall sdk (.cppDevice (.StartStream pDevice))
  let r ← cppCall sdk (.cppDevice (.GetImage pDevice 2000))
  let pImage := r.handle
  coutX [.str "Commence example\n\n"]
  SaveImage sdk pImage FILE_NAME
  coutX [.str "\nExample complete\n"]
  -- clean up example
  let _ ← cppCall sdk (.cppDevice (.RequeueBuffer pDevice pImage))
  let _ ← cppCall sdk (.cppDevice (.StopStream pDevice))
  let _ ← cppCall sdk (.cppSystem (.DestroyDevice pSystem pDevice))
  let _ ← cppCall sdk (.cppSystem (.CloseSystem pSystem))
  return none

/-- The function `main` of `Cpp_Save_Jpeg.cpp`. -/
def main {W : Type} (sdk : SDK W) : Prog W Int := do
  -- flag to track when an exception has been thrown
  let mut exceptionThrown := false
  cout [.str "Cpp_Save_Jpeg\n"]
  match ← (tryBlock sdk).run with
  | .ok (some v) => return v
  | .ok none => pure ()
  | .error (.generic what) =>
    cout [.str "\nGenICam exception thrown: ", .str what, .str "\n"]
    exceptionThrown := true
  | .error (.standard what) =>
    cout [.str "\nStandard exception thrown: ", .str what, .str "\n"]
    exceptionThrown := true
  | .error .unexpected =>
    cout [.str "\nUnexpected exception thrown\n"]
    exceptionThrown := true
  cout [.str "Press enter to complete\n"]
  getchar
  if exceptionThrown then
    return -1
  else
    return 0

end Cpp_Save_Jpeg

/-! ## `Cpp_Enumeration_CcpSwitchover.cpp` -/

namespace Cpp_Enumeration_CcpSwitchover

/-- Indentation of the first level, `#define TAB1`. -/
def TAB1 : String := "  "

/-- Indentation of the second level, `#define TAB2`. -/
def TAB2 : String := "    "

/-- Indentation of the third level, `#define TAB3`. -/
def TAB3 : String := "      "

/-- Update timeout, `#define SYSTEM_TIMEOUT 100`. -/
def SYSTEM_TIMEOUT : Nat := 100

/-- The key `static int64_t switchoverKey = 0x1234`. -/
def switchoverKey : Int := 0x1234

/-- The function `hasControl`: reads the node `DeviceAccessStatus` and compares
it with `"ReadWrite"`. -/
def hasControl {W : Type} (sdk : SDK W) (pTLDeviceNodeMap : Handle) : ProgX W Bool := do
  let deviceAccessStatus ←
    cppCall sdk (.cppDevice (.GetNodeValueString pTLDeviceNodeMap "DeviceAccessStatus"))
  return decide (deviceAccessStatus.str = "ReadWrite")

/-- The loop `for (size_t i = 0; i < deviceInfos.size(); i++)` of
`EnumerateDevices`, with `n` iterations left, the counter at `i` and the current
value of `serialToFind`, which is also the value of the loop. -/
def infoLoop {W : Type} (sdk : SDK W) : Nat → Nat → String → ProgX W String
  | 0, _, serialToFind => pure serialToFind
  | n + 1, i, serialToFind => do
    let mut serialToFind := serialToFind
    -- save first serial number
    if i = 0 then
      let r ← cppCall sdk (.cppSystem (.SerialNumber 0))
      serialToFind := r.str
    -- display device information
    coutX [.str TAB2, .str "Information for device ", .num i]
    let vendor ← cppCall sdk (.cppSystem (.VendorName i))
    let model ← cppCall sdk (.cppSystem (.ModelName i))
    let serial ← cppCall sdk (.cppSystem (.SerialNumber i))
    let macStr ← cppCall sdk (.cppSystem (.MacAddressStr i))
    let ipStr ← cppCall sdk (.cppSystem (.IpAddressStr i))
    coutX [.str " (", .str vendor.str, .str "; ", .str model.str, .str "; serial ",
      .str serial.str, .str "; MAC ", .str macStr.str, .str "; IP ", .str ipStr.str,
      .str ")\n"]
    infoLoop sdk n (i + 1) serialToFind

/-- The search `std::find_if` over the device list with the predicate
`deviceInfo.SerialNumber() == serialToFind`, with `n` entries left from index
`i`: the index of the first entry that matches, and the size of the list (the
end of the list) when none does. -/
def findLoop {W : Type} (sdk : SDK W) (serialToFind : String) : Nat → Nat → ProgX W Nat
  | 0, i => pure i
  | n + 1, i => do
    let r ← cppCall sdk (.cppSystem (.SerialNumber i))
    if r.str = serialToFind then
      return i
    findLoop sdk serialToFind n (i + 1)

/-- The function `EnumerateDevices` of `Cpp_Enumeration_CcpSwitchover.cpp`. -/
def EnumerateDevices {W : Type} (sdk : SDK W) : ProgX W Unit := do
  -- open system
  coutX [.str TAB1, .str "Open system\n"]
  let r ← cppCall sdk (.cppSystem .OpenSystem)
  let pSystem := r.handle
  -- update and retrieve the device list
  coutX [.str TAB1, .str "Update and retrieve list of devices\n"]
  let _ ← cppCall sdk (.cppSystem (.UpdateDevices pSystem SYSTEM_TIMEOUT))
  let l ← cppCall sdk (.cppSystem (.GetDevices pSystem))
  let deviceInfos := l.num
  -- get information on connected devices
  coutX [.str TAB1, .str "Get device information\n"]
  if deviceInfos = 0 then
    coutX [.str "\nNo camera connected\n"]
    throwX (.standard "No Camera Conencted")
  let serialToFind ← infoLoop sdk deviceInfos 0 "00000"
  -- search for device
  coutX [.str TAB1, .str "Search for device with serial ", .str serialToFind, .str "\n"]
  let it ← findLoop sdk serialToFind deviceInfos 0
  if it ≠ deviceInfos then
    coutX [.str TAB2, .str "Device found\n"]
    -- create device
    coutX [.str TAB3, .str "Create device\n"]
    let r ← cppCall sdk (.cppSystem (.CreateDevice pSystem it))
    let pDevice := r.handle
    -- check if we were able to get control of application
    let m ← cppCall sdk (.cppDevice (.GetTLDeviceNodeMap pDevice))
    if ← hasControl sdk m.handle then
      let m ← cppCall sdk (.cppDevice (.GetTLDeviceNodeMap pDevice))
      let _ ← cppCall sdk (.cppDevice (.SetNodeValueInt m.handle "CcpSwitchoverKey" switchoverKey))
      -- now lets wait for user to input something
      coutX [.str TAB3, .str "Please input a character to continue:\n"]
      cinX
    else
      let m ← cppCall sdk (.cppDevice (.GetTLDeviceNodeMap pDevice))
      let _ ← cppCall sdk (.cppDevice (.SetNodeValueInt m.handle "CcpSwitchoverKey" switchoverKey))
      -- now try to set the access status to read/write
      let m ← cppCall sdk (.cppDevice (.GetTLDeviceNodeMap pDevice))
      let _ ← cppCall sdk
        (.cppDevice (.SetNodeValueString m.handle "DeviceAccessStatus" "ReadWrite"))
      let m ← cppCall sdk (.cppDevice (.GetTLDeviceNodeMap pDevice))
      if ← hasControl sdk m.handle then
        coutX [.str TAB3, .str "Create device succeeded with aquiring control\n"]
      else
        coutX [.str TAB3, .str "Create device failed to aquire control\n"]
    -- destroy device
    coutX [.str TAB3, .str "Destroy device\n"]
    let _ ← cppCall sdk (.cppSystem (.DestroyDevice pSystem pDevice))
  -- close system
  coutX [.str TAB1, .str "Close system\n"]
  let _ ← cppCall sdk (.cppSystem (.CloseSystem pSystem))

/-- The `try` block of `main`; it has no `return` statement. -/
def tryBlock {W : Type} (sdk : SDK W) : ProgX W Unit := do
  -- run example
  coutX [.str "Commence example\n\n"]
  EnumerateDevices sdk
  coutX [.str "\nExample complete\n"]

/-- The function `main` of `Cpp_Enumeration_CcpSwitchover.cpp`. -/
def main {W : Type} (sdk : SDK W) : Prog W Int := do
  -- flag to track when an exception has been thrown
  let mut exceptionThrown := false
  cout [.str "Cpp_Enumeration_CcpSwitchover\n"]
  match ← (tryBlock sdk).run with
  | .ok () => pure ()
  | .error (.generic what) =>
    cout [.str "\nGenICam exception thrown: ", .str what, .str "\n"]
    exceptionThrown := true
  | .error (.standard what) =>
    cout [.str "Standard exception thrown: ", .str what, .str "\n"]
    exceptionThrown := true
  | .error .unexpected =>
    cout [.str "Unexpected exception thrown\n"]
    exceptionThrown := true
  cout [.str "Press enter to complete\n"]
  getchar
  if exceptionThrown then
    return -1
  else
    return 0

end Cpp_Enumeration_CcpSwitchover

/-- An event that throws an exception: a library call that throws, or a `throw`
statement. -/
def Event.throws : Event → Bool
  | .call _ r => r.thrown.isSome
  | .throw _ => true
  | _ => false

/-- An exception was thrown in the course of the trace. -/
def Threw (t : Trace) : Prop := t.any Event.throws = true

instance (t : Trace) : Decidable (Threw t) := inferInstanceAs (Decidable (_ = true))

/-! ## `ArenaUIStack.h` -/

namespace ArenaUI

/-- The exception `std::out_of_range`, with the text given to its constructor. -/
structure out_of_range where
  what : String
deriving DecidableEq, Repr

/-- The class template `Stack<T>`.  An object holds one data member, the vector
`m_pQuery`; a vector is the list of its elements, the front first.  The member
functions are functions of the object they are called on, and those that change
it return the new object.  The sizes and indices (`size_t`) are natural numbers:
a vector never holds `2 ^ 64` elements. -/
structure Stack (T : Type) where
  m_pQuery : List T
deriving DecidableEq, Repr

namespace Stack

variable {T : Type}

/-- The constructor `Stack(){}`, which builds the static object `m_stack`: the
vector starts empty. -/
def mk0 : Stack T := { m_pQuery := [] }

/-- The member `Push`: `m_pQuery.push_back(in)`. -/
def Push (s : Stack T) (x : T) : Stack T := { m_pQuery := s.m_pQuery ++ [x] }

/-- The member `Size`: `m_pQuery.size()`. -/
def Size (s : Stack T) : Nat := s.m_pQuery.length

/-- The member `GetAt`, with the default argument `index = 0`: it throws when
`m_pQuery.size() <= index` and returns `m_pQuery[index]` otherwise. -/
def GetAt (s : Stack T) (index : Nat := 0) : Except out_of_range T :=
  if h : s.m_pQuery.length ≤ index then
    throw { what := "Index into stack is out of range" }
  else
    pure (s.m_pQuery.get ⟨index, Nat.lt_of_not_le h⟩)

/-- The member `Clear`: `m_pQuery.clear()`. -/
def Clear (_s : Stack T) : Stack T := { m_pQuery := [] }

end Stack

end ArenaUI

/-! ## The list of devices -/

/-- The answer of the library to a request for the list of devices:
`acSystemGetNumDevices` in the C interface, `GetDevices` in the C++ interface. -/
def Event.deviceList : Event → Option Resp
  | .call (.system (.acSystemGetNumDevices _)) r => some r
  | .call (.cppSystem (.GetDevices _)) r => some r
  | _ => none

/-- The answers of the library to the requests for the list of devices, in
order. -/
def deviceLists (t : Trace) : List Resp := t.filterMap Event.deviceList

/-- A library that finds no camera, through either interface, and on which every
call succeeds. -/
def noCamera : SDK Unit := fun _ c =>
  match c with
  | .system (.acSystemGetNumDevices _) => ({ answer AC_ACCESS_MODE_RW 7 with num := 0 }, ())
  | .cppSystem (.GetDevices _) => ({ answer AC_ACCESS_MODE_RW 7 with num := 0 }, ())
  | _ => (answer AC_ACCESS_MODE_RW 7, ())

/-! ## Properties of programs -/

/-- A program only ever adds events at the end of the trace. -/
def Extends {W α : Type} (p : Prog W α) : Prop :=
  ∀ s : W × Trace, ∃ d : Trace, (p s).2.2 = s.2 ++ d

/-- The program ends with an exception exactly when one of the events it adds to
the trace throws. -/
def Faithful {W α : Type} (p : ProgX W α) : Prop :=
  ∀ s : W × Trace, ∃ d : Trace, (p s).2.2 = s.2 ++ d ∧ ((∃ e, (p s).1 = .error e) ↔ Threw d)

/-- A `try` block that returns a value from inside returns `0`. -/
def Result0 {W : Type} (p : ProgX W (Option Int)) : Prop :=
  ∀ (s : W × Trace) (v : Int), (p s).1 = .ok (some v) → v = 0

/-! # Theorems -/

/-! ## Running programs -/

section Run

variable {W : Type}

theorem run_bind {α β : Type} (m : Prog W α) (f : α → Prog W β) (s : W × Trace) :
    (m >>= f) s = f (m s).1 (m s).2 := rfl

theorem run_pure {α : Type} (a : α) (s : W × Trace) : (pure a : Prog W α) s = (a, s) := rfl

theorem run_ite {α : Type} (c : Prop) [Decidable c] (a b : Prog W α) (s : W × Trace) :
    (if c then a else b) s = if c then a s else b s := by
  split <;> rfl

theorem run_sdkCall (sdk : SDK W) (c : Call) (s : W × Trace) :
    sdkCall sdk c s = ((sdk s.1 c).1, ((sdk s.1 c).2, s.2 ++ [Event.call c (sdk s.1 c).1])) := rfl

theorem run_printf (fmt : String) (args : List Arg) (s : W × Trace) :
    (printf fmt args : Prog W Unit) s = ((), (s.1, s.2 ++ [Event.printf fmt args])) := rfl

theorem run_getchar (s : W × Trace) :
    (getchar : Prog W Unit) s = ((), (s.1, s.2 ++ [Event.getchar])) := rfl

end Run

@[simp] theorem allOk_nil : AllOk [] := rfl

@[simp] theorem allOk_append (t u : Trace) : AllOk (t ++ u) ↔ AllOk t ∧ AllOk u := by
  simp [AllOk, List.all_append]

@[simp] theorem allOk_cons (e : Event) (t : Trace) : AllOk (e :: t) ↔ e.ok = true ∧ AllOk t := by
  simp [AllOk]

@[simp] theorem ok_call (c : Call) (r : Resp) :
    (Event.call c r).ok = true ↔ r.err = AC_ERR_SUCCESS := by
  simp [Event.ok]

@[simp] theorem ok_printf (fmt : String) (args : List Arg) : (Event.printf fmt args).ok = true := rfl

@[simp] theorem ok_getchar : Event.getchar.ok = true := rfl

/-! ## Stepping through a program -/

section Step

variable {W : Type}

/-- A library call followed by the rest of the program. -/
theorem call_elim {α : Type} {sdk : SDK W} {c : Call} {f : Resp → Prog W α} {w : W} {t : Trace}
    {out : α × W × Trace} (h : (sdkCall sdk c >>= f) (w, t) = out) :
    ∃ r : Resp × W, r = sdk w c ∧ f r.1 (r.2, t ++ [Event.call c r.1]) = out :=
  ⟨_, rfl, h⟩

/-- A call of another function of the program followed by the rest. -/
theorem bind_elim {α β : Type} {m : Prog W α} {f : α → Prog W β} {s : W × Trace}
    {out : β × W × Trace} (h : (m >>= f) s = out) :
    ∃ x : α × W × Trace, x = m s ∧ f x.1 x.2 = out :=
  ⟨_, rfl, h⟩

/-- A `printf` followed by the rest of the program. -/
theorem printf_elim {α : Type} {fmt : String} {args : List Arg} {f : Unit → Prog W α}
    {w : W} {t : Trace} {out : α × W × Trace} (h : (printf fmt args >>= f) (w, t) = out) :
    f () (w, t ++ [Event.printf fmt args]) = out := h

/-- A value followed by the rest of the program. -/
theorem pure_elim {α β : Type} {a : α} {f : α → Prog W β} {s : W × Trace}
    {out : β × W × Trace} (h : (pure a >>= f) s = out) : f a s = out := h

/-- A `getchar` followed by the rest of the program. -/
theorem getchar_elim {α : Type} {f : Unit → Prog W α}
    {w : W} {t : Trace} {out : α × W × Trace} (h : (getchar >>= f) (w, t) = out) :
    f () (w, t ++ [Event.getchar]) = out := h

/-- The check `if (err != AC_ERR_SUCCESS) return err;`. -/
theorem check_elim {e : AC_ERROR} {k : Unit → Prog W AC_ERROR} {s : W × Trace}
    {out : AC_ERROR × W × Trace}
    (h : (if e ≠ AC_ERR_SUCCESS then pure e else pure PUnit.unit >>= k) s = out) :
    (e ≠ AC_ERR_SUCCESS ∧ out = (e, s)) ∨ (e = AC_ERR_SUCCESS ∧ k () s = out) := by
  by_cases he : e = AC_ERR_SUCCESS
  · right; refine ⟨he, ?_⟩; rw [← h, run_ite, if_neg (not_not.mpr he)]; rfl
  · left; refine ⟨he, ?_⟩; rw [← h, run_ite, if_pos he]; rfl

end Step

/-! ## Observations on composed traces -/

@[simp] theorem lookups_nil (n : String) : lookups n [] = [] := rfl

@[simp] theorem lookups_append (n : String) (t u : Trace) :
    lookups n (t ++ u) = lookups n t ++ lookups n u := by
  simp [lookups, List.filterMap_append]

@[simp] theorem lookups_cons_lookup (n n1 : String) (m : Handle) (r : Resp) (t : Trace) :
    lookups n (Event.call (.node (.acNodeMapGetNodeAndAccessMode m n1)) r :: t)
      = if n1 = n then r :: lookups n t else lookups n t := by
  by_cases h : n1 = n <;> simp [lookups, Event.lookupOf, List.filterMap_cons, h]

theorem lookups_cons_other (n : String) (e : Event) (t : Trace)
    (h : Event.lookupOf n e = none) : lookups n (e :: t) = lookups n t := by
  simp [lookups, List.filterMap_cons, h]

@[simp] theorem acquisitionEvents_nil : acquisitionEvents [] = [] := rfl

@[simp] theorem acquisitionEvents_append (t u : Trace) :
    acquisitionEvents (t ++ u) = acquisitionEvents t ++ acquisitionEvents u := by
  simp [acquisitionEvents]

theorem acquisitionEvents_cons (e : Event) (t : Trace) :
    acquisitionEvents (e :: t)
      = if e.isAcquisition = true then e :: acquisitionEvents t else acquisitionEvents t := by
  simp [acquisitionEvents, List.filter_cons]

/-! ## Programs only add to the trace -/

section
variable {W : Type}

theorem extends_pure {α : Type} (a : α) : Extends (pure a : Prog W α) :=
  fun _ => ⟨[], by simp [run_pure]⟩

theorem extends_bind {α β : Type} {m : Prog W α} {f : α → Prog W β}
    (hm : Extends m) (hf : ∀ a, Extends (f a)) : Extends (m >>= f) := by
  intro s
  obtain ⟨d1, h1⟩ := hm s
  obtain ⟨d2, h2⟩ := hf (m s).1 (m s).2
  exact ⟨d1 ++ d2, by rw [run_bind, h2, h1, List.append_assoc]⟩

theorem extends_sdkCall (sdk : SDK W) (c : Call) : Extends (sdkCall sdk c) :=
  fun _ => ⟨_, rfl⟩

theorem extends_printf (fmt : String) (args : List Arg) : Extends (printf fmt args : Prog W Unit) :=
  fun _ => ⟨_, rfl⟩

theorem extends_getchar : Extends (getchar : Prog W Unit) :=
  fun _ => ⟨_, rfl⟩

theorem extends_ite {α : Type} (c : Prop) [Decidable c] {a b : Prog W α}
    (ha : Extends a) (hb : Extends b) : Extends (if c then a else b) := by
  split
  · exact ha
  · exact hb

theorem extends_elim {α : Type} {p : Prog W α} {s : W × Trace} {out : α × W × Trace}
    (hp : Extends p) (h : p s = out) : ∃ d : Trace, out.2.2 = s.2 ++ d := by
  subst h
  exact hp s
end

/-! ## `C_Acquisition_RDMA.c` -/

namespace C_Acquisition_RDMA

variable {W : Type}

/-- The three ways `GetNodeValue` can go. -/
theorem GetNodeValue_cases {sdk : SDK W} {m : Handle} {n : String} {w : W} {t : Trace}
    {g : (AC_ERROR × String) × W × Trace} (hg : g = GetNodeValue sdk m n (w, t)) :
    ∃ r : Resp × W,
      (r.1.err ≠ AC_ERR_SUCCESS ∧
        g = ((r.1.err, ""), (r.2, t ++ [Event.call (.node (.acNodeMapGetNodeAndAccessMode m n)) r.1]))) ∨
      (r.1.err = AC_ERR_SUCCESS ∧ (r.1.mode ≠ AC_ACCESS_MODE_RO ∧ r.1.mode ≠ AC_ACCESS_MODE_RW) ∧
        g = ((AC_ERR_ERROR, ""),
             (r.2, t ++ [Event.call (.node (.acNodeMapGetNodeAndAccessMode m n)) r.1]))) ∨
      (r.1.err = AC_ERR_SUCCESS ∧ (r.1.mode = AC_ACCESS_MODE_RO ∨ r.1.mode = AC_ACCESS_MODE_RW) ∧
        ∃ v : Resp × W, g = ((v.1.err, v.1.str),
             (v.2, t ++ [Event.call (.node (.acNodeMapGetNodeAndAccessMode m n)) r.1,
                           Event.call (.node (.acValueToString r.1.handle)) v.1])))  := by
  subst hg
  refine ⟨sdk w (.node (.acNodeMapGetNodeAndAccessMode m n)), ?_⟩
  simp only [GetNodeValue, run_bind, run_pure, run_sdkCall, run_ite]
  generalize sdk w (.node (.acNodeMapGetNodeAndAccessMode m n)) = r
  by_cases h1 : r.1.err = AC_ERR_SUCCESS
  · by_cases h2 : r.1.mode ≠ AC_ACCESS_MODE_RO ∧ r.1.mode ≠ AC_ACCESS_MODE_RW
    · right; left
      simp [h1, h2]
    · right; right
      refine ⟨h1, by tauto, sdk r.2 (.node (.acValueToString r.1.handle)), ?_⟩
      simp [h1, h2]
  · left
    simp [h1]

/-- The three ways `SetNodeValue` can go. -/
theorem SetNodeValue_cases {sdk : SDK W} {m : Handle} {n v : String} {w : W} {t : Trace}
    {g : AC_ERROR × W × Trace} (hg : g = SetNodeValue sdk m n v (w, t)) :
    ∃ r : Resp × W,
      (r.1.err ≠ AC_ERR_SUCCESS ∧
        g = (r.1.err, (r.2, t ++ [Event.call (.node (.acNodeMapGetNodeAndAccessMode m n)) r.1]))) ∨
      (r.1.err = AC_ERR_SUCCESS ∧ (r.1.mode ≠ AC_ACCESS_MODE_WO ∧ r.1.mode ≠ AC_ACCESS_MODE_RW) ∧
        g = (AC_ERR_ERROR, (r.2, t ++ [Event.call (.node (.acNodeMapGetNodeAndAccessMode m n)) r.1]))) ∨
      (r.1.err = AC_ERR_SUCCESS ∧ (r.1.mode = AC_ACCESS_MODE_WO ∨ r.1.mode = AC_ACCESS_MODE_RW) ∧
        ∃ q : Resp × W, g = (q.1.err,
             (q.2, t ++ [Event.call (.node (.acNodeMapGetNodeAndAccessMode m n)) r.1,
                           Event.call (.node (.acValueFromString r.1.handle v)) q.1]))) := by
  subst hg
  refine ⟨sdk w (.node (.acNodeMapGetNodeAndAccessMode m n)), ?_⟩
  simp only [SetNodeValue, run_bind, run_pure, run_sdkCall, run_ite]
  generalize sdk w (.node (.acNodeMapGetNodeAndAccessMode m n)) = r
  by_cases h1 : r.1.err = AC_ERR_SUCCESS
  · by_cases h2 : r.1.mode ≠ AC_ACCESS_MODE_WO ∧ r.1.mode ≠ AC_ACCESS_MODE_RW
    · right; left
      simp [h1, h2]
    · right; right
      refine ⟨h1, by tauto, sdk r.2 (.node (.acValueFromString r.1.handle v)), ?_⟩
      simp [h1, h2]
  · left
    simp [h1]

theorem extends_GetNodeValue (sdk : SDK W) (m : Handle) (n : String) :
    Extends (GetNodeValue sdk m n) := by
  unfold GetNodeValue
  repeat' first
    | apply extends_bind | apply extends_pure | apply extends_sdkCall | apply extends_printf
    | apply extends_ite | intro _

theorem extends_SetNodeValue (sdk : SDK W) (m : Handle) (n v : String) :
    Extends (SetNodeValue sdk m n v) := by
  unfold SetNodeValue
  repeat' first
    | apply extends_bind | apply extends_pure | apply extends_sdkCall | apply extends_printf
    | apply extends_ite | intro _

theorem extends_acquireLoop (sdk : SDK W) (hDevice : Handle) (n i : Nat) :
    Extends (acquireLoop sdk hDevice n i) := by
  induction n generalizing i with
  | zero => exact extends_pure _
  | succ n ih =>
    unfold acquireLoop
    repeat' first
      | apply ih
      | apply extends_bind | apply extends_pure | apply extends_sdkCall | apply extends_printf
      | apply extends_ite | intro _

theorem extends_AcquireImages (sdk : SDK W) (hDevice : Handle) :
    Extends (AcquireImages sdk hDevice) := by
  unfold AcquireImages
  repeat' first
    | apply extends_GetNodeValue | apply extends_SetNodeValue | apply extends_acquireLoop
    | apply extends_bind | apply extends_pure | apply extends_sdkCall | apply extends_printf
    | apply extends_ite | intro _

/-- What an unchecked `SetNodeValue` leaves behind: the lookup and, when the
lookup allows it, the write. -/
theorem SetNodeValue_events {sdk : SDK W} {m : Handle} {n v : String} {w : W} {t : Trace}
    {g : AC_ERROR × W × Trace} (hg : g = SetNodeValue sdk m n v (w, t)) :
    ∃ (r : Resp) (mid : Trace) (w1 : W),
      (mid = [] ∨ ∃ q : Resp, mid = [Event.call (.node (.acValueFromString r.handle v)) q]) ∧
      g.2 = (w1, t ++ [Event.call (.node (.acNodeMapGetNodeAndAccessMode m n)) r] ++ mid) := by
  obtain ⟨r, ⟨_, rfl⟩ | ⟨_, _, rfl⟩ | ⟨_, _, q, rfl⟩⟩ := SetNodeValue_cases hg
  · exact ⟨r.1, [], r.2, Or.inl rfl, by simp⟩
  · exact ⟨r.1, [], r.2, Or.inl rfl, by simp⟩
  · exact ⟨r.1, _, q.2, Or.inr ⟨q.1, rfl⟩, by simp⟩

/-- When every call of the acquisition loop succeeds, the loop runs its `n`
iterations to the end. -/
theorem acquireLoop_spec (sdk : SDK W) (hDevice : Handle) (n i : Nat) (s : W × Trace)
    (hall : AllOk (acquireLoop sdk hDevice n i s).2.2) :
    (acquireLoop sdk hDevice n i s).1 = AC_ERR_SUCCESS ∧
    ∃ its : List Iteration, its.length = n ∧
      acquisitionEvents (acquireLoop sdk hDevice n i s).2.2 =
        acquisitionEvents s.2 ++ its.flatMap (Iteration.events hDevice) := by
  induction n generalizing i s with
  | zero => exact ⟨rfl, [], rfl, by simp [acquireLoop, run_pure]⟩
  | succ n ih =>
    simp only [acquireLoop, run_bind, run_pure, run_sdkCall, run_printf, run_ite] at hall ⊢
    generalize sdk s.1 (Call.device (DeviceCall.acDeviceGetBuffer hDevice IMAGE_TIMEOUT)) = b at hall ⊢
    generalize sdk b.2 (Call.image (ImageCall.acBufferGetSizeFilled b.1.handle)) = r1 at hall ⊢
    generalize sdk r1.2 (Call.image (ImageCall.acImageGetWidth b.1.handle)) = r2 at hall ⊢
    generalize sdk r2.2 (Call.image (ImageCall.acImageGetHeight b.1.handle)) = r3 at hall ⊢
    generalize sdk r3.2 (Call.image (ImageCall.acImageGetTimestampNs b.1.handle)) = r4 at hall ⊢
    generalize sdk r4.2 (Call.device (DeviceCall.acDeviceRequeueBuffer hDevice b.1.handle)) = r5 at hall ⊢
    split_ifs at hall ⊢ with h1 h2 h3 h4 h5 h6
    all_goals try (simp at hall; tauto)
    obtain ⟨hres, its, hlen, hev⟩ := ih _ _ hall
    refine ⟨hres, ⟨b.1, r1.1, r2.1, r3.1, r4.1, r5.1⟩ :: its, by simp [hlen], ?_⟩
    rw [hev]
    simp [acquisitionEvents_cons, Event.isAcquisition, Call.isAcquisition, Iteration.events]

set_option maxHeartbeats 1000000 in
/-- C1 (amended): in every run of `AcquireImages` in which every library call
returns `AC_ERR_SUCCESS`, the access mode reported for AcquisitionMode is `RW`
and the access mode reported for TransportStreamProtocol is `RO` or `RW` (so it
is not `NI` and the access checks of `GetNodeValue` and `SetNodeValue` pass), the
stream and buffer calls are exactly: `acDeviceStartStream` once, then
`NUM_IMAGES = 25` iterations, each one `acDeviceGetBuffer`, the size, width,
height and timestamp getters on the buffer obtained, and `acDeviceRequeueBuffer`
of that same buffer, then `acDeviceStopStream` once.  In particular no buffer is
obtained before the stream is started or after it is stopped. -/
theorem C1_acquisition_sequence (sdk : SDK W) (w : W) (hDevice : Handle)
    (hall : AllOk (AcquireImages sdk hDevice (w, [])).2.2)
    (hacq : ∀ a ∈ lookups "AcquisitionMode" (AcquireImages sdk hDevice (w, [])).2.2,
      a.mode = AC_ACCESS_MODE_RW)
    (htsp : ∀ a ∈ lookups "TransportStreamProtocol" (AcquireImages sdk hDevice (w, [])).2.2,
      a.mode = AC_ACCESS_MODE_RO ∨ a.mode = AC_ACCESS_MODE_RW) :
    IsAcquisitionSequence hDevice
      (acquisitionEvents (AcquireImages sdk hDevice (w, [])).2.2) := by
  generalize hout : AcquireImages sdk hDevice (w, []) = out at hall hacq htsp ⊢
  unfold AcquireImages at hout
  replace hout := call_elim hout
  obtain ⟨r1, -, hout⟩ := hout
  replace hout := check_elim hout
  rcases hout with ⟨h1, rfl⟩ | ⟨h1, hout⟩
  · simp [h1] at hall
  -- the initial value of AcquisitionMode is read
  replace hout := bind_elim hout
  obtain ⟨g1, hg1, hout⟩ := hout
  obtain ⟨r2, ⟨h2e, rfl⟩ | ⟨h2e, h2m, rfl⟩ | ⟨h2e, h2m, r3, rfl⟩⟩ := GetNodeValue_cases hg1
  · replace hout := check_elim hout
    rcases hout with ⟨h3, rfl⟩ | ⟨h3, hout⟩
    · simp [h3] at hall
    · exact absurd h3 h2e
  · replace hout := check_elim hout
    rcases hout with ⟨h3, rfl⟩ | ⟨h3, hout⟩
    · simp [lookups_cons_other, Event.lookupOf] at hacq
      simp [hacq] at h2m
    · simp at h3
  clear hg1
  try dsimp only at hout
  replace hout := check_elim hout
  rcases hout with ⟨h3, rfl⟩ | ⟨h3, hout⟩
  · simp [h3] at hall
  replace hout := printf_elim hout
  -- AcquisitionMode is set to Continuous
  replace hout := bind_elim hout
  obtain ⟨g2, hg2, hout⟩ := hout
  obtain ⟨r4, ⟨h4e, rfl⟩ | ⟨h4e, h4m, rfl⟩ | ⟨h4e, h4m, r5, rfl⟩⟩ := SetNodeValue_cases hg2
  · replace hout := check_elim hout
    rcases hout with ⟨h5, rfl⟩ | ⟨h5, hout⟩
    · simp [h5] at hall
    · exact absurd h5 h4e
  · replace hout := check_elim hout
    rcases hout with ⟨h5, rfl⟩ | ⟨h5, hout⟩
    · simp [lookups_cons_other, Event.lookupOf] at hacq
      simp [hacq] at h4m
    · simp at h5
  clear hg2
  try dsimp only at hout
  replace hout := check_elim hout
  rcases hout with ⟨h5, rfl⟩ | ⟨h5, hout⟩
  · simp [h5] at hall
  replace hout := printf_elim hout
  replace hout := call_elim hout
  obtain ⟨r6, -, hout⟩ := hout
  replace hout := check_elim hout
  rcases hout with ⟨h6, rfl⟩ | ⟨h6, hout⟩
  · simp [h6] at hall
  -- StreamBufferHandlingMode is set, unchecked
  replace hout := bind_elim hout
  obtain ⟨g5, hg5, hout⟩ := hout
  obtain ⟨r7, mid, w5, hmid, hg5⟩ := SetNodeValue_events hg5
  have hmidl : lookups "TransportStreamProtocol" mid = [] := by
    rcases hmid with rfl | ⟨q, rfl⟩ <;> simp [lookups_cons_other, Event.lookupOf]
  have hmida : acquisitionEvents mid = [] := by
    rcases hmid with rfl | ⟨q, rfl⟩ <;>
      simp [acquisitionEvents_cons, Event.isAcquisition, Call.isAcquisition]
  rw [hg5] at hout
  try dsimp only at hout
  -- the access mode of TransportStreamProtocol is asked for
  replace hout := call_elim hout
  obtain ⟨r8, -, hout⟩ := hout
  replace hout := check_elim hout
  rcases hout with ⟨h8, rfl⟩ | ⟨h8, hout⟩
  · simp [h8] at hall
  try dsimp only at hout
  rw [run_ite] at hout
  by_cases hm : r8.1.mode = AC_ACCESS_MODE_NI
  · rw [if_neg (not_not.mpr hm)] at hout
    obtain ⟨d, hd⟩ := extends_elim (by
      repeat' first
        | apply extends_GetNodeValue | apply extends_SetNodeValue | apply extends_acquireLoop
        | apply extends_bind | apply extends_pure | apply extends_sdkCall | apply extends_printf
        | apply extends_ite | intro _) hout
    rw [hd] at htsp
    simp [lookups_cons_other, Event.lookupOf, hmidl] at htsp
    simp [hm] at htsp
  rw [if_pos hm] at hout
  -- the initial value of TransportStreamProtocol is read
  replace hout := bind_elim hout
  obtain ⟨g9, hg9, hout⟩ := hout
  obtain ⟨r9, ⟨h9e, rfl⟩ | ⟨h9e, h9m, rfl⟩ | ⟨h9e, h9m, r10, rfl⟩⟩ := GetNodeValue_cases hg9
  · replace hout := check_elim hout
    rcases hout with ⟨h10, rfl⟩ | ⟨h10, hout⟩
    · simp [h10] at hall
    · exact absurd h10 h9e
  · replace hout := check_elim hout
    rcases hout with ⟨h10, rfl⟩ | ⟨h10, hout⟩
    · simp [lookups_cons_other, Event.lookupOf, hmidl] at htsp
      rcases htsp.2 with h | h <;> simp [h] at h9m
    · simp at h10
  clear hg9
  try dsimp only at hout
  replace hout := check_elim hout
  rcases hout with ⟨h10, rfl⟩ | ⟨h10, hout⟩
  · simp [h10] at hall
  replace hout := printf_elim hout
  replace hout := call_elim hout
  obtain ⟨r11, -, hout⟩ := hout
  replace hout := check_elim hout
  rcases hout with ⟨h11, rfl⟩ | ⟨h11, hout⟩
  · simp [h11] at hall
  -- the stream is started
  replace hout := printf_elim hout
  replace hout := call_elim hout
  obtain ⟨r12, -, hout⟩ := hout
  replace hout := check_elim hout
  rcases hout with ⟨h12, rfl⟩ | ⟨h12, hout⟩
  · simp [h12] at hall
  replace hout := printf_elim hout
  -- the images are acquired
  replace hout := bind_elim hout
  obtain ⟨L, hL, hout⟩ := hout
  replace hout := check_elim hout
  rcases hout with ⟨h13, rfl⟩ | ⟨h13, hout⟩
  · rw [hL] at hall h13
    exact absurd (acquireLoop_spec _ _ _ _ _ hall).1 h13
  -- the stream is stopped
  replace hout := printf_elim hout
  replace hout := call_elim hout
  obtain ⟨r14, -, hout⟩ := hout
  replace hout := check_elim hout
  rcases hout with ⟨h14, rfl⟩ | ⟨h14, hout⟩
  · simp [h14] at hall
  -- the two nodes are set back
  replace hout := bind_elim hout
  obtain ⟨g15, hg15, hout⟩ := hout
  obtain ⟨r15, mid15, w15, hmid15, hg15⟩ := SetNodeValue_events hg15
  have hmid15a : acquisitionEvents mid15 = [] := by
    rcases hmid15 with rfl | ⟨q, rfl⟩ <;>
      simp [acquisitionEvents_cons, Event.isAcquisition, Call.isAcquisition]
  rw [hg15] at hout
  try dsimp only at hout
  replace hout := pure_elim hout
  replace hout := bind_elim hout
  obtain ⟨g16, hg16, hout⟩ := hout
  obtain ⟨r16, mid16, w16, hmid16, hg16⟩ := SetNodeValue_events hg16
  have hmid16a : acquisitionEvents mid16 = [] := by
    rcases hmid16 with rfl | ⟨q, rfl⟩ <;>
      simp [acquisitionEvents_cons, Event.isAcquisition, Call.isAcquisition]
  subst hout
  simp only [run_pure, hg16] at hall ⊢
  simp only [allOk_append] at hall
  have hLok : AllOk L.2.2 := hall.1.1.1.1.1.1
  rw [hL] at hLok
  obtain ⟨-, its, hlen, hev⟩ := acquireLoop_spec _ _ _ _ _ hLok
  refine ⟨r12.1, its, r14.1, hlen, ?_⟩
  simp only [acquisitionEvents_append]
  rw [hL, hev]
  simp [hmida, hmid15a, hmid16a, acquisitionEvents_cons, Event.isAcquisition,
    Call.isAcquisition]

/-- C1, witness: the camera on which everything succeeds and every node is
readable and writable. -/
theorem C1_acquisition_sequence_witness :
    AllOk (AcquireImages (camera AC_ACCESS_MODE_RW) 5 ((), [])).2.2 ∧
    (∀ a ∈ lookups "AcquisitionMode" (AcquireImages (camera AC_ACCESS_MODE_RW) 5 ((), [])).2.2,
      a.mode = AC_ACCESS_MODE_RW) ∧
    (∀ a ∈ lookups "TransportStreamProtocol"
        (AcquireImages (camera AC_ACCESS_MODE_RW) 5 ((), [])).2.2,
      a.mode = AC_ACCESS_MODE_RO ∨ a.mode = AC_ACCESS_MODE_RW) ∧
    IsAcquisitionSequence 5
      (acquisitionEvents (AcquireImages (camera AC_ACCESS_MODE_RW) 5 ((), [])).2.2) :=
  ⟨by decide!, by decide!, by decide!,
   C1_acquisition_sequence (camera AC_ACCESS_MODE_RW) () 5 (by decide!) (by decide!)
     (by decide!)⟩

/-- C1, counterexample to the claim as stated: on a camera whose
TransportStreamProtocol node is implemented but not available (`NA`), every
library call returns `AC_ERR_SUCCESS` and the access mode of
TransportStreamProtocol is not `NI`, yet `GetNodeValue` refuses to read the node,
`AcquireImages` returns `AC_ERR_ERROR` and the stream is never started. -/
theorem C1_counterexample :
    AllOk (AcquireImages (camera AC_ACCESS_MODE_NA) 5 ((), [])).2.2 ∧
    (lookups "TransportStreamProtocol" (AcquireImages (camera AC_ACCESS_MODE_NA) 5 ((), [])).2.2
      = [answer AC_ACCESS_MODE_NA 3, answer AC_ACCESS_MODE_NA 3]) ∧
    (answer AC_ACCESS_MODE_NA 3).mode ≠ AC_ACCESS_MODE_NI ∧
    (AcquireImages (camera AC_ACCESS_MODE_NA) 5 ((), [])).1 = AC_ERR_ERROR ∧
    acquisitionEvents (AcquireImages (camera AC_ACCESS_MODE_NA) 5 ((), [])).2.2 = [] ∧
    ¬ IsAcquisitionSequence 5
      (acquisitionEvents (AcquireImages (camera AC_ACCESS_MODE_NA) 5 ((), [])).2.2) := by
  have h : acquisitionEvents (AcquireImages (camera AC_ACCESS_MODE_NA) 5 ((), [])).2.2 = [] := by
    decide!
  refine ⟨by decide!, by decide!, by decide!, by decide!, h, ?_⟩
  rw [h]
  rintro ⟨start, its, stop, -, hnil⟩
  cases hnil

/-- C4, the code at the failing input: on a camera that rejects the write of
StreamBufferHandlingMode and the write that restores TransportStreamProtocol,
both with `AC_ERR_ERROR`, `AcquireImages` still returns `AC_ERR_SUCCESS`: the
results of these two `SetNodeValue` calls are overwritten without being
checked. -/
theorem C4_unchecked_set_node_value :
    Event.call (.node (.acValueFromString 2 "NewestOnly")) failure
      ∈ (AcquireImages cameraRejectingWrites 5 ((), [])).2.2 ∧
    Event.call (.node (.acValueFromString 3 "SingleFrame")) failure
      ∈ (AcquireImages cameraRejectingWrites 5 ((), [])).2.2 ∧
    (AcquireImages cameraRejectingWrites 5 ((), [])).1 = AC_ERR_SUCCESS := by
  decide!

end C_Acquisition_RDMA

/-! ## Runs in which every call succeeds -/

section
variable {W : Type}

/-- A check `if (err != AC_ERR_SUCCESS) ...` in a run in which every call
succeeds: the run goes on after the check. -/
theorem check_ok_elim {α : Type} {e : AC_ERROR} {p : Prog W α} {k : Unit → Prog W α}
    {w : W} {t : Trace} {out : α × W × Trace} (hp : Extends p) (hall : AllOk out.2.2)
    (h : (if e ≠ AC_ERR_SUCCESS then p else pure PUnit.unit >>= k) (w, t) = out)
    (hfail : e ≠ AC_ERR_SUCCESS → ¬ AllOk t) :
    e = AC_ERR_SUCCESS ∧ k () (w, t) = out := by
  by_cases he : e = AC_ERR_SUCCESS
  · refine ⟨he, ?_⟩
    rw [← h, run_ite, if_neg (not_not.mpr he)]
    rfl
  · exfalso
    rw [run_ite, if_pos he] at h
    obtain ⟨d, hd⟩ := extends_elim hp h
    rw [hd] at hall
    exact hfail he ((allOk_append _ _).1 hall).1

theorem extends_CHECK_RETURN (sdk : SDK W) : Extends (CHECK_RETURN sdk) := by
  unfold CHECK_RETURN
  repeat' first
    | apply extends_bind | apply extends_pure | apply extends_sdkCall | apply extends_printf
    | apply extends_getchar | intro _
end

section
variable {W : Type}

/-- A two-way branch. -/
theorem ite_elim {α : Type} {c : Prop} [Decidable c] {p q : Prog W α} {s : W × Trace}
    {out : α × W × Trace} (h : (if c then p else q) s = out) :
    (c ∧ p s = out) ∨ (¬ c ∧ q s = out) := by
  by_cases hc : c
  · left; exact ⟨hc, by rw [← h, run_ite, if_pos hc]⟩
  · right; exact ⟨hc, by rw [← h, run_ite, if_neg hc]⟩

@[simp] theorem calls_nil : calls [] = [] := rfl

@[simp] theorem calls_cons_call (c : Call) (r : Resp) (t : Trace) :
    calls (Event.call c r :: t) = c :: calls t := rfl

@[simp] theorem calls_cons_printf (fmt : String) (args : List Arg) (t : Trace) :
    calls (Event.printf fmt args :: t) = calls t := rfl

@[simp] theorem calls_cons_getchar (t : Trace) : calls (Event.getchar :: t) = calls t := rfl

@[simp] theorem calls_append (t u : Trace) : calls (t ++ u) = calls t ++ calls u := by
  induction t with
  | nil => rfl
  | cons e t ih => cases e <;> simp [calls, ih]

@[simp] theorem answers_nil : answers [] = [] := rfl

@[simp] theorem answers_cons_call (c : Call) (r : Resp) (t : Trace) :
    answers (Event.call c r :: t) = r :: answers t := rfl

@[simp] theorem answers_cons_printf (fmt : String) (args : List Arg) (t : Trace) :
    answers (Event.printf fmt args :: t) = answers t := rfl

@[simp] theorem answers_cons_getchar (t : Trace) : answers (Event.getchar :: t) = answers t := rfl

@[simp] theorem answers_append (t u : Trace) : answers (t ++ u) = answers t ++ answers u := by
  induction t with
  | nil => rfl
  | cons e t ih => cases e <;> simp [answers, ih]

@[simp] theorem deviceCounts_nil : deviceCounts [] = [] := rfl

@[simp] theorem deviceCounts_append (t u : Trace) :
    deviceCounts (t ++ u) = deviceCounts t ++ deviceCounts u := by
  simp [deviceCounts, List.filterMap_append]

theorem deviceCounts_cons (e : Event) (t : Trace) :
    deviceCounts (e :: t) = (Event.deviceCount e).toList ++ deviceCounts t := by
  cases h : Event.deviceCount e <;> simp [deviceCounts, List.filterMap_cons, h]

end

/-! ## `C_Save_Jpeg.c` -/

namespace C_Save_Jpeg

variable {W : Type}

/-- When every call of `SaveImage` succeeds, it runs to its end. -/
theorem SaveImage_ok (sdk : SDK W) (hBuffer : Handle) (filename : String) (w : W) (t : Trace)
    (hall : AllOk (SaveImage sdk hBuffer filename (w, t)).2.2) :
    ∃ (x : SaveImageRun) (w1 : W),
      SaveImage sdk hBuffer filename (w, t)
        = (AC_ERR_SUCCESS, (w1, t ++ x.events hBuffer filename)) := by
  generalize hout : SaveImage sdk hBuffer filename (w, t) = out at hall ⊢
  unfold SaveImage at hout
  replace hout := printf_elim hout
  replace hout := call_elim hout
  obtain ⟨c, -, hout⟩ := hout
  obtain ⟨h1, hout⟩ := check_ok_elim (extends_pure _) hall hout (fun h => by simp [h])
  replace hout := printf_elim hout
  replace hout := call_elim hout
  obtain ⟨wd, -, hout⟩ := hout
  obtain ⟨h2, hout⟩ := check_ok_elim (extends_pure _) hall hout (fun h => by simp [h])
  replace hout := call_elim hout
  obtain ⟨ht, -, hout⟩ := hout
  obtain ⟨h3, hout⟩ := check_ok_elim (extends_pure _) hall hout (fun h => by simp [h])
  replace hout := call_elim hout
  obtain ⟨bp, -, hout⟩ := hout
  obtain ⟨h4, hout⟩ := check_ok_elim (extends_pure _) hall hout (fun h => by simp [h])
  replace hout := printf_elim hout
  replace hout := call_elim hout
  obtain ⟨wr, -, hout⟩ := hout
  obtain ⟨h5, hout⟩ := check_ok_elim (extends_pure _) hall hout (fun h => by simp [h])
  replace hout := call_elim hout
  obtain ⟨fn, -, hout⟩ := hout
  obtain ⟨h6, hout⟩ := check_ok_elim (extends_pure _) hall hout (fun h => by simp [h])
  replace hout := printf_elim hout
  replace hout := call_elim hout
  obtain ⟨jp, -, hout⟩ := hout
  obtain ⟨h7, hout⟩ := check_ok_elim (extends_pure _) hall hout (fun h => by simp [h])
  replace hout := printf_elim hout
  replace hout := call_elim hout
  obtain ⟨dt, -, hout⟩ := hout
  obtain ⟨h8, hout⟩ := check_ok_elim (extends_pure _) hall hout (fun h => by simp [h])
  replace hout := call_elim hout
  obtain ⟨sv, -, hout⟩ := hout
  obtain ⟨h9, hout⟩ := check_ok_elim (extends_pure _) hall hout (fun h => by simp [h])
  replace hout := call_elim hout
  obtain ⟨dw, -, hout⟩ := hout
  obtain ⟨h10, hout⟩ := check_ok_elim (extends_pure _) hall hout (fun h => by simp [h])
  replace hout := call_elim hout
  obtain ⟨di, -, hout⟩ := hout
  obtain ⟨h11, hout⟩ := check_ok_elim (extends_pure _) hall hout (fun h => by simp [h])
  subst hout
  exact ⟨⟨c.1, wd.1, ht.1, bp.1, wr.1, fn.1, jp.1, dt.1, sv.1, dw.1, di.1⟩, di.2,
    by simp [run_pure, SaveImageRun.events]⟩

/-- When `SaveImage` returns an error code, one of its calls failed. -/
theorem SaveImage_fail {sdk : SDK W} {hBuffer : Handle} {filename : String} {w : W} {t : Trace}
    {x : AC_ERROR × W × Trace} (hx : x = SaveImage sdk hBuffer filename (w, t))
    (h : x.1 ≠ AC_ERR_SUCCESS) : ¬ AllOk x.2.2 := by
  intro hok
  rw [hx] at hok h
  obtain ⟨y, w1, hy⟩ := SaveImage_ok _ _ _ _ _ hok
  rw [hy] at h
  exact h rfl

set_option maxHeartbeats 1000000 in
/-- C7: on every run of `main` of C_Save_Jpeg in which every call succeeds and at
least one device is found, the calls are, in this order and each once: open
system, update devices, number of devices, create device, stream node map and
the two stream nodes, start stream, get buffer, pixel format, the calls of
`SaveImage`, requeue buffer, stop stream, destroy device, close system; and
`main` returns 0.  So the buffer is requeued before the stream is stopped, the
stream is stopped before the device is destroyed, and the device is destroyed
before the system is closed. -/
theorem C7_main_call_order (valueOf : AC_ERROR → Int) (sdk : SDK W) (w : W)
    (hall : AllOk (main valueOf sdk (w, [])).2.2)
    (hdev : ∀ n ∈ deviceCounts (main valueOf sdk (w, [])).2.2, n ≠ 0) :
    (∃ (hSystem hDevice hMap hBuffer : Handle) (x : SaveImageRun),
      calls (main valueOf sdk (w, [])).2.2 = mainCalls hSystem hDevice hMap hBuffer x) ∧
    (main valueOf sdk (w, [])).1 = 0 := by
  generalize hout : main valueOf sdk (w, []) = out at hall hdev ⊢
  unfold main at hout
  replace hout := printf_elim hout
  replace hout := call_elim hout
  obtain ⟨r1, -, hout⟩ := hout
  replace hout := check_ok_elim (extends_bind (extends_CHECK_RETURN sdk) (fun _ => extends_pure _)) hall hout
    (fun h => by simp [h])
  obtain ⟨h1, hout⟩ := hout
  replace hout := call_elim hout
  obtain ⟨r2, -, hout⟩ := hout
  replace hout := check_ok_elim (extends_bind (extends_CHECK_RETURN sdk) (fun _ => extends_pure _)) hall hout
    (fun h => by simp [h])
  obtain ⟨h2, hout⟩ := hout
  replace hout := call_elim hout
  obtain ⟨r3, -, hout⟩ := hout
  replace hout := check_ok_elim (extends_bind (extends_CHECK_RETURN sdk) (fun _ => extends_pure _)) hall hout
    (fun h => by simp [h])
  obtain ⟨h3, hout⟩ := hout
  -- at least one device is found
  replace hout := ite_elim hout
  rcases hout with ⟨h0, hout⟩ | ⟨h0, hout⟩
  · obtain ⟨d, hd⟩ := extends_elim (by
      repeat' first
        | apply extends_bind | apply extends_pure | apply extends_printf
        | apply extends_getchar | intro _) hout
    rw [hd] at hdev
    simp [deviceCounts_cons, Event.deviceCount, h0] at hdev
  replace hout := pure_elim hout
  replace hout := call_elim hout
  obtain ⟨r4, -, hout⟩ := hout
  replace hout := check_ok_elim (extends_bind (extends_CHECK_RETURN sdk) (fun _ => extends_pure _)) hall hout
    (fun h => by simp [h])
  obtain ⟨h4, hout⟩ := hout
  replace hout := call_elim hout
  obtain ⟨r5, -, hout⟩ := hout
  replace hout := check_ok_elim (extends_pure _) hall hout
    (fun h => by simp [h])
  obtain ⟨h5, hout⟩ := hout
  replace hout := call_elim hout
  obtain ⟨r6, -, hout⟩ := hout
  replace hout := check_ok_elim (extends_pure _) hall hout
    (fun h => by simp [h])
  obtain ⟨h6, hout⟩ := hout
  replace hout := call_elim hout
  obtain ⟨r7, -, hout⟩ := hout
  replace hout := check_ok_elim (extends_pure _) hall hout
    (fun h => by simp [h])
  obtain ⟨h7, hout⟩ := hout
  replace hout := call_elim hout
  obtain ⟨r8, -, hout⟩ := hout
  replace hout := check_ok_elim (extends_bind (extends_CHECK_RETURN sdk) (fun _ => extends_pure _)) hall hout
    (fun h => by simp [h])
  obtain ⟨h8, hout⟩ := hout
  replace hout := call_elim hout
  obtain ⟨r9, -, hout⟩ := hout
  replace hout := check_ok_elim (extends_bind (extends_CHECK_RETURN sdk) (fun _ => extends_pure _)) hall hout
    (fun h => by simp [h])
  obtain ⟨h9, hout⟩ := hout
  replace hout := call_elim hout
  obtain ⟨r10, -, hout⟩ := hout
  replace hout := check_ok_elim (extends_bind (extends_CHECK_RETURN sdk) (fun _ => extends_pure _)) hall hout
    (fun h => by simp [h])
  obtain ⟨h10, hout⟩ := hout
  -- the image is saved
  replace hout := printf_elim hout
  replace hout := bind_elim hout
  obtain ⟨x, hx, hout⟩ := hout
  replace hout := check_ok_elim
    (extends_bind (extends_CHECK_RETURN sdk) (fun _ => extends_pure _)) hall hout
    (SaveImage_fail hx)
  obtain ⟨h11, hout⟩ := hout
  replace hout := printf_elim hout
  replace hout := call_elim hout
  obtain ⟨r12, -, hout⟩ := hout
  replace hout := check_ok_elim (extends_bind (extends_CHECK_RETURN sdk) (fun _ => extends_pure _)) hall hout
    (fun h => by simp [h])
  obtain ⟨h12, hout⟩ := hout
  replace hout := call_elim hout
  obtain ⟨r13, -, hout⟩ := hout
  replace hout := check_ok_elim (extends_bind (extends_CHECK_RETURN sdk) (fun _ => extends_pure _)) hall hout
    (fun h => by simp [h])
  obtain ⟨h13, hout⟩ := hout
  replace hout := call_elim hout
  obtain ⟨r14, -, hout⟩ := hout
  replace hout := check_ok_elim (extends_bind (extends_CHECK_RETURN sdk) (fun _ => extends_pure _)) hall hout
    (fun h => by simp [h])
  obtain ⟨h14, hout⟩ := hout
  replace hout := call_elim hout
  obtain ⟨r15, -, hout⟩ := hout
  replace hout := check_ok_elim (extends_bind (extends_CHECK_RETURN sdk) (fun _ => extends_pure _)) hall hout
    (fun h => by simp [h])
  obtain ⟨h15, hout⟩ := hout
  replace hout := printf_elim hout
  replace hout := getchar_elim hout
  subst hout
  simp only [run_pure, allOk_append] at hall
  have hxok : AllOk x.2.2 := hall.1.1.1.1.1.1.1
  rw [hx] at hxok
  obtain ⟨y, w1, hy⟩ := SaveImage_ok _ _ _ _ _ hxok
  rw [hy] at hx
  subst hx
  exact ⟨⟨r1.1.handle, r4.1.handle, r5.1.handle, r9.1.handle, y, by simp [run_pure, mainCalls]⟩,
    rfl⟩

/-- C7, witness: the camera on which every call succeeds. -/
theorem C7_main_call_order_witness :
    AllOk (main (fun _ => -1001) camera ((), [])).2.2 ∧
    (∀ n ∈ deviceCounts (main (fun _ => -1001) camera ((), [])).2.2, n ≠ 0) ∧
    ((∃ (hSystem hDevice hMap hBuffer : Handle) (x : SaveImageRun),
      calls (main (fun _ => -1001) camera ((), [])).2.2
        = mainCalls hSystem hDevice hMap hBuffer x) ∧
    (main (fun _ => -1001) camera ((), [])).1 = 0) :=
  ⟨by decide!, by decide!,
   C7_main_call_order (fun _ => -1001) camera () (by decide!) (by decide!)⟩

/-- A run of `SaveImage` in which a call fails ends with that call. -/
theorem SaveImage_failing (sdk : SDK W) (hBuffer : Handle) (filename : String) (w : W)
    (hnot : ¬ AllOk (SaveImage sdk hBuffer filename (w, [])).2.2) :
    ∃ (pre : Trace) (c : Call) (r : Resp) (w1 : W),
      SaveImage sdk hBuffer filename (w, []) = (r.err, w1, pre ++ [Event.call c r]) ∧
      AllOk pre ∧ r.err ≠ AC_ERR_SUCCESS ∧
      (calls pre).filter destroysImage = [] ∧
      ((calls pre).filter destroysWriter ≠ [] → destroysImage c = true) := by
  generalize hout : SaveImage sdk hBuffer filename (w, []) = out at hnot ⊢
  unfold SaveImage at hout
  replace hout := printf_elim hout
  replace hout := call_elim hout
  obtain ⟨c, -, hout⟩ := hout
  replace hout := check_elim hout
  rcases hout with ⟨hf, rfl⟩ | ⟨h1, hout⟩
  · clear hnot
    exact ⟨_, _, _, _, rfl, by simp [*], hf, by simp [destroysImage],
      by simp [destroysWriter, destroysImage]⟩
  replace hout := printf_elim hout
  replace hout := call_elim hout
  obtain ⟨wd, -, hout⟩ := hout
  replace hout := check_elim hout
  rcases hout with ⟨hf, rfl⟩ | ⟨h2, hout⟩
  · clear hnot
    exact ⟨_, _, _, _, rfl, by simp [*], hf, by simp [destroysImage],
      by simp [destroysWriter, destroysImage]⟩
  replace hout := call_elim hout
  obtain ⟨ht, -, hout⟩ := hout
  replace hout := check_elim hout
  rcases hout with ⟨hf, rfl⟩ | ⟨h3, hout⟩
  · clear hnot
    exact ⟨_, _, _, _, rfl, by simp [*], hf, by simp [destroysImage],
      by simp [destroysWriter, destroysImage]⟩
  replace hout := call_elim hout
  obtain ⟨bp, -, hout⟩ := hout
  replace hout := check_elim hout
  rcases hout with ⟨hf, rfl⟩ | ⟨h4, hout⟩
  · clear hnot
    exact ⟨_, _, _, _, rfl, by simp [*], hf, by simp [destroysImage],
      by simp [destroysWriter, destroysImage]⟩
  replace hout := printf_elim hout
  replace hout := call_elim hout
  obtain ⟨wr, -, hout⟩ := hout
  replace hout := check_elim hout
  rcases hout with ⟨hf, rfl⟩ | ⟨h5, hout⟩
  · clear hnot
    exact ⟨_, _, _, _, rfl, by simp [*], hf, by simp [destroysImage],
      by simp [destroysWriter, destroysImage]⟩
  replace hout := call_elim hout
  obtain ⟨fn, -, hout⟩ := hout
  replace hout := check_elim hout
  rcases hout with ⟨hf, rfl⟩ | ⟨h6, hout⟩
  · clear hnot
    exact ⟨_, _, _, _, rfl, by simp [*], hf, by simp [destroysImage],
      by simp [destroysWriter, destroysImage]⟩
  replace hout := printf_elim hout
  replace hout := call_elim hout
  obtain ⟨jp, -, hout⟩ := hout
  replace hout := check_elim hout
  rcases hout with ⟨hf, rfl⟩ | ⟨h7, hout⟩
  · clear hnot
    exact ⟨_, _, _, _, rfl, by simp [*], hf, by simp [destroysImage],
      by simp [destroysWriter, destroysImage]⟩
  replace hout := printf_elim hout
  replace hout := call_elim hout
  obtain ⟨dt, -, hout⟩ := hout
  replace hout := check_elim hout
  rcases hout with ⟨hf, rfl⟩ | ⟨h8, hout⟩
  · clear hnot
    exact ⟨_, _, _, _, rfl, by simp [*], hf, by simp [destroysImage],
      by simp [destroysWriter, destroysImage]⟩
  replace hout := call_elim hout
  obtain ⟨sv, -, hout⟩ := hout
  replace hout := check_elim hout
  rcases hout with ⟨hf, rfl⟩ | ⟨h9, hout⟩
  · clear hnot
    exact ⟨_, _, _, _, rfl, by simp [*], hf, by simp [destroysImage],
      by simp [destroysWriter, destroysImage]⟩
  replace hout := call_elim hout
  obtain ⟨dw, -, hout⟩ := hout
  replace hout := check_elim hout
  rcases hout with ⟨hf, rfl⟩ | ⟨h10, hout⟩
  · clear hnot
    exact ⟨_, _, _, _, rfl, by simp [*], hf, by simp [destroysImage],
      by simp [destroysWriter, destroysImage]⟩
  replace hout := call_elim hout
  obtain ⟨di, -, hout⟩ := hout
  replace hout := check_elim hout
  rcases hout with ⟨hf, rfl⟩ | ⟨h11, hout⟩
  · clear hnot
    exact ⟨_, _, _, _, rfl, by simp [*], hf, by simp [destroysImage],
      by simp [destroysWriter, destroysImage]⟩
  subst hout
  exact absurd (by simp [run_pure, *]) hnot

/-- C8 (amended): `SaveImage` destroys the converted image in the runs in which
every call succeeds, and returns at the first failing call in every other run.
In every run in which every call succeeds the trace is the one of
`SaveImageRun.events`: `saveWriterDestroy` is called once, on the writer that
`saveWriterCreate` returned, then `acImageFactoryDestroy` is called once, on the
image that `acImageFactoryConvert` returned, these are the last two calls, and
`SaveImage` returns `SC_ERR_SUCCESS`.  In every other run, whatever the library
answers, the run ends with the first call that fails: every earlier call
succeeded, nothing follows the failing call, its code is returned,
`acImageFactoryDestroy` was not called before it, and `saveWriterDestroy` was
called before it only when the failing call is `acImageFactoryDestroy` itself. -/
theorem C8_destroys_on_success (sdk : SDK W) (hBuffer : Handle) (filename : String) (w : W) :
    (AllOk (SaveImage sdk hBuffer filename (w, [])).2.2 →
      ∃ x : SaveImageRun,
        (SaveImage sdk hBuffer filename (w, [])).2.2 = x.events hBuffer filename ∧
        (SaveImage sdk hBuffer filename (w, [])).1 = SC_ERR_SUCCESS) ∧
    (¬ AllOk (SaveImage sdk hBuffer filename (w, [])).2.2 →
      ∃ (pre : Trace) (c : Call) (r : Resp),
        (SaveImage sdk hBuffer filename (w, [])).2.2 = pre ++ [Event.call c r] ∧
        AllOk pre ∧ r.err ≠ AC_ERR_SUCCESS ∧
        (SaveImage sdk hBuffer filename (w, [])).1 = r.err ∧
        (calls pre).filter destroysImage = [] ∧
        ((calls pre).filter destroysWriter ≠ [] → destroysImage c = true)) := by
  constructor
  · intro hall
    obtain ⟨x, w1, hx⟩ := SaveImage_ok sdk hBuffer filename w [] hall
    exact ⟨x, by rw [hx]; rfl, by rw [hx]⟩
  · intro hnot
    obtain ⟨pre, c, r, w1, hx, hpre, hr, hi, hw⟩ := SaveImage_failing sdk hBuffer filename w hnot
    exact ⟨pre, c, r, by rw [hx], hpre, hr, by rw [hx], hi, hw⟩

/-- C8, witness: the camera on which every call succeeds, and the camera on which
`acImageGetWidth` fails. -/
theorem C8_destroys_on_success_witness :
    (AllOk (SaveImage camera 9 FILE_NAME ((), [])).2.2 ∧
      ∃ x : SaveImageRun,
        (SaveImage camera 9 FILE_NAME ((), [])).2.2 = x.events 9 FILE_NAME ∧
        (SaveImage camera 9 FILE_NAME ((), [])).1 = SC_ERR_SUCCESS) ∧
    (¬ AllOk (SaveImage cameraWithoutWidth 9 FILE_NAME ((), [])).2.2 ∧
      ∃ (pre : Trace) (c : Call) (r : Resp),
        (SaveImage cameraWithoutWidth 9 FILE_NAME ((), [])).2.2 = pre ++ [Event.call c r] ∧
        AllOk pre ∧ r.err ≠ AC_ERR_SUCCESS ∧
        (SaveImage cameraWithoutWidth 9 FILE_NAME ((), [])).1 = r.err ∧
        (calls pre).filter destroysImage = [] ∧
        ((calls pre).filter destroysWriter ≠ [] → destroysImage c = true)) :=
  ⟨⟨by decide!, (C8_destroys_on_success camera 9 FILE_NAME ()).1 (by decide!)⟩,
   ⟨by decide!, (C8_destroys_on_success cameraWithoutWidth 9 FILE_NAME ()).2 (by decide!)⟩⟩

/-- C8, counterexample to the claim as stated: `acImageFactoryConvert` succeeds
and `acImageGetWidth` fails; `SaveImage` returns the error code at once and the
converted image is never destroyed. -/
theorem C8_counterexample :
    Event.call (.image (.acImageFactoryConvert 9 PIXEL_FORMAT)) (answer AC_ACCESS_MODE_RW 7)
      ∈ (SaveImage cameraWithoutWidth 9 FILE_NAME ((), [])).2.2 ∧
    (answer AC_ACCESS_MODE_RW 7).err = AC_ERR_SUCCESS ∧
    calls (SaveImage cameraWithoutWidth 9 FILE_NAME ((), [])).2.2
      = [.image (.acImageFactoryConvert 9 PIXEL_FORMAT), .image (.acImageGetWidth 7)] ∧
    (SaveImage cameraWithoutWidth 9 FILE_NAME ((), [])).1 = AC_ERR_ERROR := by
  decide!

end C_Save_Jpeg

/-! ## `C_Enumeration_CcpSwitchover.c` -/

namespace C_Enumeration_CcpSwitchover

variable {W : Type}

@[simp] theorem resourceEvents_nil : resourceEvents [] = [] := rfl

@[simp] theorem resourceEvents_append (t u : Trace) :
    resourceEvents (t ++ u) = resourceEvents t ++ resourceEvents u := by
  simp [resourceEvents]

theorem resourceEvents_cons (e : Event) (t : Trace) :
    resourceEvents (e :: t)
      = if isResource e = true then e :: resourceEvents t else resourceEvents t := by
  simp [resourceEvents, List.filter_cons]

/-- What `hasControl` leaves behind: one read of DeviceAccessStatus. -/
theorem hasControl_state {sdk : SDK W} {m : Handle} {w : W} {t : Trace} {x : Bool × W × Trace}
    (hx : x = hasControl sdk m (w, t)) :
    ∃ r : Resp × W, x.2 = (r.2, t ++
      [Event.call (.node (.acNodeMapGetStringValue m "DeviceAccessStatus")) r.1]) := by
  subst hx
  refine ⟨sdk w (.node (.acNodeMapGetStringValue m "DeviceAccessStatus")), ?_⟩
  simp only [hasControl, run_bind, run_sdkCall, run_ite, run_pure]
  split <;> rfl

set_option maxHeartbeats 1000000 in
/-- When every call of the device loop succeeds, it creates and destroys the `n`
devices left in turn. -/
theorem deviceLoop_ok (sdk : SDK W) (hSystem : Handle) (n i : Nat) (w : W) (t : Trace)
    (hall : AllOk (deviceLoop sdk hSystem n i (w, t)).2.2) :
    (deviceLoop sdk hSystem n i (w, t)).1 = AC_ERR_SUCCESS ∧
    ∃ ds : List (Resp × Resp), ds.length = n ∧
      resourceEvents (deviceLoop sdk hSystem n i (w, t)).2.2
        = resourceEvents t ++ deviceEvents hSystem i ds := by
  induction n generalizing i w t with
  | zero => exact ⟨rfl, [], rfl, by simp [deviceLoop, run_pure, deviceEvents]⟩
  | succ n ih =>
    generalize hout : deviceLoop sdk hSystem (n + 1) i (w, t) = out at hall ⊢
    unfold deviceLoop at hout
    replace hout := printf_elim hout
    replace hout := call_elim hout
    obtain ⟨r1, -, hout⟩ := hout
    replace hout := check_ok_elim (extends_pure _) hall hout (fun h => by simp [h])
    obtain ⟨h1, hout⟩ := hout
    replace hout := printf_elim hout
    replace hout := call_elim hout
    obtain ⟨r2, -, hout⟩ := hout
    replace hout := check_ok_elim (extends_pure _) hall hout (fun h => by simp [h])
    obtain ⟨h2, hout⟩ := hout
    replace hout := printf_elim hout
    replace hout := call_elim hout
    obtain ⟨r3, -, hout⟩ := hout
    replace hout := check_ok_elim (extends_pure _) hall hout (fun h => by simp [h])
    obtain ⟨h3, hout⟩ := hout
    replace hout := printf_elim hout
    replace hout := call_elim hout
    obtain ⟨r4, -, hout⟩ := hout
    replace hout := check_ok_elim (extends_pure _) hall hout (fun h => by simp [h])
    obtain ⟨h4, hout⟩ := hout
    replace hout := printf_elim hout
    replace hout := call_elim hout
    obtain ⟨r5, -, hout⟩ := hout
    replace hout := check_ok_elim (extends_pure _) hall hout (fun h => by simp [h])
    obtain ⟨h5, hout⟩ := hout
    replace hout := printf_elim hout
    -- the device is created; the check after it tests the code of the call before
    replace hout := printf_elim hout
    replace hout := call_elim hout
    obtain ⟨d, -, hout⟩ := hout
    replace hout := check_ok_elim (extends_pure _) hall hout (fun h => absurd h5 h)
    obtain ⟨-, hout⟩ := hout
    replace hout := call_elim hout
    obtain ⟨r6, -, hout⟩ := hout
    replace hout := check_ok_elim (extends_pure _) hall hout (fun h => by simp [h])
    obtain ⟨h6, hout⟩ := hout
    replace hout := bind_elim hout
    obtain ⟨c1, hc1, hout⟩ := hout
    obtain ⟨g1, hg1⟩ := hasControl_state hc1
    rw [hg1] at hout
    replace hout := ite_elim hout
    rcases hout with ⟨hc, hout⟩ | ⟨hc, hout⟩
    · -- control is had: the key is set and the user is waited for
      replace hout := call_elim hout
      obtain ⟨ra, -, hout⟩ := hout
      replace hout := check_ok_elim
        (extends_bind (extends_printf _ _) (fun _ => extends_pure _)) hall hout
        (fun h => by simp [h])
      obtain ⟨ha, hout⟩ := hout
      replace hout := printf_elim hout
      replace hout := getchar_elim hout
      replace hout := printf_elim hout
      replace hout := call_elim hout
      obtain ⟨x, -, hout⟩ := hout
      replace hout := check_ok_elim (extends_pure _) hall hout (fun h => by simp [h])
      obtain ⟨-, hout⟩ := hout
      subst hout
      obtain ⟨hres, ds, hlen, hev⟩ := ih _ _ _ hall
      refine ⟨hres, (d.1, x.1) :: ds, by simp [hlen], ?_⟩
      rw [hev]
      simp [resourceEvents_cons, isResource, deviceEvents]
    · -- control is not had: the key is set and the access status is asked for
      replace hout := call_elim hout
      obtain ⟨ra, -, hout⟩ := hout
      replace hout := check_ok_elim
        (extends_bind (extends_printf _ _) (fun _ => extends_pure _)) hall hout
        (fun h => by simp [h])
      obtain ⟨ha, hout⟩ := hout
      replace hout := call_elim hout
      obtain ⟨rb, -, hout⟩ := hout
      replace hout := check_ok_elim (extends_pure _) hall hout (fun h => by simp [h])
      obtain ⟨hb, hout⟩ := hout
      replace hout := bind_elim hout
      obtain ⟨c2, hc2, hout⟩ := hout
      obtain ⟨g2, hg2⟩ := hasControl_state hc2
      rw [hg2] at hout
      replace hout := ite_elim hout
      rcases hout with ⟨hc3, hout⟩ | ⟨hc3, hout⟩
      · replace hout := printf_elim hout
        replace hout := printf_elim hout
        replace hout := call_elim hout
        obtain ⟨x, -, hout⟩ := hout
        replace hout := check_ok_elim (extends_pure _) hall hout (fun h => by simp [h])
        obtain ⟨-, hout⟩ := hout
        subst hout
        obtain ⟨hres, ds, hlen, hev⟩ := ih _ _ _ hall
        refine ⟨hres, (d.1, x.1) :: ds, by simp [hlen], ?_⟩
        rw [hev]
        simp [resourceEvents_cons, isResource, deviceEvents]
      · replace hout := printf_elim hout
        replace hout := printf_elim hout
        replace hout := call_elim hout
        obtain ⟨x, -, hout⟩ := hout
        replace hout := check_ok_elim (extends_pure _) hall hout (fun h => by simp [h])
        obtain ⟨-, hout⟩ := hout
        subst hout
        obtain ⟨hres, ds, hlen, hev⟩ := ih _ _ _ hall
        refine ⟨hres, (d.1, x.1) :: ds, by simp [hlen], ?_⟩
        rw [hev]
        simp [resourceEvents_cons, isResource, deviceEvents]

/-- When the device loop returns an error code, one of its calls failed. -/
theorem deviceLoop_fail {sdk : SDK W} {hSystem : Handle} {n i : Nat} {w : W} {t : Trace}
    {x : AC_ERROR × W × Trace} (hx : x = deviceLoop sdk hSystem n i (w, t))
    (h : x.1 ≠ AC_ERR_SUCCESS) : ¬ AllOk x.2.2 := by
  intro hok
  rw [hx] at hok h
  exact h (deviceLoop_ok _ _ _ _ _ _ hok).1

/-- On every path of `EnumerateDevices` on which every call succeeds and at
least one device is found, the system is opened, every device is created and
then destroyed before the next one is created, and `acCloseSystem` is called on
the system opened, after the last device was destroyed. -/
theorem EnumerateDevices_released (sdk : SDK W) (w : W)
    (hall : AllOk (EnumerateDevices sdk (w, [])).2.2)
    (hdev : ∀ n ∈ deviceCounts (EnumerateDevices sdk (w, [])).2.2, n ≠ 0) :
    IsReleasedRun (EnumerateDevices sdk (w, [])).2.2 := by
  generalize hout : EnumerateDevices sdk (w, []) = out at hall hdev ⊢
  unfold EnumerateDevices at hout
  replace hout := printf_elim hout
  replace hout := call_elim hout
  obtain ⟨r1, -, hout⟩ := hout
  replace hout := check_ok_elim (extends_pure _) hall hout (fun h => by simp [h])
  obtain ⟨h1, hout⟩ := hout
  replace hout := printf_elim hout
  replace hout := call_elim hout
  obtain ⟨r2, -, hout⟩ := hout
  replace hout := check_ok_elim (extends_pure _) hall hout (fun h => by simp [h])
  obtain ⟨h2, hout⟩ := hout
  replace hout := call_elim hout
  obtain ⟨r3, -, hout⟩ := hout
  replace hout := check_ok_elim (extends_pure _) hall hout (fun h => by simp [h])
  obtain ⟨h3, hout⟩ := hout
  replace hout := printf_elim hout
  -- at least one device is found
  replace hout := ite_elim hout
  rcases hout with ⟨h0, hout⟩ | ⟨h0, hout⟩
  · obtain ⟨d, hd⟩ := extends_elim (by
      repeat' first
        | apply extends_bind | apply extends_pure | apply extends_printf) hout
    rw [hd] at hdev
    simp [deviceCounts_cons, Event.deviceCount, h0] at hdev
  replace hout := pure_elim hout
  -- the devices are gone through
  replace hout := bind_elim hout
  obtain ⟨L, hL, hout⟩ := hout
  replace hout := check_ok_elim (extends_pure _) hall hout (deviceLoop_fail hL)
  obtain ⟨h4, hout⟩ := hout
  -- the system is closed
  replace hout := printf_elim hout
  replace hout := call_elim hout
  obtain ⟨r5, -, hout⟩ := hout
  subst hout
  simp only [run_pure, allOk_append] at hall
  have hLok : AllOk L.2.2 := hall.1.1
  rw [hL] at hLok
  obtain ⟨-, ds, hlen, hev⟩ := deviceLoop_ok _ _ _ _ _ _ hLok
  refine ⟨r1.1, ds, r5.1, ?_, ?_⟩
  · intro hnil
    rw [hnil] at hlen
    exact h0 hlen.symm
  · simp only [run_pure, resourceEvents_append]
    rw [hL, hev]
    simp [resourceEvents_cons, isResource]

/-- C6, counterexample to the claim as stated: no camera is connected.
`acOpenSystem` succeeds, as every call does, and `EnumerateDevices` returns
`AC_ERR_INVALID_VALUE` after three calls, none of which is `acCloseSystem`. -/
theorem C6_counterexample :
    AllOk (EnumerateDevices (cameras 0) ((), [])).2.2 ∧
    calls (EnumerateDevices (cameras 0) ((), [])).2.2
      = [.system .acOpenSystem, .system (.acSystemUpdateDevices 7 SYSTEM_TIMEOUT),
         .system (.acSystemGetNumDevices 7)] ∧
    (EnumerateDevices (cameras 0) ((), [])).1 = AC_ERR_INVALID_VALUE ∧
    ¬ IsReleasedRun (EnumerateDevices (cameras 0) ((), [])).2.2 := by
  have h : resourceEvents (EnumerateDevices (cameras 0) ((), [])).2.2
      = [Event.call (.system .acOpenSystem) (answer AC_ACCESS_MODE_RW 7)] := by decide!
  refine ⟨by decide!, by decide!, by decide!, ?_⟩
  rintro ⟨o, ds, c, -, hrel⟩
  rw [h] at hrel
  simp at hrel

/-- C5, the code at the failing inputs.  With one camera whose creation fails
with `AC_ERR_ERROR`, `EnumerateDevices` goes on after `acSystemCreateDevice`,
calls `acDeviceGetTLDeviceNodeMap` and `acSystemDestroyDevice` with the `NULL`
handle that was never created, and returns `AC_ERR_SUCCESS`.  With one camera
whose destruction fails with `AC_ERR_ERROR`, it returns `AC_ERR_SUCCESS` as
well. -/
theorem C5_create_destroy_unchecked :
    calls (EnumerateDevices cameraNotCreated ((), [])).2.2
      = [.system .acOpenSystem, .system (.acSystemUpdateDevices 7 SYSTEM_TIMEOUT),
         .system (.acSystemGetNumDevices 7),
         .system (.acSystemGetDeviceVendor 7 0), .system (.acSystemGetDeviceModel 7 0),
         .system (.acSystemGetDeviceSerial 7 0), .system (.acSystemGetDeviceMacAddressStr 7 0),
         .system (.acSystemGetDeviceIpAddressStr 7 0),
         .system (.acSystemCreateDevice 7 0),
         .device (.acDeviceGetTLDeviceNodeMap NULL),
         .node (.acNodeMapGetStringValue 7 "DeviceAccessStatus"),
         .node (.acNodeMapSetIntegerValue 7 "CcpSwitchoverKey" switchoverKey),
         .node (.acNodeMapSetStringValue 7 "DeviceAccessStatus" "ReadWrite"),
         .node (.acNodeMapGetStringValue 7 "DeviceAccessStatus"),
         .system (.acSystemDestroyDevice 7 NULL),
         .system (.acCloseSystem 7)] ∧
    Event.call (.system (.acSystemCreateDevice 7 0)) failure
      ∈ (EnumerateDevices cameraNotCreated ((), [])).2.2 ∧
    (EnumerateDevices cameraNotCreated ((), [])).1 = AC_ERR_SUCCESS ∧
    Event.call (.system (.acSystemDestroyDevice 7 20)) failure
      ∈ (EnumerateDevices cameraNotDestroyed ((), [])).2.2 ∧
    (EnumerateDevices cameraNotDestroyed ((), [])).1 = AC_ERR_SUCCESS := by
  decide!

end C_Enumeration_CcpSwitchover

/-! ## `C_Explore_Nodes.c` -/

namespace C_Explore_Nodes

/-- C10, the code departs from the claim: with one camera on which
`acDeviceGetNodeMap` fails with `AC_ERR_ERROR` (`cameraWithoutNodeMap`), `main`
executes `return err;`: the value returned is the number of the code
`AC_ERR_ERROR`, and the run ends with the failed call, without a call of
`acGetLastErrorMessage` and without a `printf` of an error message. -/
theorem C10_return_err_without_message (valueOf : AC_ERROR → Int) (fuel : Nat) :
    (main valueOf cameraWithoutNodeMap fuel ((), [])).1 = some (valueOf AC_ERR_ERROR) ∧
    (main valueOf cameraWithoutNodeMap fuel ((), [])).2.2
      = [Event.printf "C_Explore_Nodes\n" [],
         Event.call (.system .acOpenSystem) (answer AC_ACCESS_MODE_RW 7),
         Event.call (.system (.acSystemUpdateDevices 7 DEVICE_TIMEOUT)) (answer AC_ACCESS_MODE_RW 7),
         Event.call (.system (.acSystemGetNumDevices 7)) { answer AC_ACCESS_MODE_RW 7 with num := 1 },
         Event.call (.system (.acSystemCreateDevice 7 0)) (answer AC_ACCESS_MODE_RW 7),
         Event.call (.device (.acDeviceGetNodeMap 7)) failure] := by
  constructor <;> rfl

/-- C12, the code departs from the claim: the statement
`ExploreNode(hFeatureNode, depth);` of the loop drops the code the recursive call
returns.  With a category node whose only feature cannot be read
(`cameraWithBrokenFeature`), the exploration of the feature returns
`AC_ERR_ERROR`, the run of the top-level call ends with that failed call, and
the top-level call returns `AC_ERR_SUCCESS`. -/
theorem C12_feature_error_dropped (fuel : Nat) :
    (ExploreNode cameraWithBrokenFeature (fuel + 1) 2 1 ((), [])).1 = some AC_ERR_ERROR ∧
    (ExploreNode cameraWithBrokenFeature (fuel + 2) 1 0 ((), [])).1 = some AC_ERR_SUCCESS ∧
    calls (ExploreNode cameraWithBrokenFeature (fuel + 2) 1 0 ((), [])).2.2
      = [.node (.acNodeGetDisplayName 1), .node (.acNodeGetName 1), .node (.acNodeGetAccessMode 1),
         .node (.acNodeGetVisibility 1), .node (.acNodeGetPrincipalInterfaceType 1),
         .node (.acIsReadable 1), .node (.acValueToString 1),
         .node (.acCategoryGetNumFeatures 1), .node (.acCategoryGetFeature 1 0),
         .node (.acNodeGetDisplayName 2)] ∧
    (ExploreNode cameraWithBrokenFeature (fuel + 2) 1 0 ((), [])).2.2.getLast?
      = some (Event.call (.node (.acNodeGetDisplayName 2)) failure) :=
  ⟨rfl, rfl, rfl, rfl⟩

end C_Explore_Nodes

/-! ## Programs that may throw -/

section StepX
variable {W : Type}

theorem runX_bind {α β : Type} (m : ProgX W α) (f : α → ProgX W β) (s : W × Trace) :
    (m >>= f) s = match (m s).1 with
      | .ok a => f a (m s).2
      | .error e => (.error e, (m s).2) := by
  change ExceptT.bindCont f (m s).1 (m s).2 = _
  cases (m s).1 <;> rfl

theorem runX_pure {α : Type} (a : α) (s : W × Trace) : (pure a : ProgX W α) s = (.ok a, s) := rfl

theorem runX_cppCall (sdk : SDK W) (c : Call) (w : W) (t : Trace) :
    cppCall sdk c (w, t) =
      (match (sdk w c).1.thrown with
        | some e => .error e
        | none => .ok (sdk w c).1, ((sdk w c).2, t ++ [Event.call c (sdk w c).1])) := by
  have h : cppCall sdk c (w, t) = match (sdk w c).1.thrown with
      | some e => (.error e, ((sdk w c).2, t ++ [Event.call c (sdk w c).1]))
      | none => (.ok (sdk w c).1, ((sdk w c).2, t ++ [Event.call c (sdk w c).1])) := rfl
  rw [h]
  cases (sdk w c).1.thrown <;> rfl

@[simp] theorem threw_nil : ¬ Threw [] := by simp [Threw]

@[simp] theorem threw_append (t u : Trace) : Threw (t ++ u) ↔ Threw t ∨ Threw u := by
  simp [Threw, List.any_append]

@[simp] theorem threw_cons (e : Event) (t : Trace) : Threw (e :: t) ↔ e.throws = true ∨ Threw t := by
  simp [Threw]

theorem faithful_pure {α : Type} (a : α) : Faithful (pure a : ProgX W α) :=
  fun _ => ⟨[], by simp [runX_pure]⟩

theorem faithful_bind {α β : Type} {m : ProgX W α} {f : α → ProgX W β}
    (hm : Faithful m) (hf : ∀ a, Faithful (f a)) : Faithful (m >>= f) := by
  intro s
  obtain ⟨d1, h1, i1⟩ := hm s
  rw [runX_bind]
  rcases hx : m s with ⟨_ | a, s1⟩
  · rw [hx] at h1 i1
    exact ⟨d1, h1, by simpa using i1⟩
  · rw [hx] at h1 i1
    obtain ⟨d2, h2, i2⟩ := hf a s1
    refine ⟨d1 ++ d2, ?_, ?_⟩
    · show (f a s1).2.2 = _
      rw [h2]; simp at h1; rw [h1, List.append_assoc]
    · have : ¬ Threw d1 := by simpa using i1
      simp only [threw_append, this, false_or]
      exact i2

theorem faithful_cppCall (sdk : SDK W) (c : Call) : Faithful (cppCall sdk c) := by
  rintro ⟨w, t⟩
  refine ⟨[Event.call c (sdk w c).1], ?_, ?_⟩
  · rw [runX_cppCall]
  · rw [runX_cppCall]
    cases h : (sdk w c).1.thrown <;> simp [Event.throws, h]

theorem faithful_throwX {α : Type} (e : Exception) : Faithful (throwX e : ProgX W α) := by
  rintro ⟨w, t⟩
  exact ⟨[Event.throw e], rfl, by simp [throwX, Event.throws]⟩

theorem faithful_coutX (items : List Arg) : Faithful (coutX items : ProgX W Unit) := by
  rintro ⟨w, t⟩
  exact ⟨[Event.cout items], rfl, by simp [coutX, Event.throws]⟩

theorem faithful_cinX : Faithful (cinX : ProgX W Unit) := by
  rintro ⟨w, t⟩
  exact ⟨[Event.cin], rfl, by simp [cinX, Event.throws]⟩

theorem faithful_getcharX : Faithful (getcharX : ProgX W Unit) := by
  rintro ⟨w, t⟩
  exact ⟨[Event.getchar], rfl, by simp [getcharX, Event.throws]⟩

theorem faithful_ite {α : Type} (c : Prop) [Decidable c] {a b : ProgX W α}
    (ha : Faithful a) (hb : Faithful b) : Faithful (if c then a else b) := by
  split
  · exact ha
  · exact hb

theorem result0_bind {α : Type} {m : ProgX W α} {f : α → ProgX W (Option Int)}
    (hf : ∀ a, Result0 (f a)) : Result0 (m >>= f) := by
  intro s v h
  rw [runX_bind] at h
  rcases hx : (m s).1 with _ | a
  · rw [hx] at h; simp at h
  · rw [hx] at h; exact hf a _ v h

theorem result0_zero : Result0 (pure (some 0) : ProgX W (Option Int)) := by
  intro s v h
  simpa [runX_pure] using h.symm

theorem result0_none : Result0 (pure none : ProgX W (Option Int)) := by
  intro s v h
  simp [runX_pure] at h

theorem result0_ite (c : Prop) [Decidable c] {a b : ProgX W (Option Int)}
    (ha : Result0 a) (hb : Result0 b) : Result0 (if c then a else b) := by
  split
  · exact ha
  · exact hb

theorem run_cout (items : List Arg) (s : W × Trace) :
    (cout items : Prog W Unit) s = ((), (s.1, s.2 ++ [Event.cout items])) := rfl

@[simp] theorem throws_cout (items : List Arg) : (Event.cout items).throws = false := rfl

@[simp] theorem throws_getchar : Event.getchar.throws = false := rfl

/-- An output to `std::cout` followed by the rest of the program. -/
theorem coutX_elim {α : Type} {items : List Arg} {f : Unit → ProgX W α}
    {w : W} {t : Trace} {out : Except Exception α × W × Trace}
    (h : (coutX items >>= f) (w, t) = out) :
    f () (w, t ++ [Event.cout items]) = out := h

end StepX

/-! ## `Cpp_Acquisition_TCP.cpp` -/

namespace Cpp_Acquisition_TCP

variable {W : Type}

theorem faithful_PrintInfo (sdk : SDK W) (pDevice : Handle) : Faithful (PrintInfo sdk pDevice) := by
  unfold PrintInfo
  with_reducible repeat' first
    | apply faithful_bind
    | apply faithful_pure
    | apply faithful_cppCall
    | apply faithful_coutX
    | apply faithful_cinX
    | apply faithful_getcharX
    | apply faithful_throwX
    | apply faithful_ite
    | intro _

theorem faithful_imageLoop (sdk : SDK W) (pDevice : Handle) (n i : Nat) :
    Faithful (imageLoop sdk pDevice n i) := by
  induction n generalizing i with
  | zero => exact faithful_pure _
  | succ n ih =>
    unfold imageLoop
    with_reducible repeat' first
      | apply ih
      | apply faithful_bind
      | apply faithful_pure
      | apply faithful_cppCall
      | apply faithful_coutX
      | apply faithful_cinX
      | apply faithful_getcharX
      | apply faithful_throwX
      | apply faithful_ite
      | intro _

theorem faithful_AcquireImages (sdk : SDK W) (pDevice : Handle) :
    Faithful (AcquireImages sdk pDevice) := by
  unfold AcquireImages
  with_reducible repeat' first
    | apply faithful_PrintInfo
    | apply faithful_imageLoop
    | apply faithful_bind
    | apply faithful_pure
    | apply faithful_cppCall
    | apply faithful_coutX
    | apply faithful_cinX
    | apply faithful_getcharX
    | apply faithful_throwX
    | apply faithful_ite
    | intro _

theorem tcp_faithful_tryBlock (sdk : SDK W) : Faithful (tryBlock sdk) := by
  unfold tryBlock
  with_reducible repeat' first
    | apply faithful_AcquireImages
    | apply faithful_bind
    | apply faithful_pure
    | apply faithful_cppCall
    | apply faithful_coutX
    | apply faithful_cinX
    | apply faithful_getcharX
    | apply faithful_throwX
    | apply faithful_ite
    | intro _

theorem tcp_result0_tryBlock (sdk : SDK W) : Result0 (tryBlock sdk) := by
  unfold tryBlock
  with_reducible repeat' first
    | apply result0_bind
    | apply result0_zero
    | apply result0_none
    | apply result0_ite
    | intro _

/-- The value of `main` tells whether an exception was thrown. -/
theorem tcp_main_returns (sdk : SDK W) (w : W) :
    (main sdk (w, [])).1 = if Threw (main sdk (w, [])).2.2 then -1 else 0 := by
  obtain ⟨d, hd, hiff⟩ := tcp_faithful_tryBlock sdk (w, [Event.cout [.str "Cpp_Acquisition_TCP\n"]])
  have h0 := tcp_result0_tryBlock sdk (w, [Event.cout [.str "Cpp_Acquisition_TCP\n"]])
  have hx : ExceptT.run (tryBlock sdk) (cout [.str "Cpp_Acquisition_TCP\n"] (w, [])).2
      = tryBlock sdk (w, [Event.cout [.str "Cpp_Acquisition_TCP\n"]]) := rfl
  unfold main
  simp only [run_bind]
  rw [hx]
  generalize tryBlock sdk (w, [Event.cout [.str "Cpp_Acquisition_TCP\n"]]) = x at hd hiff h0
  obtain ⟨r, w1, t⟩ := x
  simp only at hd hiff h0
  subst hd
  rcases r with (_ | _ | _) | (_ | v)
  all_goals simp at hiff
  all_goals simp only [run_bind, run_pure, run_cout, run_getchar, run_ite, if_true,
    Bool.false_eq_true, if_false]
  all_goals simp [hiff]
  exact h0 v rfl

/-! ### The accesses of `AcquireImages` to node values -/

@[simp] theorem accesses_nil : accesses [] = [] := rfl

@[simp] theorem accesses_append (t u : Trace) : accesses (t ++ u) = accesses t ++ accesses u := by
  simp [accesses, List.filterMap_append]

end Cpp_Acquisition_TCP

/-! ## `Cpp_Save_Bmp.cpp` -/

namespace Cpp_Save_Bmp

variable {W : Type}

theorem bmp_faithful_SaveImage (sdk : SDK W) (pImage : Handle) (filename : String) :
    Faithful (SaveImage sdk pImage filename) := by
  unfold SaveImage
  with_reducible repeat' first
    | apply faithful_bind
    | apply faithful_pure
    | apply faithful_cppCall
    | apply faithful_coutX
    | apply faithful_cinX
    | apply faithful_getcharX
    | apply faithful_throwX
    | apply faithful_ite
    | intro _

theorem bmp_faithful_tryBlock (sdk : SDK W) : Faithful (tryBlock sdk) := by
  unfold tryBlock
  with_reducible repeat' first
    | apply bmp_faithful_SaveImage
    | apply faithful_bind
    | apply faithful_pure
    | apply faithful_cppCall
    | apply faithful_coutX
    | apply faithful_cinX
    | apply faithful_getcharX
    | apply faithful_throwX
    | apply faithful_ite
    | intro _

theorem bmp_result0_tryBlock (sdk : SDK W) : Result0 (tryBlock sdk) := by
  unfold tryBlock
  with_reducible repeat' first
    | apply result0_bind
    | apply result0_zero
    | apply result0_none
    | apply result0_ite
    | intro _

/-- The value of `main` tells whether an exception was thrown. -/
theorem bmp_main_returns (sdk : SDK W) (w : W) :
    (main sdk (w, [])).1 = if Threw (main sdk (w, [])).2.2 then -1 else 0 := by
  obtain ⟨d, hd, hiff⟩ := bmp_faithful_tryBlock sdk (w, [Event.cout [.str "Cpp_Save_Bmp\n"]])
  have h0 := bmp_result0_tryBlock sdk (w, [Event.cout [.str "Cpp_Save_Bmp\n"]])
  have hx : ExceptT.run (tryBlock sdk) (cout [.str "Cpp_Save_Bmp\n"] (w, [])).2
      = tryBlock sdk (w, [Event.cout [.str "Cpp_Save_Bmp\n"]]) := rfl
  unfold main
  simp only [run_bind]
  rw [hx]
  generalize tryBlock sdk (w, [Event.cout [.str "Cpp_Save_Bmp\n"]]) = x at hd hiff h0
  obtain ⟨r, w1, t⟩ := x
  simp only at hd hiff h0
  subst hd
  rcases r with (_ | _ | _) | (_ | v)
  all_goals simp at hiff
  all_goals simp only [run_bind, run_pure, run_cout, run_getchar, run_ite, if_true,
    Bool.false_eq_true, if_false]
  all_goals simp [hiff]
  exact h0 v rfl

end Cpp_Save_Bmp

/-! ## `Cpp_Save_Jpeg.cpp` -/

namespace Cpp_Save_Jpeg

variable {W : Type}

theorem jpeg_faithful_SaveImage (sdk : SDK W) (pImage : Handle) (filename : String) :
    Faithful (SaveImage sdk pImage filename) := by
  unfold SaveImage
  with_reducible repeat' first
    | apply faithful_bind
    | apply faithful_pure
    | apply faithful_cppCall
    | apply faithful_coutX
    | apply faithful_cinX
    | apply faithful_getcharX
    | apply faithful_throwX
    | apply faithful_ite
    | intro _

theorem jpeg_faithful_tryBlock (sdk : SDK W) : Faithful (tryBlock sdk) := by
  unfold tryBlock
  with_reducible repeat' first
    | apply jpeg_faithful_SaveImage
    | apply faithful_bind
    | apply faithful_pure
    | apply faithful_cppCall
    | apply faithful_coutX
    | apply faithful_cinX
    | apply faithful_getcharX
    | apply faithful_throwX
    | apply faithful_ite
    | intro _

theorem jpeg_result0_tryBlock (sdk : SDK W) : Result0 (tryBlock sdk) := by
  unfold tryBlock
  with_reducible repeat' first
    | apply result0_bind
    | apply result0_zero
    | apply result0_none
    | apply result0_ite
    | intro _

/-- The value of `main` tells whether an exception was thrown. -/
theorem jpeg_main_returns (sdk : SDK W) (w : W) :
    (main sdk (w, [])).1 = if Threw (main sdk (w, [])).2.2 then -1 else 0 := by
  obtain ⟨d, hd, hiff⟩ := jpeg_faithful_tryBlock sdk (w, [Event.cout [.str "Cpp_Save_Jpeg\n"]])
  have h0 := jpeg_result0_tryBlock sdk (w, [Event.cout [.str "Cpp_Save_Jpeg\n"]])
  have hx : ExceptT.run (tryBlock sdk) (cout [.str "Cpp_Save_Jpeg\n"] (w, [])).2
      = tryBlock sdk (w, [Event.cout [.str "Cpp_Save_Jpeg\n"]]) := rfl
  unfold main
  simp only [run_bind]
  rw [hx]
  generalize tryBlock sdk (w, [Event.cout [.str "Cpp_Save_Jpeg\n"]]) = x at hd hiff h0
  obtain ⟨r, w1, t⟩ := x
  simp only at hd hiff h0
  subst hd
  rcases r with (_ | _ | _) | (_ | v)
  all_goals simp at hiff
  all_goals simp only [run_bind, run_pure, run_cout, run_getchar, run_ite, if_true,
    Bool.false_eq_true, if_false]
  all_goals simp [hiff]
  exact h0 v rfl

end Cpp_Save_Jpeg

/-! ## `Cpp_Enumeration_CcpSwitchover.cpp` -/

namespace Cpp_Enumeration_CcpSwitchover

variable {W : Type}

theorem faithful_hasControl (sdk : SDK W) (m : Handle) : Faithful (hasControl sdk m) := by
  unfold hasControl
  with_reducible repeat' first
    | apply faithful_bind
    | apply faithful_pure
    | apply faithful_cppCall
    | apply faithful_coutX
    | apply faithful_cinX
    | apply faithful_getcharX
    | apply faithful_throwX
    | apply faithful_ite
    | intro _

theorem faithful_infoLoop (sdk : SDK W) (n i : Nat) (serialToFind : String) :
    Faithful (infoLoop sdk n i serialToFind) := by
  induction n generalizing i serialToFind with
  | zero => exact faithful_pure _
  | succ n ih =>
    unfold infoLoop
    with_reducible repeat' first
      | apply ih
      | apply faithful_bind
      | apply faithful_pure
      | apply faithful_cppCall
      | apply faithful_coutX
      | apply faithful_cinX
      | apply faithful_getcharX
      | apply faithful_throwX
      | apply faithful_ite
      | intro _

theorem faithful_findLoop (sdk : SDK W) (serialToFind : String) (n i : Nat) :
    Faithful (findLoop sdk serialToFind n i) := by
  induction n generalizing i with
  | zero => exact faithful_pure _
  | succ n ih =>
    unfold findLoop
    with_reducible repeat' first
      | apply ih
      | apply faithful_bind
      | apply faithful_pure
      | apply faithful_cppCall
      | apply faithful_coutX
      | apply faithful_cinX
      | apply faithful_getcharX
      | apply faithful_throwX
      | apply faithful_ite
      | intro _

theorem faithful_EnumerateDevices (sdk : SDK W) : Faithful (EnumerateDevices sdk) := by
  unfold EnumerateDevices
  with_reducible repeat' first
    | apply faithful_hasControl
    | apply faithful_infoLoop
    | apply faithful_findLoop
    | apply faithful_bind
    | apply faithful_pure
    | apply faithful_cppCall
    | apply faithful_coutX
    | apply faithful_cinX
    | apply faithful_getcharX
    | apply faithful_throwX
    | apply faithful_ite
    | intro _

theorem enum_faithful_tryBlock (sdk : SDK W) : Faithful (tryBlock sdk) := by
  unfold tryBlock
  with_reducible repeat' first
    | apply faithful_EnumerateDevices
    | apply faithful_bind
    | apply faithful_pure
    | apply faithful_cppCall
    | apply faithful_coutX
    | apply faithful_cinX
    | apply faithful_getcharX
    | apply faithful_throwX
    | apply faithful_ite
    | intro _

/-- The value of `main` tells whether an exception was thrown. -/
theorem enum_main_returns (sdk : SDK W) (w : W) :
    (main sdk (w, [])).1 = if Threw (main sdk (w, [])).2.2 then -1 else 0 := by
  obtain ⟨d, hd, hiff⟩ := enum_faithful_tryBlock sdk (w, [Event.cout [.str "Cpp_Enumeration_CcpSwitchover\n"]])
  have hx : ExceptT.run (tryBlock sdk) (cout [.str "Cpp_Enumeration_CcpSwitchover\n"] (w, [])).2
      = tryBlock sdk (w, [Event.cout [.str "Cpp_Enumeration_CcpSwitchover\n"]]) := rfl
  unfold main
  simp only [run_bind]
  rw [hx]
  generalize tryBlock sdk (w, [Event.cout [.str "Cpp_Enumeration_CcpSwitchover\n"]]) = x at hd hiff
  obtain ⟨r, w1, t⟩ := x
  simp only at hd hiff
  subst hd
  rcases r with (_ | _ | _) | _
  all_goals simp at hiff
  all_goals simp only [run_bind, run_pure, run_cout, run_getchar, run_ite, if_true,
    Bool.false_eq_true, if_false]
  all_goals simp [hiff]

end Cpp_Enumeration_CcpSwitchover

/-! ## The value of the C++ `main` functions -/

/-- C9: each of the four C++ `main` functions (`Cpp_Acquisition_TCP`,
`Cpp_Save_Bmp`, `Cpp_Save_Jpeg`, `Cpp_Enumeration_CcpSwitchover`), run against
any behaviour of the library from any state, returns `-1` when an exception was
thrown in the run, by a library call or by a `throw` statement, and `0`
otherwise; the only events of `main` that can throw are those of its `try`
block.  The value `0` includes the early `return 0` from inside the `try` block
when the device list is empty. -/
theorem C9_main_returns {W : Type} (sdk : SDK W) (w : W) :
    ((Cpp_Acquisition_TCP.main sdk (w, [])).1
        = if Threw (Cpp_Acquisition_TCP.main sdk (w, [])).2.2 then -1 else 0) ∧
    ((Cpp_Save_Bmp.main sdk (w, [])).1
        = if Threw (Cpp_Save_Bmp.main sdk (w, [])).2.2 then -1 else 0) ∧
    ((Cpp_Save_Jpeg.main sdk (w, [])).1
        = if Threw (Cpp_Save_Jpeg.main sdk (w, [])).2.2 then -1 else 0) ∧
    ((Cpp_Enumeration_CcpSwitchover.main sdk (w, [])).1
        = if Threw (Cpp_Enumeration_CcpSwitchover.main sdk (w, [])).2.2 then -1 else 0) :=
  ⟨Cpp_Acquisition_TCP.tcp_main_returns sdk w, Cpp_Save_Bmp.bmp_main_returns sdk w,
    Cpp_Save_Jpeg.jpeg_main_returns sdk w, Cpp_Enumeration_CcpSwitchover.enum_main_returns sdk w⟩

/-! ## `ArenaUIStack.h` -/

namespace ArenaUI

namespace Stack

variable {T : Type}

theorem GetAt_eq (s : Stack T) (index : Nat) :
    s.GetAt index = match s.m_pQuery[index]? with
      | some x => .ok x
      | none => .error { what := "Index into stack is out of range" } := by
  unfold GetAt
  by_cases h : s.m_pQuery.length ≤ index
  · rw [dif_pos h, List.getElem?_eq_none h]
    rfl
  · rw [dif_neg h, List.getElem?_eq_getElem (Nat.lt_of_not_le h)]
    rfl

theorem pushes_m_pQuery (s : Stack T) (xs : List T) :
    (xs.foldl Push s).m_pQuery = s.m_pQuery ++ xs := by
  induction xs generalizing s with
  | nil => simp
  | cons x xs ih => rw [List.foldl_cons, ih]; simp [Push]

theorem GetAt_ok_iff (s : Stack T) (index : Nat) (x : T) :
    s.GetAt index = .ok x ↔ s.m_pQuery[index]? = some x := by
  rw [GetAt_eq]
  cases s.m_pQuery[index]? <;> simp

/-- C14: `GetAt(index)` throws `std::out_of_range` exactly when
`index >= Size()`, and it returns the value `x` exactly when `x` is the element
stored at position `index` of the vector; so for every `index < Size()` it
returns the stored element without throwing. -/
theorem C14_GetAt_range (s : Stack T) (index : Nat) :
    ((∃ e : out_of_range, s.GetAt index = .error e) ↔ s.Size ≤ index) ∧
    (∀ x : T, s.GetAt index = .ok x ↔ s.m_pQuery[index]? = some x) := by
  rw [GetAt_eq]
  by_cases h : s.m_pQuery.length ≤ index
  · rw [List.getElem?_eq_none h]
    simp [Size, h]
  · rw [List.getElem?_eq_getElem (Nat.lt_of_not_le h)]
    simp [Size, h]

/-- C15: after `Push(x0)`, ..., `Push(x(n-1))` on a stack just built or just
cleared, `Size()` is `n` and `GetAt(i)` returns `xi` for every `i < n` (and
throws for the other `i`); `GetAt()` with the default index returns the first
element pushed; and `Push` does not change what `GetAt(i)` returns for an `i`
that was valid before. -/
theorem C15_insertion_order (s0 : Stack T) (xs : List T) :
    (xs.foldl Push mk0).Size = xs.length ∧
    (xs.foldl Push (Clear s0)).Size = xs.length ∧
    (∀ (i : Nat) (x : T), (xs.foldl Push mk0).GetAt i = .ok x ↔ xs[i]? = some x) ∧
    (∀ (i : Nat) (x : T), (xs.foldl Push (Clear s0)).GetAt i = .ok x ↔ xs[i]? = some x) ∧
    (∀ (x0 : T) (rest : List T), xs = x0 :: rest →
      (xs.foldl Push mk0).GetAt = .ok x0 ∧ (xs.foldl Push (Clear s0)).GetAt = .ok x0) ∧
    (∀ (x : T) (i : Nat), i < s0.Size → (s0.Push x).GetAt i = s0.GetAt i) := by
  refine ⟨?_, ?_, ?_, ?_, ?_, ?_⟩
  · simp [Size, pushes_m_pQuery, mk0]
  · simp [Size, pushes_m_pQuery, Clear]
  · intro i x
    rw [GetAt_ok_iff, pushes_m_pQuery]
    simp [mk0]
  · intro i x
    rw [GetAt_ok_iff, pushes_m_pQuery]
    simp [Clear]
  · rintro x0 rest rfl
    simp [GetAt_eq, pushes_m_pQuery, mk0, Clear, Push]
  · intro x i hi
    rw [GetAt_eq, GetAt_eq]
    simp only [Push]
    rw [List.getElem?_append_left hi]

/-- C15, witness: the stack holding `10, 20` and the pushes of `1, 2, 3`. -/
theorem C15_insertion_order_witness :
    ((Stack.mk [10, 20]).Push 30).GetAt 1 = (Stack.mk [10, 20]).GetAt 1 ∧
    ([1, 2, 3].foldl Push (mk0 : Stack Nat)).GetAt = .ok 1 :=
  ⟨(C15_insertion_order (Stack.mk [10, 20]) [1, 2, 3]).2.2.2.2.2 30 1 (by decide),
    ((C15_insertion_order (Stack.mk [10, 20]) [1, 2, 3]).2.2.2.2.1 1 [2, 3] rfl).1⟩

end Stack

end ArenaUI

/-! ## `C_Enumeration_CcpSwitchover.c` and `Cpp_Enumeration_CcpSwitchover.cpp` with no device -/

@[simp] theorem deviceLists_nil : deviceLists [] = [] := rfl

@[simp] theorem deviceLists_append (t u : Trace) :
    deviceLists (t ++ u) = deviceLists t ++ deviceLists u := by
  simp [deviceLists, List.filterMap_append]

theorem deviceLists_cons (e : Event) (t : Trace) :
    deviceLists (e :: t)
      = (match e.deviceList with | some r => [r] | none => []) ++ deviceLists t := by
  cases h : e.deviceList <;> simp [deviceLists, List.filterMap_cons, h]

namespace C_Enumeration_CcpSwitchover
variable {W : Type}

theorem extends_hasControl (sdk : SDK W) (m : Handle) : Extends (hasControl sdk m) := by
  unfold hasControl
  with_reducible repeat' first
    | apply extends_bind | apply extends_pure | apply extends_sdkCall | apply extends_printf
    | apply extends_getchar | apply extends_ite | intro _

theorem extends_deviceLoop (sdk : SDK W) (hSystem : Handle) (n i : Nat) :
    Extends (deviceLoop sdk hSystem n i) := by
  induction n generalizing i with
  | zero => exact extends_pure _
  | succ n ih =>
    unfold deviceLoop
    with_reducible repeat' first
      | apply ih | apply extends_hasControl
      | apply extends_bind | apply extends_pure | apply extends_sdkCall | apply extends_printf
      | apply extends_getchar | apply extends_ite | intro _

/-- With an empty device list `EnumerateDevices` stops after three calls. -/
theorem EnumerateDevices_empty (sdk : SDK W) (w : W) (t0 : Trace) (r : Resp)
    (hpre : deviceLists t0 = [])
    (hr : (deviceLists (EnumerateDevices sdk (w, t0)).2.2).head? = some r)
    (hok : r.err = AC_ERR_SUCCESS) (h0 : r.num = 0) :
    ∃ (o u : Resp) (w1 : W), EnumerateDevices sdk (w, t0) =
      (AC_ERR_INVALID_VALUE, w1, t0 ++
        [Event.printf "%sOpen system\n" [.str TAB1],
         Event.call (.system .acOpenSystem) o,
         Event.printf "%sUpdate and retrieve number of devices\n" [.str TAB1],
         Event.call (.system (.acSystemUpdateDevices o.handle SYSTEM_TIMEOUT)) u,
         Event.call (.system (.acSystemGetNumDevices o.handle)) r,
         Event.printf "%sGet device information\n" [.str TAB1],
         Event.printf "%sNo camera connected\n" [.str TAB1]]) := by
  generalize hout : EnumerateDevices sdk (w, t0) = out at hr ⊢
  unfold EnumerateDevices at hout
  replace hout := printf_elim hout
  replace hout := call_elim hout
  obtain ⟨r1, -, hout⟩ := hout
  replace hout := check_elim hout
  rcases hout with ⟨-, rfl⟩ | ⟨h1, hout⟩
  · simp [deviceLists_cons, Event.deviceList, hpre] at hr
  replace hout := printf_elim hout
  replace hout := call_elim hout
  obtain ⟨r2, -, hout⟩ := hout
  replace hout := check_elim hout
  rcases hout with ⟨-, rfl⟩ | ⟨h2, hout⟩
  · simp [deviceLists_cons, Event.deviceList, hpre] at hr
  replace hout := call_elim hout
  obtain ⟨r3, -, hout⟩ := hout
  replace hout := check_elim hout
  rcases hout with ⟨h3, rfl⟩ | ⟨h3, hout⟩
  · simp [deviceLists_cons, Event.deviceList, hpre] at hr
    rw [hr] at h3
    exact absurd hok h3
  replace hout := printf_elim hout
  replace hout := ite_elim hout
  rcases hout with ⟨hz, hout⟩ | ⟨hz, hout⟩
  · replace hout := printf_elim hout
    subst hout
    simp [run_pure, deviceLists_cons, Event.deviceList, hpre] at hr
    subst hr
    exact ⟨r1.1, r2.1, r3.2, by simp [run_pure]⟩
  · obtain ⟨d, hd⟩ := extends_elim (by
      with_reducible repeat' first
        | apply extends_deviceLoop
        | apply extends_bind | apply extends_pure | apply extends_sdkCall | apply extends_printf
        | apply extends_ite | intro _) hout
    rw [hd] at hr
    simp [deviceLists_cons, Event.deviceList, hpre] at hr
    rw [hr] at hz
    exact absurd h0 hz

/-- With an empty device list `main` reports the error and returns `-1`. -/
theorem main_empty (sdk : SDK W) (w : W) (r : Resp)
    (hr : (deviceLists (main sdk (w, [])).2.2).head? = some r)
    (hok : r.err = AC_ERR_SUCCESS) (h0 : r.num = 0) :
    (main sdk (w, [])).1 = -1 ∧
    ∃ o : Resp, calls (main sdk (w, [])).2.2
      = [.system .acOpenSystem, .system (.acSystemUpdateDevices o.handle SYSTEM_TIMEOUT),
         .system (.acSystemGetNumDevices o.handle), .system .acGetLastErrorMessage] := by
  generalize hout : main sdk (w, []) = out at hr ⊢
  unfold main at hout
  replace hout := printf_elim hout
  replace hout := printf_elim hout
  replace hout := bind_elim hout
  obtain ⟨E, hE, hout⟩ := hout
  replace hout := ite_elim hout
  have hdl : (deviceLists E.2.2).head? = some r := by
    rcases hout with ⟨-, hout⟩ | ⟨-, hout⟩
    · subst hout
      simp only [CHECK_RETURN, run_bind, run_pure, run_sdkCall, run_printf, run_getchar] at hr
      simpa [deviceLists_cons, Event.deviceList] using hr
    · subst hout
      simp only [run_bind, run_pure, run_printf, run_getchar] at hr
      simpa [deviceLists_cons, Event.deviceList] using hr
  rw [hE] at hdl
  obtain ⟨o, u, w1, hEq⟩ := EnumerateDevices_empty sdk w _ r
    (by simp [deviceLists_cons, Event.deviceList]) hdl hok h0
  rw [hEq] at hE
  subst hE
  rcases hout with ⟨-, hout⟩ | ⟨hs, -⟩
  · subst hout
    refine ⟨rfl, o, ?_⟩
    simp only [CHECK_RETURN, run_bind, run_pure, run_sdkCall, run_printf, run_getchar]
    simp
  · simp at hs

end C_Enumeration_CcpSwitchover

section StepX
variable {W : Type}

/-- A call of the C++ interface followed by the rest of the program: the call
throws and the program ends, or it returns and the program goes on. -/
theorem cppCall_cases {α : Type} {sdk : SDK W} {c : Call} {f : Resp → ProgX W α} {w : W}
    {t : Trace} {out : Except Exception α × W × Trace}
    (h : (cppCall sdk c >>= f) (w, t) = out) :
    ∃ r : Resp × W, r = sdk w c ∧
      ((∃ e, r.1.thrown = some e ∧ out = (.error e, (r.2, t ++ [Event.call c r.1]))) ∨
       (r.1.thrown = none ∧ f r.1 (r.2, t ++ [Event.call c r.1]) = out)) := by
  refine ⟨sdk w c, rfl, ?_⟩
  rw [runX_bind, runX_cppCall] at h
  cases hr : (sdk w c).1.thrown with
  | some e => rw [hr] at h; exact Or.inl ⟨e, rfl, h.symm⟩
  | none => rw [hr] at h; exact Or.inr ⟨rfl, h⟩

/-- A `throw` statement ends the program. -/
theorem throwX_elim {α β : Type} {e : Exception} {f : α → ProgX W β} {w : W} {t : Trace}
    {out : Except Exception β × W × Trace} (h : (throwX e >>= f) (w, t) = out) :
    out = (.error e, (w, t ++ [Event.throw e])) := h.symm

/-- A two-way branch of a program that may throw. -/
theorem iteX_elim {α : Type} {c : Prop} [Decidable c] {p q : ProgX W α} {s : W × Trace}
    {out : Except Exception α × W × Trace} (h : (if c then p else q) s = out) :
    (c ∧ p s = out) ∨ (¬ c ∧ q s = out) := by
  by_cases hc : c
  · left; exact ⟨hc, by rw [← h, if_pos hc]⟩
  · right; exact ⟨hc, by rw [← h, if_neg hc]⟩

/-- A program that is `Faithful` only adds to the trace. -/
theorem faithful_elim {α : Type} {p : ProgX W α} {s : W × Trace}
    {out : Except Exception α × W × Trace} (hp : Faithful p) (h : p s = out) :
    ∃ d : Trace, out.2.2 = s.2 ++ d := by
  subst h
  obtain ⟨d, hd, -⟩ := hp s
  exact ⟨d, hd⟩

end StepX

namespace Cpp_Enumeration_CcpSwitchover
variable {W : Type}

/-- With an empty device list `EnumerateDevices` throws after three calls. -/
theorem enum_EnumerateDevices_empty (sdk : SDK W) (w : W) (t0 : Trace) (r : Resp)
    (hpre : deviceLists t0 = [])
    (hr : (deviceLists (EnumerateDevices sdk (w, t0)).2.2).head? = some r)
    (hok : r.thrown = none) (h0 : r.num = 0) :
    ∃ (o u : Resp) (w1 : W), EnumerateDevices sdk (w, t0) =
      (.error (.standard "No Camera Conencted"), w1, t0 ++
        [Event.cout [.str TAB1, .str "Open system\n"],
         Event.call (.cppSystem .OpenSystem) o,
         Event.cout [.str TAB1, .str "Update and retrieve list of devices\n"],
         Event.call (.cppSystem (.UpdateDevices o.handle SYSTEM_TIMEOUT)) u,
         Event.call (.cppSystem (.GetDevices o.handle)) r,
         Event.cout [.str TAB1, .str "Get device information\n"],
         Event.cout [.str "\nNo camera connected\n"],
         Event.throw (.standard "No Camera Conencted")]) := by
  generalize hout : EnumerateDevices sdk (w, t0) = out at hr ⊢
  unfold EnumerateDevices at hout
  replace hout := coutX_elim hout
  replace hout := cppCall_cases hout
  obtain ⟨r1, -, ⟨e, -, rfl⟩ | ⟨h1, hout⟩⟩ := hout
  · simp [deviceLists_cons, Event.deviceList, hpre] at hr
  replace hout := coutX_elim hout
  replace hout := cppCall_cases hout
  obtain ⟨r2, -, ⟨e, -, rfl⟩ | ⟨h2, hout⟩⟩ := hout
  · simp [deviceLists_cons, Event.deviceList, hpre] at hr
  replace hout := cppCall_cases hout
  obtain ⟨r3, -, ⟨e, h3, rfl⟩ | ⟨h3, hout⟩⟩ := hout
  · simp [deviceLists_cons, Event.deviceList, hpre] at hr
    rw [hr, hok] at h3
    simp at h3
  replace hout := coutX_elim hout
  replace hout := iteX_elim hout
  rcases hout with ⟨hz, hout⟩ | ⟨hz, hout⟩
  · replace hout := coutX_elim hout
    replace hout := throwX_elim hout
    subst hout
    simp [deviceLists_cons, Event.deviceList, hpre] at hr
    subst hr
    exact ⟨r1.1, r2.1, r3.2, by simp⟩
  · obtain ⟨d, hd⟩ := faithful_elim (by
      with_reducible repeat' first
        | apply faithful_hasControl | apply faithful_infoLoop | apply faithful_findLoop
        | apply faithful_bind | apply faithful_pure | apply faithful_cppCall
        | apply faithful_coutX | apply faithful_cinX | apply faithful_ite | intro _) hout
    rw [hd] at hr
    simp [deviceLists_cons, Event.deviceList, hpre] at hr
    rw [hr] at hz
    exact absurd h0 hz

/-- With an empty device list the `try` block of `main` ends with the exception
of `EnumerateDevices`. -/
theorem enum_tryBlock_empty (sdk : SDK W) (w : W) (t0 : Trace) (r : Resp)
    (hpre : deviceLists t0 = [])
    (hr : (deviceLists (tryBlock sdk (w, t0)).2.2).head? = some r)
    (hok : r.thrown = none) (h0 : r.num = 0) :
    ∃ (o u : Resp) (w1 : W), tryBlock sdk (w, t0) =
      (.error (.standard "No Camera Conencted"), w1, t0 ++
        [Event.cout [.str "Commence example\n\n"],
         Event.cout [.str TAB1, .str "Open system\n"],
         Event.call (.cppSystem .OpenSystem) o,
         Event.cout [.str TAB1, .str "Update and retrieve list of devices\n"],
         Event.call (.cppSystem (.UpdateDevices o.handle SYSTEM_TIMEOUT)) u,
         Event.call (.cppSystem (.GetDevices o.handle)) r,
         Event.cout [.str TAB1, .str "Get device information\n"],
         Event.cout [.str "\nNo camera connected\n"],
         Event.throw (.standard "No Camera Conencted")]) := by
  generalize hout : tryBlock sdk (w, t0) = out at hr ⊢
  unfold tryBlock at hout
  replace hout := coutX_elim hout
  rw [runX_bind] at hout
  have hE : (deviceLists (EnumerateDevices sdk
      (w, t0 ++ [Event.cout [.str "Commence example\n\n"]])).2.2).head? = some r := by
    generalize EnumerateDevices sdk (w, t0 ++ [Event.cout [.str "Commence example\n\n"]]) = E
      at hout
    obtain ⟨res, w2, t2⟩ := E
    cases res with
    | error e => subst hout; exact hr
    | ok a =>
      subst hout
      simpa [coutX, runX_bind, runX_pure, deviceLists_cons, Event.deviceList] using hr
  obtain ⟨o, u, w1, hEq⟩ := enum_EnumerateDevices_empty sdk w _ r
    (by simp [deviceLists_cons, Event.deviceList, hpre]) hE hok h0
  rw [hEq] at hout
  subst hout
  exact ⟨o, u, w1, by simp⟩

/-- With an empty device list `main` reports the exception and returns `-1`. -/
theorem enum_main_empty (sdk : SDK W) (w : W) (r : Resp)
    (hr : (deviceLists (main sdk (w, [])).2.2).head? = some r)
    (hok : r.thrown = none) (h0 : r.num = 0) :
    (main sdk (w, [])).1 = -1 ∧
    ∃ o : Resp, calls (main sdk (w, [])).2.2
      = [.cppSystem .OpenSystem, .cppSystem (.UpdateDevices o.handle SYSTEM_TIMEOUT),
         .cppSystem (.GetDevices o.handle)] := by
  have hx : ExceptT.run (tryBlock sdk) (cout [.str "Cpp_Enumeration_CcpSwitchover\n"] (w, [])).2
      = tryBlock sdk (w, [Event.cout [.str "Cpp_Enumeration_CcpSwitchover\n"]]) := rfl
  have hT : (deviceLists (tryBlock sdk
      (w, [Event.cout [.str "Cpp_Enumeration_CcpSwitchover\n"]])).2.2).head? = some r := by
    revert hr
    unfold main
    simp only [run_bind]
    rw [hx]
    generalize tryBlock sdk (w, [Event.cout [.str "Cpp_Enumeration_CcpSwitchover\n"]]) = x
    obtain ⟨res, w1, t⟩ := x
    rcases res with (_ | _ | _) | _
    all_goals simp only [run_bind, run_pure, run_cout, run_getchar, run_ite, if_true,
      Bool.false_eq_true, if_false]
    all_goals simp [deviceLists_cons, Event.deviceList]
  obtain ⟨o, u, w1, hEq⟩ := enum_tryBlock_empty sdk w _ r
    (by simp [deviceLists_cons, Event.deviceList]) hT hok h0
  unfold main
  simp only [run_bind]
  rw [hx, hEq]
  simp only [run_bind, run_pure, run_cout, run_getchar, run_ite, if_true]
  refine ⟨?_, o, ?_⟩ <;> simp [calls]

end Cpp_Enumeration_CcpSwitchover

/-! ## `C_Enumeration_CcpSwitchover.c`: every return of `EnumerateDevices` -/

namespace C_Enumeration_CcpSwitchover

variable {W : Type}

set_option maxHeartbeats 2000000 in
/-- The device loop never closes the system, and when it returns an error code,
that is the code of the last call it made. -/
theorem deviceLoop_returns (sdk : SDK W) (hSystem : Handle) (n i : Nat) (w : W) (t : Trace) :
    (calls (deviceLoop sdk hSystem n i (w, t)).2.2).filter closesSystem
      = (calls t).filter closesSystem ∧
    ((deviceLoop sdk hSystem n i (w, t)).1 ≠ AC_ERR_SUCCESS →
      ∃ r : Resp, (answers (deviceLoop sdk hSystem n i (w, t)).2.2).getLast? = some r ∧
        r.err = (deviceLoop sdk hSystem n i (w, t)).1) := by
  induction n generalizing i w t with
  | zero => exact ⟨by simp [deviceLoop, run_pure], fun h => absurd rfl h⟩
  | succ n ih =>
    generalize hout : deviceLoop sdk hSystem (n + 1) i (w, t) = out
    unfold deviceLoop at hout
    replace hout := printf_elim hout
    replace hout := call_elim hout
    obtain ⟨r1, -, hout⟩ := hout
    replace hout := check_elim hout
    rcases hout with ⟨hf, rfl⟩ | ⟨h1, hout⟩
    · exact ⟨by simp [closesSystem], fun _ => ⟨_, by simp, rfl⟩⟩
    replace hout := printf_elim hout
    replace hout := call_elim hout
    obtain ⟨r2, -, hout⟩ := hout
    replace hout := check_elim hout
    rcases hout with ⟨hf, rfl⟩ | ⟨h2, hout⟩
    · exact ⟨by simp [closesSystem], fun _ => ⟨_, by simp, rfl⟩⟩
    replace hout := printf_elim hout
    replace hout := call_elim hout
    obtain ⟨r3, -, hout⟩ := hout
    replace hout := check_elim hout
    rcases hout with ⟨hf, rfl⟩ | ⟨h3, hout⟩
    · exact ⟨by simp [closesSystem], fun _ => ⟨_, by simp, rfl⟩⟩
    replace hout := printf_elim hout
    replace hout := call_elim hout
    obtain ⟨r4, -, hout⟩ := hout
    replace hout := check_elim hout
    rcases hout with ⟨hf, rfl⟩ | ⟨h4, hout⟩
    · exact ⟨by simp [closesSystem], fun _ => ⟨_, by simp, rfl⟩⟩
    replace hout := printf_elim hout
    replace hout := call_elim hout
    obtain ⟨r5, -, hout⟩ := hout
    replace hout := check_elim hout
    rcases hout with ⟨hf, rfl⟩ | ⟨h5, hout⟩
    · exact ⟨by simp [closesSystem], fun _ => ⟨_, by simp, rfl⟩⟩
    replace hout := printf_elim hout
    replace hout := printf_elim hout
    replace hout := call_elim hout
    obtain ⟨d, -, hout⟩ := hout
    replace hout := check_elim hout
    rcases hout with ⟨hf, -⟩ | ⟨-, hout⟩
    · exact absurd h5 hf
    replace hout := call_elim hout
    obtain ⟨r6, -, hout⟩ := hout
    replace hout := check_elim hout
    rcases hout with ⟨hf, rfl⟩ | ⟨h6, hout⟩
    · exact ⟨by simp [closesSystem], fun _ => ⟨_, by simp, rfl⟩⟩
    replace hout := bind_elim hout
    obtain ⟨c1, hc1, hout⟩ := hout
    obtain ⟨g1, hg1⟩ := hasControl_state hc1
    rw [hg1] at hout
    replace hout := ite_elim hout
    rcases hout with ⟨hc, hout⟩ | ⟨hc, hout⟩
    · -- control is had
      replace hout := call_elim hout
      obtain ⟨ra, -, hout⟩ := hout
      replace hout := ite_elim hout
      rcases hout with ⟨hf, hout⟩ | ⟨ha, hout⟩
      · replace hout := printf_elim hout
        subst hout
        exact ⟨by simp [run_pure, closesSystem], fun _ => ⟨_, by simp [run_pure], rfl⟩⟩
      replace ha := not_not.mp ha
      replace hout := pure_elim hout
      replace hout := printf_elim hout
      replace hout := getchar_elim hout
      replace hout := printf_elim hout
      replace hout := call_elim hout
      obtain ⟨x, -, hout⟩ := hout
      replace hout := check_elim hout
      rcases hout with ⟨hf, -⟩ | ⟨-, hout⟩
      · exact absurd ha hf
      subst hout
      obtain ⟨hc1, hc2⟩ := ih (i + 1) x.2 _
      exact ⟨by rw [hc1]; simp [closesSystem], hc2⟩
    · -- control is not had
      replace hout := call_elim hout
      obtain ⟨ra, -, hout⟩ := hout
      replace hout := ite_elim hout
      rcases hout with ⟨hf, hout⟩ | ⟨ha, hout⟩
      · replace hout := printf_elim hout
        subst hout
        exact ⟨by simp [run_pure, closesSystem], fun _ => ⟨_, by simp [run_pure], rfl⟩⟩
      replace ha := not_not.mp ha
      replace hout := pure_elim hout
      replace hout := call_elim hout
      obtain ⟨rb, -, hout⟩ := hout
      replace hout := check_elim hout
      rcases hout with ⟨hf, rfl⟩ | ⟨hb, hout⟩
      · exact ⟨by simp [closesSystem], fun _ => ⟨_, by simp, rfl⟩⟩
      replace hout := bind_elim hout
      obtain ⟨c2, hc2, hout⟩ := hout
      obtain ⟨g2, hg2⟩ := hasControl_state hc2
      rw [hg2] at hout
      replace hout := ite_elim hout
      rcases hout with ⟨hc3, hout⟩ | ⟨hc3, hout⟩
      · replace hout := printf_elim hout
        replace hout := printf_elim hout
        replace hout := call_elim hout
        obtain ⟨x, -, hout⟩ := hout
        replace hout := check_elim hout
        rcases hout with ⟨hf, -⟩ | ⟨-, hout⟩
        · exact absurd hb hf
        subst hout
        obtain ⟨hc1, hc2⟩ := ih (i + 1) x.2 _
        exact ⟨by rw [hc1]; simp [closesSystem], hc2⟩
      · replace hout := printf_elim hout
        replace hout := printf_elim hout
        replace hout := call_elim hout
        obtain ⟨x, -, hout⟩ := hout
        replace hout := check_elim hout
        rcases hout with ⟨hf, -⟩ | ⟨-, hout⟩
        · exact absurd hb hf
        subst hout
        obtain ⟨hc1, hc2⟩ := ih (i + 1) x.2 _
        exact ⟨by rw [hc1]; simp [closesSystem], hc2⟩

/-- The facts of `deviceLoop_returns` and `extends_deviceLoop` about a named run. -/
theorem deviceLoop_returns_of {sdk : SDK W} {hSystem : Handle} {n i : Nat} {w : W} {t : Trace}
    {x : AC_ERROR × W × Trace} (h : x = deviceLoop sdk hSystem n i (w, t)) :
    (calls x.2.2).filter closesSystem = (calls t).filter closesSystem ∧
    (x.1 ≠ AC_ERR_SUCCESS → ∃ r : Resp, (answers x.2.2).getLast? = some r ∧ r.err = x.1) ∧
    ∃ d : Trace, x.2.2 = t ++ d := by
  subst h
  exact ⟨(deviceLoop_returns sdk hSystem n i w t).1, (deviceLoop_returns sdk hSystem n i w t).2,
    extends_deviceLoop sdk hSystem n i (w, t)⟩

/-- Every run of `EnumerateDevices` either returns an error code without closing
the system, or ends with the one call of `acCloseSystem` and returns its code. -/
theorem EnumerateDevices_returns (sdk : SDK W) (w : W) :
    ((calls (EnumerateDevices sdk (w, [])).2.2).filter closesSystem = [] ∧
      (EnumerateDevices sdk (w, [])).1 ≠ AC_ERR_SUCCESS ∧
      (((EnumerateDevices sdk (w, [])).1 = AC_ERR_INVALID_VALUE ∧
          deviceCounts (EnumerateDevices sdk (w, [])).2.2 = [0]) ∨
        ∃ r : Resp, (answers (EnumerateDevices sdk (w, [])).2.2).getLast? = some r ∧
          r.err = (EnumerateDevices sdk (w, [])).1)) ∨
    ∃ (pre : Trace) (o c : Resp),
      (EnumerateDevices sdk (w, [])).2.2
        = pre ++ [Event.call (.system (.acCloseSystem o.handle)) c] ∧
      (answers pre).head? = some o ∧
      (calls pre).filter closesSystem = [] ∧
      (EnumerateDevices sdk (w, [])).1 = c.err := by
  generalize hout : EnumerateDevices sdk (w, []) = out
  unfold EnumerateDevices at hout
  replace hout := printf_elim hout
  replace hout := call_elim hout
  obtain ⟨r1, -, hout⟩ := hout
  replace hout := check_elim hout
  rcases hout with ⟨hf, rfl⟩ | ⟨h1, hout⟩
  · exact Or.inl ⟨by simp [closesSystem], hf, Or.inr ⟨_, by simp, rfl⟩⟩
  replace hout := printf_elim hout
  replace hout := call_elim hout
  obtain ⟨r2, -, hout⟩ := hout
  replace hout := check_elim hout
  rcases hout with ⟨hf, rfl⟩ | ⟨h2, hout⟩
  · exact Or.inl ⟨by simp [closesSystem], hf, Or.inr ⟨_, by simp, rfl⟩⟩
  replace hout := call_elim hout
  obtain ⟨r3, -, hout⟩ := hout
  replace hout := check_elim hout
  rcases hout with ⟨hf, rfl⟩ | ⟨h3, hout⟩
  · exact Or.inl ⟨by simp [closesSystem], hf, Or.inr ⟨_, by simp, rfl⟩⟩
  replace hout := printf_elim hout
  replace hout := ite_elim hout
  rcases hout with ⟨hz, hout⟩ | ⟨hz, hout⟩
  · replace hout := printf_elim hout
    subst hout
    exact Or.inl ⟨by simp [run_pure, closesSystem], by simp [run_pure],
      Or.inl ⟨by simp [run_pure], by simp [run_pure, deviceCounts_cons, Event.deviceCount, hz]⟩⟩
  replace hout := pure_elim hout
  replace hout := bind_elim hout
  obtain ⟨L, hL, hout⟩ := hout
  obtain ⟨hc1, hc2, d, hd⟩ := deviceLoop_returns_of hL
  replace hout := check_elim hout
  rcases hout with ⟨hf, rfl⟩ | ⟨h4, hout⟩
  · exact Or.inl ⟨by rw [hc1]; simp [closesSystem], hf, Or.inr (hc2 hf)⟩
  replace hout := printf_elim hout
  replace hout := call_elim hout
  obtain ⟨c, -, hout⟩ := hout
  subst hout
  refine Or.inr ⟨L.2.2 ++ [Event.printf "%sClose system\n" [.str TAB1]], r1.1, c.1,
    by simp [run_pure], ?_, ?_, by simp [run_pure]⟩
  · simp only [hd]
    simp
  · simp only [calls_append, List.filter_append, hc1]
    simp [closesSystem]

/-- C6 (amended): `EnumerateDevices` releases what it acquires on the path on
which every call succeeds, and returns without `acCloseSystem` on the path
"No camera connected" and on every early error return.
(1) In every run in which every call succeeds and at least one device is found,
the system is opened, every device is created and then destroyed before the next
one is created, and `acCloseSystem` is called on the system opened, after the
last device was destroyed.
(2) In every run in which `acSystemGetNumDevices` succeeds and reports no device,
the run is the one of the path "No camera connected": three calls, none of which
is `acCloseSystem`, and `AC_ERR_INVALID_VALUE` is returned.
(3) Whatever the library answers, either `acCloseSystem` is not called at all and
the code returned is not `AC_ERR_SUCCESS`, namely `AC_ERR_INVALID_VALUE` after a
device count of `0`, or else the code of the last call made, after which nothing
more is called; or `acCloseSystem` is the last event of the run and its only
call of `acCloseSystem`, on the handle that the first call returned, and its
code is returned. -/
theorem C6_release_on_success (sdk : SDK W) (w : W) :
    (AllOk (EnumerateDevices sdk (w, [])).2.2 →
      (∀ n ∈ deviceCounts (EnumerateDevices sdk (w, [])).2.2, n ≠ 0) →
      IsReleasedRun (EnumerateDevices sdk (w, [])).2.2) ∧
    (∀ r : Resp, (deviceLists (EnumerateDevices sdk (w, [])).2.2).head? = some r →
      r.err = AC_ERR_SUCCESS → r.num = 0 →
      (EnumerateDevices sdk (w, [])).1 = AC_ERR_INVALID_VALUE ∧
      ∃ o u : Resp, (EnumerateDevices sdk (w, [])).2.2 =
        [Event.printf "%sOpen system\n" [.str TAB1],
         Event.call (.system .acOpenSystem) o,
         Event.printf "%sUpdate and retrieve number of devices\n" [.str TAB1],
         Event.call (.system (.acSystemUpdateDevices o.handle SYSTEM_TIMEOUT)) u,
         Event.call (.system (.acSystemGetNumDevices o.handle)) r,
         Event.printf "%sGet device information\n" [.str TAB1],
         Event.printf "%sNo camera connected\n" [.str TAB1]]) ∧
    (((calls (EnumerateDevices sdk (w, [])).2.2).filter closesSystem = [] ∧
        (EnumerateDevices sdk (w, [])).1 ≠ AC_ERR_SUCCESS ∧
        (((EnumerateDevices sdk (w, [])).1 = AC_ERR_INVALID_VALUE ∧
            deviceCounts (EnumerateDevices sdk (w, [])).2.2 = [0]) ∨
          ∃ r : Resp, (answers (EnumerateDevices sdk (w, [])).2.2).getLast? = some r ∧
            r.err = (EnumerateDevices sdk (w, [])).1)) ∨
      ∃ (pre : Trace) (o c : Resp),
        (EnumerateDevices sdk (w, [])).2.2
          = pre ++ [Event.call (.system (.acCloseSystem o.handle)) c] ∧
        (answers pre).head? = some o ∧
        (calls pre).filter closesSystem = [] ∧
        (EnumerateDevices sdk (w, [])).1 = c.err) := by
  refine ⟨EnumerateDevices_released sdk w, ?_, EnumerateDevices_returns sdk w⟩
  intro r hr hok h0
  obtain ⟨o, u, w1, hx⟩ := EnumerateDevices_empty sdk w [] r rfl hr hok h0
  exact ⟨by rw [hx], o, u, by rw [hx]; rfl⟩

/-- C6, witness: two cameras on which every call succeeds, and no camera. -/
theorem C6_release_on_success_witness :
    (AllOk (EnumerateDevices (cameras 2) ((), [])).2.2 ∧
      (∀ n ∈ deviceCounts (EnumerateDevices (cameras 2) ((), [])).2.2, n ≠ 0) ∧
      IsReleasedRun (EnumerateDevices (cameras 2) ((), [])).2.2) ∧
    ((deviceLists (EnumerateDevices (cameras 0) ((), [])).2.2).head?
        = some { answer AC_ACCESS_MODE_RW 7 with num := 0 } ∧
      (EnumerateDevices (cameras 0) ((), [])).1 = AC_ERR_INVALID_VALUE ∧
      ∃ o u : Resp, (EnumerateDevices (cameras 0) ((), [])).2.2 =
        [Event.printf "%sOpen system\n" [.str TAB1],
         Event.call (.system .acOpenSystem) o,
         Event.printf "%sUpdate and retrieve number of devices\n" [.str TAB1],
         Event.call (.system (.acSystemUpdateDevices o.handle SYSTEM_TIMEOUT)) u,
         Event.call (.system (.acSystemGetNumDevices o.handle))
           { answer AC_ACCESS_MODE_RW 7 with num := 0 },
         Event.printf "%sGet device information\n" [.str TAB1],
         Event.printf "%sNo camera connected\n" [.str TAB1]]) :=
  ⟨⟨by decide!, by decide!, (C6_release_on_success (cameras 2) ()).1 (by decide!) (by decide!)⟩,
   ⟨by decide!,
    (C6_release_on_success (cameras 0) ()).2.1 _ (by decide!) (by decide!) (by decide!)⟩⟩

end C_Enumeration_CcpSwitchover

/-! ## The empty device list -/

/-- C13: when the library answers the request for the device list with an empty
list (`r` is that answer, the first of its kind in the run, it reports success
and `0` devices), then in the C version `EnumerateDevices` returns
`AC_ERR_INVALID_VALUE` and in the C++ version it throws `std::runtime_error`;
the only library calls of `EnumerateDevices` are the opening of the system, the
update of the device list and the request for it, so no device is created and no
node is written; and `main` returns `-1` in both versions, the C version after
fetching the last error message and the C++ version without a further call. -/
theorem C13_empty_device_list {W : Type} (sdk : SDK W) (w : W) (r : Resp) (h0 : r.num = 0) :
    ((deviceLists (C_Enumeration_CcpSwitchover.EnumerateDevices sdk (w, [])).2.2).head? = some r →
      r.err = AC_ERR_SUCCESS →
      (C_Enumeration_CcpSwitchover.EnumerateDevices sdk (w, [])).1 = AC_ERR_INVALID_VALUE ∧
      ∃ o : Resp, calls (C_Enumeration_CcpSwitchover.EnumerateDevices sdk (w, [])).2.2
        = [.system .acOpenSystem,
           .system (.acSystemUpdateDevices o.handle C_Enumeration_CcpSwitchover.SYSTEM_TIMEOUT),
           .system (.acSystemGetNumDevices o.handle)]) ∧
    ((deviceLists (C_Enumeration_CcpSwitchover.main sdk (w, [])).2.2).head? = some r →
      r.err = AC_ERR_SUCCESS →
      (C_Enumeration_CcpSwitchover.main sdk (w, [])).1 = -1 ∧
      ∃ o : Resp, calls (C_Enumeration_CcpSwitchover.main sdk (w, [])).2.2
        = [.system .acOpenSystem,
           .system (.acSystemUpdateDevices o.handle C_Enumeration_CcpSwitchover.SYSTEM_TIMEOUT),
           .system (.acSystemGetNumDevices o.handle), .system .acGetLastErrorMessage]) ∧
    ((deviceLists (Cpp_Enumeration_CcpSwitchover.EnumerateDevices sdk (w, [])).2.2).head? = some r →
      r.thrown = none →
      (Cpp_Enumeration_CcpSwitchover.EnumerateDevices sdk (w, [])).1
        = .error (.standard "No Camera Conencted") ∧
      ∃ o : Resp, calls (Cpp_Enumeration_CcpSwitchover.EnumerateDevices sdk (w, [])).2.2
        = [.cppSystem .OpenSystem,
           .cppSystem (.UpdateDevices o.handle Cpp_Enumeration_CcpSwitchover.SYSTEM_TIMEOUT),
           .cppSystem (.GetDevices o.handle)]) ∧
    ((deviceLists (Cpp_Enumeration_CcpSwitchover.main sdk (w, [])).2.2).head? = some r →
      r.thrown = none →
      (Cpp_Enumeration_CcpSwitchover.main sdk (w, [])).1 = -1 ∧
      ∃ o : Resp, calls (Cpp_Enumeration_CcpSwitchover.main sdk (w, [])).2.2
        = [.cppSystem .OpenSystem,
           .cppSystem (.UpdateDevices o.handle Cpp_Enumeration_CcpSwitchover.SYSTEM_TIMEOUT),
           .cppSystem (.GetDevices o.handle)]) := by
  refine ⟨?_, ?_, ?_, ?_⟩
  · intro hr hok
    obtain ⟨o, u, w1, hEq⟩ :=
      C_Enumeration_CcpSwitchover.EnumerateDevices_empty sdk w [] r rfl hr hok h0
    rw [hEq]
    exact ⟨rfl, o, by simp⟩
  · intro hr hok
    exact C_Enumeration_CcpSwitchover.main_empty sdk w r hr hok h0
  · intro hr hok
    obtain ⟨o, u, w1, hEq⟩ :=
      Cpp_Enumeration_CcpSwitchover.enum_EnumerateDevices_empty sdk w [] r rfl hr hok h0
    rw [hEq]
    exact ⟨rfl, o, by simp [calls]⟩
  · intro hr hok
    exact Cpp_Enumeration_CcpSwitchover.enum_main_empty sdk w r hr hok h0

/-- C13, witness: the library `noCamera`, whose answer to both requests for the
device list is a success with no device. -/
theorem C13_empty_device_list_witness :
    ({ answer AC_ACCESS_MODE_RW 7 with num := 0 } : Resp).num = 0 ∧
    (deviceLists (C_Enumeration_CcpSwitchover.main noCamera ((), [])).2.2).head?
      = some { answer AC_ACCESS_MODE_RW 7 with num := 0 } ∧
    (deviceLists (Cpp_Enumeration_CcpSwitchover.main noCamera ((), [])).2.2).head?
      = some { answer AC_ACCESS_MODE_RW 7 with num := 0 } ∧
    (C_Enumeration_CcpSwitchover.EnumerateDevices noCamera ((), [])).1 = AC_ERR_INVALID_VALUE ∧
    (C_Enumeration_CcpSwitchover.main noCamera ((), [])).1 = -1 ∧
    (Cpp_Enumeration_CcpSwitchover.EnumerateDevices noCamera ((), [])).1
      = .error (.standard "No Camera Conencted") ∧
    (Cpp_Enumeration_CcpSwitchover.main noCamera ((), [])).1 = -1 :=
  ⟨rfl, by decide!, by decide!,
    ((C13_empty_device_list noCamera () { answer AC_ACCESS_MODE_RW 7 with num := 0 } rfl).1
      (by decide!) (by decide!)).1,
    ((C13_empty_device_list noCamera () { answer AC_ACCESS_MODE_RW 7 with num := 0 } rfl).2.1
      (by decide!) (by decide!)).1,
    ((C13_empty_device_list noCamera () { answer AC_ACCESS_MODE_RW 7 with num := 0 } rfl).2.2.1
      (by decide!) (by decide!)).1,
    ((C13_empty_device_list noCamera () { answer AC_ACCESS_MODE_RW 7 with num := 0 } rfl).2.2.2
      (by decide!) (by decide!)).1⟩

/-! ## `C_Explore_Nodes.c`: the exploration of a tree -/

namespace C_Explore_Nodes

/-! ### The exploration of a tree of nodes -/

theorem pathOf_handleOf (p : List Nat) : pathOf (handleOf p) = p := by
  simp [pathOf, handleOf]

theorem nodeAnswer_handleOf {T S : NodeTree} {p : List Nat} (h : T.subtree p = some S)
    (f : NodeTree → Resp) : nodeAnswer T (handleOf p) f = f S := by
  unfold nodeAnswer
  rw [if_neg (by simp [handleOf, NULL]), pathOf_handleOf, h]

theorem subtree_append (T : NodeTree) (p : List Nat) (i : Nat) :
    T.subtree (p ++ [i]) = match T.subtree p with
      | some S => S.features[i]?
      | none => none := by
  induction p generalizing T with
  | nil =>
    simp only [List.nil_append, NodeTree.subtree]
    cases T.features[i]? <;> rfl
  | cons j p ih =>
    simp only [List.cons_append, NodeTree.subtree]
    cases T.features[j]? with
    | none => rfl
    | some f => exact ih f

theorem height_pos (S : NodeTree) : 0 < S.height := by
  cases S <;> simp [NodeTree.height]

theorem height_le_heights {f : NodeTree} {fs : List NodeTree} (h : f ∈ fs) :
    f.height ≤ NodeTree.height.heights fs := by
  induction fs with
  | nil => simp at h
  | cons g gs ih =>
    simp only [NodeTree.height.heights]
    rcases List.mem_cons.mp h with rfl | h
    · exact le_max_left _ _
    · exact le_trans (ih h) (le_max_right _ _)

@[simp] theorem prints_nil : prints [] = [] := rfl

@[simp] theorem prints_append (t u : Trace) : prints (t ++ u) = prints t ++ prints u := by
  simp [prints]

@[simp] theorem prints_cons_printf (fmt : String) (args : List Arg) (t : Trace) :
    prints (Event.printf fmt args :: t) = Event.printf fmt args :: prints t := by
  simp [prints]

@[simp] theorem prints_cons_call (c : Call) (r : Resp) (t : Trace) :
    prints (Event.call c r :: t) = prints t := by
  simp [prints]

@[simp] theorem prints_cons_space (t : Trace) : prints (space :: t) = space :: prints t := by
  simp [prints, space]

@[simp] theorem ok_space : space.ok = true := rfl

@[simp] theorem prints_replicate_space (n : Nat) :
    prints (List.replicate n space) = List.replicate n space := by
  induction n with
  | zero => rfl
  | succ n ih => simp [List.replicate_succ, space, prints] at ih ⊢

@[simp] theorem allOk_replicate_space (n : Nat) : AllOk (List.replicate n space) := by
  induction n with
  | zero => rfl
  | succ n ih => simp [List.replicate_succ, space] at ih ⊢; exact ih

section
variable {W : Type}

theorem run_Indent (depth : Nat) (w : W) (t : Trace) :
    Indent depth (w, t) = ((), (w, t ++ List.replicate depth space)) := by
  induction depth generalizing t with
  | zero => simp [Indent, run_pure]
  | succ n ih =>
    unfold Indent
    rw [run_bind, run_printf, ih]
    simp [List.replicate_succ, space]

/-- An indentation followed by the rest of the program. -/
theorem indent_elim {α : Type} {depth : Nat} {f : Unit → Prog W α} {w : W} {t : Trace}
    {out : α × W × Trace} (h : (Indent depth >>= f) (w, t) = out) :
    f () (w, t ++ List.replicate depth space) = out := by
  rw [run_bind, run_Indent] at h
  exact h

end

/-- The loop over the features of a category explores them in the order of
their indices, when each exploration does what is expected of it. -/
theorem featureLoop_subtree (T : NodeTree) (fuel : Nat) (p : List Nat) (info : NodeInfo)
    (fs : List NodeTree) (d : Nat) (hS : T.subtree p = some (.category info fs))
    (hexp : ∀ (i : Nat) (f : NodeTree) (t : Trace), fs[i]? = some f →
      Explored (f.preorder d) t
        (ExploreNode (treeSDK T) fuel (handleOf (p ++ [i])) d ((), t))) :
    ∀ (n i : Nat) (t : Trace), i + n = fs.length →
      Explored (NodeTree.preorder.preorders (fs.drop i) d) t
        (featureLoop (treeSDK T) (ExploreNode (treeSDK T) fuel) (handleOf p) d n i ((), t)) := by
  intro n
  induction n with
  | zero =>
    intro i t hi
    have : fs.drop i = [] := List.drop_eq_nil_of_le (by omega)
    rw [this]
    exact ⟨rfl, by simp [featureLoop, run_pure, NodeTree.preorder.preorders], fun h => h⟩
  | succ n ih =>
    intro i t hi
    have hlt : i < fs.length := by omega
    generalize hout : featureLoop (treeSDK T) (ExploreNode (treeSDK T) fuel) (handleOf p) d
      (n + 1) i ((), t) = out
    unfold featureLoop at hout
    replace hout := call_elim hout
    obtain ⟨r, hr, hout⟩ := hout
    simp only [treeSDK] at hr
    rw [nodeAnswer_handleOf hS, pathOf_handleOf] at hr
    simp only [NodeTree.features, hlt, if_true] at hr
    subst hr
    replace hout := ite_elim hout
    rcases hout with ⟨hc, -⟩ | ⟨-, hout⟩
    · exact absurd rfl hc
    replace hout := pure_elim hout
    replace hout := bind_elim hout
    obtain ⟨E, hE, hout⟩ := hout
    have hEx := hexp i fs[i] (t ++ [Event.call (.node (.acCategoryGetFeature (handleOf p) i))
      { success with handle := handleOf (p ++ [i]) }]) (List.getElem?_eq_getElem hlt)
    have hE2 : E = ExploreNode (treeSDK T) fuel (handleOf (p ++ [i])) d
        ((), t ++ [Event.call (.node (.acCategoryGetFeature (handleOf p) i))
          { success with handle := handleOf (p ++ [i]) }]) := hE
    rw [← hE2] at hEx
    obtain ⟨hE1, hEp, hEa⟩ := hEx
    replace hout := ite_elim hout
    rcases hout with ⟨hc, -⟩ | ⟨-, hout⟩
    · rw [hE1] at hc; simp at hc
    replace hout := pure_elim hout
    have hrest : featureLoop (treeSDK T) (ExploreNode (treeSDK T) fuel) (handleOf p) d
        n (i + 1) ((), E.2.2) = out := hout
    have hI := ih (i + 1) E.2.2 (by omega)
    rw [hrest] at hI
    obtain ⟨h1, h2, h3⟩ := hI
    refine ⟨h1, ?_, ?_⟩
    · rw [h2, hEp, List.drop_eq_getElem_cons hlt]
      simp [NodeTree.preorder.preorders, List.flatMap_append]
    · intro ht
      exact h3 (hEa (by simp [ht, success, failure]))

set_option maxHeartbeats 1000000 in
/-- The exploration of the subtree `S` found at the path `p` of the tree, at the
depth `d`, with enough fuel. -/
theorem ExploreNode_subtree (T : NodeTree) :
    ∀ (fuel : Nat) (S : NodeTree) (p : List Nat) (d : Nat) (t : Trace),
      T.subtree p = some S → S.height ≤ fuel → d + S.height < SIZE_MAX1 →
      Explored (S.preorder d) t (ExploreNode (treeSDK T) fuel (handleOf p) d ((), t)) := by
  intro fuel
  induction fuel with
  | zero =>
    intro S p d t _ hh _
    exact absurd (height_pos S) (by omega)
  | succ fuel ih =>
    intro S p d t hS hfuel hd
    generalize hout : ExploreNode (treeSDK T) (fuel + 1) (handleOf p) d ((), t) = out
    unfold ExploreNode at hout
    -- display name
    replace hout := call_elim hout
    obtain ⟨dn, hr, hout⟩ := hout
    simp only [treeSDK] at hr
    rw [nodeAnswer_handleOf hS] at hr
    subst hr
    replace hout := ite_elim hout
    rcases hout with ⟨hc, -⟩ | ⟨-, hout⟩
    · exact absurd rfl hc
    replace hout := pure_elim hout
    -- node name
    replace hout := call_elim hout
    obtain ⟨nn, hr, hout⟩ := hout
    simp only [treeSDK] at hr
    rw [nodeAnswer_handleOf hS] at hr
    subst hr
    replace hout := ite_elim hout
    rcases hout with ⟨hc, -⟩ | ⟨-, hout⟩
    · exact absurd rfl hc
    replace hout := pure_elim hout
    -- accessibility
    replace hout := call_elim hout
    obtain ⟨am, hr, hout⟩ := hout
    simp only [treeSDK] at hr
    rw [nodeAnswer_handleOf hS] at hr
    subst hr
    replace hout := ite_elim hout
    rcases hout with ⟨hc, -⟩ | ⟨-, hout⟩
    · exact absurd rfl hc
    replace hout := pure_elim hout
    -- visibility
    replace hout := call_elim hout
    obtain ⟨vis, hr, hout⟩ := hout
    simp only [treeSDK] at hr
    rw [nodeAnswer_handleOf hS] at hr
    subst hr
    replace hout := ite_elim hout
    rcases hout with ⟨hc, -⟩ | ⟨-, hout⟩
    · exact absurd rfl hc
    replace hout := pure_elim hout
    -- interface type
    replace hout := call_elim hout
    obtain ⟨it, hr, hout⟩ := hout
    simp only [treeSDK] at hr
    rw [nodeAnswer_handleOf hS] at hr
    subst hr
    replace hout := ite_elim hout
    rcases hout with ⟨hc, -⟩ | ⟨-, hout⟩
    · exact absurd rfl hc
    replace hout := pure_elim hout
    -- value
    replace hout := call_elim hout
    obtain ⟨rd, hr, hout⟩ := hout
    simp only [treeSDK] at hr
    rw [nodeAnswer_handleOf hS] at hr
    subst hr
    replace hout := ite_elim hout
    rcases hout with ⟨hc, -⟩ | ⟨-, hout⟩
    · exact absurd rfl hc
    replace hout := pure_elim hout
    replace hout := call_elim hout
    obtain ⟨v, hr, hout⟩ := hout
    simp only [treeSDK] at hr
    rw [nodeAnswer_handleOf hS] at hr
    subst hr
    replace hout := ite_elim hout
    rcases hout with ⟨hc, -⟩ | ⟨-, hout⟩
    · exact absurd rfl hc
    replace hout := pure_elim hout
    -- the line
    replace hout := indent_elim hout
    replace hout := printf_elim hout
    replace hout := indent_elim hout
    replace hout := printf_elim hout
    replace hout := indent_elim hout
    replace hout := printf_elim hout
    replace hout := indent_elim hout
    replace hout := printf_elim hout
    replace hout := indent_elim hout
    -- the value, in one of its three forms
    replace hout := ite_elim hout
    rcases hout with ⟨hrd, hout⟩ | ⟨hrd, hout⟩
    on_goal 2 =>
      replace hout := ite_elim hout
      rcases hout with ⟨hlen, hout⟩ | ⟨hlen, hout⟩
    all_goals
      replace hout := printf_elim hout
      replace hout := printf_elim hout
      rcases S with ⟨info, k⟩ | ⟨info, fs⟩
      · -- a feature
        replace hout := ite_elim hout
        rcases hout with ⟨hc, -⟩ | ⟨-, hout⟩
        · simp [NodeTree.interfaceType] at hc
        subst hout
        refine ⟨rfl, ?_, ?_⟩
        · simp only [run_pure, NodeTree.info, NodeTree.interfaceType] at hrd ⊢
          first
            | (simp only [NodeTree.info] at hlen
               simp [NodeTree.preorder, expectedLine, columns, newline, hrd, hlen])
            | simp [NodeTree.preorder, expectedLine, columns, newline, hrd]
        · intro ht
          simp [run_pure, ht, success, failure]
      · -- a category
        replace hout := ite_elim hout
        rcases hout with ⟨-, hout⟩ | ⟨hc, -⟩
        swap
        · simp [NodeTree.interfaceType] at hc
        replace hout := call_elim hout
        obtain ⟨nf, hr, hout⟩ := hout
        simp only [treeSDK] at hr
        rw [nodeAnswer_handleOf hS] at hr
        subst hr
        replace hout := ite_elim hout
        rcases hout with ⟨hc, -⟩ | ⟨-, hout⟩
        · exact absurd rfl hc
        replace hout := pure_elim hout
        simp only [NodeTree.height] at hfuel hd
        have hmod : (d + 1) % SIZE_MAX1 = d + 1 := Nat.mod_eq_of_lt (by omega)
        have key : ∀ (s : Unit × Trace) (o : Option AC_ERROR × Unit × Trace),
            featureLoop (treeSDK T) (ExploreNode (treeSDK T) fuel) (handleOf p) (d + 1)
              fs.length 0 s = o → Explored (NodeTree.preorder.preorders fs (d + 1)) s.2 o := by
          intro s o h
          subst h
          have := featureLoop_subtree T fuel p info fs (d + 1) hS
            (fun i f t' hf => ih f (p ++ [i]) (d + 1) t' (by rw [subtree_append, hS]; exact hf)
              (by have := height_le_heights (List.getElem?_mem hf); omega)
              (by have := height_le_heights (List.getElem?_mem hf); omega))
            fs.length 0 s.2 (Nat.zero_add _)
          simpa using this
        dsimp only at hout
        rw [hmod] at hout
        obtain ⟨h1, h2, h3⟩ := key _ _ hout
        refine ⟨h1, ?_, ?_⟩
        · rw [h2]
          simp only [NodeTree.info, NodeTree.interfaceType] at hrd ⊢
          first
            | (simp only [NodeTree.info] at hlen
               simp [NodeTree.preorder, expectedLine, columns, newline, hrd, hlen])
            | simp [NodeTree.preorder, expectedLine, columns, newline, hrd]
        · intro ht
          apply h3
          simp [ht, success, failure]

/-- A line holds one end of line. -/
theorem count_newline_expectedLine (x : NodeInfo × AC_INTERFACE_TYPE × Nat) :
    (expectedLine x).count newline = 1 := by
  simp only [expectedLine, columns, List.count_append, List.count_replicate, List.count_cons,
    List.count_nil]
  split_ifs <;> simp_all [space, newline]

/-- The end of line is the last event of a line. -/
theorem last_expectedLine (x : NodeInfo × AC_INTERFACE_TYPE × Nat) :
    (expectedLine x).getLast? = some newline := by
  unfold expectedLine
  exact List.getLast?_concat _

theorem count_newline_flatMap (l : List (NodeInfo × AC_INTERFACE_TYPE × Nat)) :
    (l.flatMap expectedLine).count newline = l.length := by
  induction l with
  | nil => rfl
  | cons x l ih =>
    rw [List.flatMap_cons, List.count_append, ih, count_newline_expectedLine, List.length_cons]
    omega

/-- C11: for every finite tree of nodes `T`, presented by the library `treeSDK T`
on which every call succeeds, `ExploreNode(root, 0)` returns `AC_ERR_SUCCESS`
(with any fuel of at least the height of the tree), every call it makes
succeeds, and its output is `expectedOutput T`: for each node of the tree, in
pre-order with the features of a category in the order of their indices, the
line of that node, which begins with as many spaces as the node is away from the
root, followed by the names of the node, and ends with the only end of line it
holds; so the output holds as many lines as the tree has nodes.  The depth is a
`size_t`, so the height of the tree is taken below `2 ^ 64`. -/
theorem C11_preorder_lines (T : NodeTree) (fuel : Nat) (hfuel : T.height ≤ fuel)
    (hheight : T.height < SIZE_MAX1) :
    (ExploreNode (treeSDK T) fuel (handleOf []) 0 ((), [])).1 = some AC_ERR_SUCCESS ∧
    AllOk (ExploreNode (treeSDK T) fuel (handleOf []) 0 ((), [])).2.2 ∧
    prints (ExploreNode (treeSDK T) fuel (handleOf []) 0 ((), [])).2.2 = expectedOutput T ∧
    (prints (ExploreNode (treeSDK T) fuel (handleOf []) 0 ((), [])).2.2).count newline
      = (T.preorder 0).length ∧
    ∀ x ∈ T.preorder 0, ∃ rest : Trace,
      expectedLine x = List.replicate x.2.2 space ++
        Event.printf "%s (%s)" [.str x.1.displayName, .str x.1.name] :: rest ∧
      (expectedLine x).count newline = 1 ∧ (expectedLine x).getLast? = some newline := by
  obtain ⟨h1, h2, h3⟩ := ExploreNode_subtree T fuel T [] 0 [] rfl hfuel (by omega)
  have h2' : prints (ExploreNode (treeSDK T) fuel (handleOf []) 0 ((), [])).2.2
      = expectedOutput T := by simpa [expectedOutput] using h2
  refine ⟨h1, h3 allOk_nil, h2', ?_, ?_⟩
  · rw [h2', expectedOutput, count_newline_flatMap]
  · intro x _
    exact ⟨columns x ++ [newline], by simp [expectedLine], count_newline_expectedLine x,
      last_expectedLine x⟩

/-- C11, witness: the tree `sampleTree`, of height `3`. -/
theorem C11_preorder_lines_witness :
    sampleTree.height ≤ 3 ∧ sampleTree.height < SIZE_MAX1 ∧
    (ExploreNode (treeSDK sampleTree) 3 (handleOf []) 0 ((), [])).1 = some AC_ERR_SUCCESS ∧
    prints (ExploreNode (treeSDK sampleTree) 3 (handleOf []) 0 ((), [])).2.2
      = expectedOutput sampleTree :=
  ⟨by decide, by decide,
    (C11_preorder_lines sampleTree 3 (by decide) (by decide)).1,
    (C11_preorder_lines sampleTree 3 (by decide) (by decide)).2.2.1⟩

end C_Explore_Nodes

end ArenaSDK
